import Mathlib

/-!
# Sensor-hub firmware (consanii/sensei-demo-sensorhub, `src_NRF`)

A shallow embedding of the acquisition program in `main.c` and of the sensor
helpers it calls, followed by theorems about it.

Conventions of the embedding.

* Machine integers are `Nat`/`Int`; where the C code relies on 32-bit
  wrap-around (the millisecond uptime counter) the reduction modulo `2^32` is
  written out.
* `float`/`double` values are finite binary floating-point numbers (`Flt`).
  Every arithmetic operation, literal and conversion is rounded once to the
  precision of its C type (24 bits for `float`, 53 bits for `double`), ties to
  even, as in IEEE 754 with `FLT_EVAL_METHOD == 0` and without contraction.
  Overflow and subnormal numbers are not modelled: the conversions of this
  program stay far inside the normal range.
* Calls into the operating system and the vendor drivers are answered by an
  environment record that has one field per call site; the program is a
  function from such an environment to its return value and its trace of
  events.
* `LOG_DBG` statements are compiled out (main.c, test.c and the sensor modules
  embedded here register `LOG_LEVEL_INF`), so they neither appear in traces
  nor read the clock; the one exception is max_m10s_sensor.c, which declares
  `LOG_LEVEL_DBG`. A log event carries the format string of the message,
  without the padding macro `SPACES` of config.h.
* `SAMPLING_TIME` (config.h) is a parameter of the functions that use it.
-/

namespace SensorHub

/-! ## Machine integers -/

/-- Conversion of a bit pattern to `int32_t` (two's complement). -/
def i32 (x : Int) : Int := (x + 2 ^ 31) % 2 ^ 32 - 2 ^ 31

/-- The `uint32_t` difference `now - start` of two readings of `k_uptime_get_32()`. -/
def elapsed32 (now start : Nat) : Nat := (now % 2 ^ 32 + 2 ^ 32 - start % 2 ^ 32) % 2 ^ 32

/-! ## Binary floating point -/

/-- Structural helper for `ilog2`. -/
def ilog2Aux : Nat → Nat → Nat
  | 0, _ => 0
  | fuel + 1, n => if n < 2 then 0 else ilog2Aux fuel (n / 2) + 1

/-- Floor of the binary logarithm (`0` at `0`). -/
def ilog2 (n : Nat) : Nat := ilog2Aux n n

/-- A finite binary floating-point datum `(-1)^neg * mant * 2^exp`. -/
structure Flt where
  neg : Bool
  mant : Nat
  exp : Int
deriving DecidableEq, Repr

namespace Flt

/-- Exact value of a floating-point datum. -/
def toRat (x : Flt) : ℚ := (if x.neg then -1 else 1) * (x.mant : ℚ) * (2 : ℚ) ^ x.exp

/-- Numerator of the magnitude, over the denominator `den`. -/
def num (x : Flt) : Nat := x.mant * 2 ^ x.exp.toNat

/-- Denominator of the magnitude (a power of two). -/
def den (x : Flt) : Nat := 2 ^ (-x.exp).toNat

/-- Signed numerator. -/
def snum (x : Flt) : Int := if x.neg then -(x.num : Int) else (x.num : Int)

/-- Round the non-negative fraction `n / d` to `p` significant bits, ties to even;
`neg` is the sign of the result. -/
def roundNE (p : Nat) (neg : Bool) (n d : Nat) : Flt :=
  if n = 0 then ⟨neg, 0, 0⟩ else
  let e0 : Int := (ilog2 n : Int) - (ilog2 d : Int) - (p : Int)
  let e : Int := if 2 ^ p * (d * 2 ^ e0.toNat) ≤ n * 2 ^ (-e0).toNat then e0 + 1 else e0
  let N := n * 2 ^ (-e).toNat
  let D := d * 2 ^ e.toNat
  let q := N / D
  let r := N % D
  ⟨neg, if D < 2 * r ∨ (2 * r = D ∧ q % 2 = 1) then q + 1 else q, e⟩

/-- Conversion of an integer to a floating type of precision `p`. -/
def ofInt (p : Nat) (z : Int) : Flt := roundNE p (decide (z < 0)) z.natAbs 1

/-- A decimal literal `n / d` of a floating type of precision `p`. -/
def lit (p : Nat) (n d : Nat) : Flt := roundNE p false n d

/-- Conversion to a floating type of precision `p` (`double` to `float`). -/
def cast (p : Nat) (x : Flt) : Flt := roundNE p x.neg x.num x.den

/-- Floating-point multiplication in precision `p`. -/
def mul (p : Nat) (x y : Flt) : Flt :=
  roundNE p (x.neg != y.neg) (x.num * y.num) (x.den * y.den)

/-- Floating-point division in precision `p` (the divisor is not zero). -/
def div (p : Nat) (x y : Flt) : Flt :=
  roundNE p (x.neg != y.neg) (x.num * y.den) (x.den * y.num)

/-- Floating-point addition in precision `p`. -/
def add (p : Nat) (x y : Flt) : Flt :=
  let s : Int := x.snum * y.den + y.snum * x.den
  roundNE p (if s = 0 then x.neg && y.neg else decide (s < 0)) s.natAbs (x.den * y.den)

/-- Floating-point subtraction in precision `p`. -/
def sub (p : Nat) (x y : Flt) : Flt :=
  let s : Int := x.snum * y.den - y.snum * x.den
  roundNE p (if s = 0 then x.neg && !y.neg else decide (s < 0)) s.natAbs (x.den * y.den)

end Flt

/-! ## `printf` conversions -/

/-- The last `k` decimal digits of `n`, zero padded. -/
def digitsN : Nat → Nat → List Char
  | 0, _ => []
  | k + 1, n => digitsN k (n / 10) ++ [Char.ofNat (48 + n % 10)]

/-- Decimal digits of `n`, most significant first, without leading zeros. -/
def decimalAux : Nat → Nat → List Char
  | 0, _ => []
  | fuel + 1, n =>
    (if n / 10 = 0 then [] else decimalAux fuel (n / 10)) ++ [Char.ofNat (48 + n % 10)]

/-- The conversion `%u`. -/
def fmt_u (n : Nat) : List Char := decimalAux (n + 1) n

/-- The conversion `%f` of a finite value: sign, integer part, `.` and six
fractional digits, the value being rounded to six decimals (ties to even). -/
def fmt_f (x : Flt) : List Char :=
  let N := x.num * 10 ^ 6
  let D := x.den
  let q := N / D
  let r := N % D
  let k := if D < 2 * r ∨ (2 * r = D ∧ q % 2 = 1) then q + 1 else q
  (if x.neg then ['-'] else []) ++ fmt_u (k / 10 ^ 6) ++ ['.'] ++ digitsN 6 (k % 10 ^ 6)

/-- An argument of `printf`. -/
inductive Arg where
  | u (n : Nat)
  | f (x : Flt)

/-- Interpretation of a format string with the conversions `%u` and `%f`;
every other character is copied. -/
def printf_chars : List Char → List Arg → List Char
  | [], _ => []
  | [c], _ => [c]
  | c :: d :: fmt, args =>
    if c = '%' ∧ d = 'u' then
      match args with
      | Arg.u n :: rest => fmt_u n ++ printf_chars fmt rest
      | _ => c :: printf_chars (d :: fmt) args
    else if c = '%' ∧ d = 'f' then
      match args with
      | Arg.f x :: rest => fmt_f x ++ printf_chars fmt rest
      | _ => c :: printf_chars (d :: fmt) args
    else c :: printf_chars (d :: fmt) args

/-- The text written by `printf (fmt, args...)`. -/
def printf (fmt : String) (args : List Arg) : String := String.mk (printf_chars fmt.data args)

/-! ## Events and traces -/

/-- Severity of a log message (`LOG_ERR`, `LOG_WRN`, `LOG_INF`, `LOG_DBG`). -/
inductive Level where
  | err
  | wrn
  | inf
  | dbg
deriving DecidableEq, Repr

/-- An observable action of the program. `log` carries the format string of the
message, `printf` the text written to standard output (the CSV stream), `call`
the name of the function that is entered. -/
inductive Event where
  | log (lvl : Level) (msg : String)
  | printf (out : String)
  | k_msleep (ms : Int)
  | k_usleep (us : Int)
  | gpio_pin_set_dt (pin : String) (value : Int)
  | call (fn : String)
deriving DecidableEq, Repr

/-- The constant `NO_ERROR` of the Sensirion drivers. -/
def NO_ERROR : Int := 0

/-! ## util.c -/

/-- The function `sync` of util.c: a pulse on the second debug pin. -/
def sync : List Event :=
  [.call "sync", .gpio_pin_set_dt "gpio_debug_2" 1, .k_msleep 1, .gpio_pin_set_dt "gpio_debug_2" 0]

/-! ## Power sequencing (scd41_sensor.c, sgp41_sensor.c, bh1730fvc_sensor.c, as7331_sensor.c) -/

/-- Answers of the calls made by `poweron_scd41`. -/
structure PoweronScd41Env where
  gpio_SCD41_pwr : Int
  gpio_I2C_SCD41_EN : Int
  scd4x_wake_up : Int

/-- The function `poweron_scd41`: return value and trace. -/
def poweron_scd41 (e : PoweronScd41Env) : Int × List Event :=
  let t0 : List Event :=
    [.call "poweron_scd41", .log .inf "Power On SCD41 (CO2 Sensor)", .gpio_pin_set_dt "gpio_SCD41_pwr" 1]
  if e.gpio_SCD41_pwr ≠ NO_ERROR then
    (-1, t0 ++ [.log .err "Error %d, SSCD41 EN GPIO configuration error", .k_msleep 1000])
  else
    let t1 := t0 ++ [.gpio_pin_set_dt "gpio_I2C_SCD41_EN" 1]
    if e.gpio_I2C_SCD41_EN ≠ NO_ERROR then
      (-1, t1 ++ [.log .err "Error %d, SCD41 I2C EN GPIO init error", .k_msleep 1000])
    else
      let t2 := t1 ++ [.k_msleep 100, .call "scd4x_init", .call "scd4x_wake_up"]
      if e.scd4x_wake_up ≠ NO_ERROR then (0, t2 ++ [.log .err " * Error %d waking up SCD41"])
      else (0, t2)

/-- Answers of the calls made by `poweroff_scd41`. -/
structure PoweroffScd41Env where
  scd4x_power_down : Int
  gpio_SCD41_pwr : Int
  gpio_I2C_SCD41_EN : Int

/-- The function `poweroff_scd41`: return value and trace. -/
def poweroff_scd41 (e : PoweroffScd41Env) : Int × List Event :=
  let t0 : List Event :=
    [.call "poweroff_scd41", .log .inf "Power Off SCD41 (CO2 Sensor)", .call "scd4x_power_down"]
  if e.scd4x_power_down ≠ NO_ERROR then
    (-1, t0 ++ [.log .err " * Error %d powering down SCD41", .k_msleep 1000])
  else
    let t1 := t0 ++ [.gpio_pin_set_dt "gpio_SCD41_pwr" 0]
    if e.gpio_SCD41_pwr < 0 then
      (-1, t1 ++ [.log .err "SCD41 EN GPIO configuration error", .k_msleep 1000])
    else
      let t2 := t1 ++ [.gpio_pin_set_dt "gpio_I2C_SCD41_EN" 0]
      if e.gpio_I2C_SCD41_EN < 0 then
        (-1, t2 ++ [.log .err "SCD41 I2C EN GPIO configuration error", .k_msleep 1000])
      else (0, t2)

/-- Answers of the two GPIO writes made by `poweron_sgp41` and by `poweroff_sgp41`. -/
structure PowerSgp41Env where
  gpio_SGP41_pwr : Int
  gpio_I2C_SGP41_EN : Int

/-- The function `poweron_sgp41`: return value and trace. -/
def poweron_sgp41 (e : PowerSgp41Env) : Int × List Event :=
  let t0 : List Event :=
    [.call "poweron_sgp41", .log .inf "Power On SGP41 (VOC Sensor)", .gpio_pin_set_dt "gpio_SGP41_pwr" 1]
  if e.gpio_SGP41_pwr < 0 then
    (-1, t0 ++ [.log .err "SGP41 EN GPIO configuration error", .k_msleep 1000])
  else
    let t1 := t0 ++ [.gpio_pin_set_dt "gpio_I2C_SGP41_EN" 1]
    if e.gpio_I2C_SGP41_EN < 0 then
      (-1, t1 ++ [.log .err "SGP41 I2C EN GPIO configuration error", .k_msleep 1000])
    else (0, t1 ++ [.k_msleep 100])

/-- The function `poweroff_sgp41`: return value and trace. -/
def poweroff_sgp41 (e : PowerSgp41Env) : Int × List Event :=
  let t0 : List Event :=
    [.call "poweroff_sgp41", .log .inf "Power Off SGP41 (VOC Sensor)",
     .gpio_pin_set_dt "gpio_I2C_SGP41_EN" 0]
  if e.gpio_I2C_SGP41_EN < 0 then
    (-1, t0 ++ [.log .err "SGP41 I2C EN GPIO configuration error", .k_msleep 1000])
  else
    let t1 := t0 ++ [.gpio_pin_set_dt "gpio_SGP41_pwr" 0]
    if e.gpio_SGP41_pwr < 0 then
      (-1, t1 ++ [.log .err "SGP41 EN GPIO configuration error", .k_msleep 1000])
    else (0, t1)

/-- The function `poweron_bh1730`; the argument is the answer of `bh1730_power_on`. -/
def poweron_bh1730 (bh1730_power_on : Int) : Int × List Event :=
  let t0 : List Event :=
    [.call "poweron_bh1730", .log .inf "Power On BH1730FVC (Light Sensor)", .call "bh1730_power_on"]
  if bh1730_power_on ≠ 0 then
    (-1, t0 ++ [.log .err " * Error powering on BH1730FVC", .k_msleep 1000])
  else (0, t0)

/-- The function `poweroff_bh1730`; the argument is the answer of `bh1730_power_down`. -/
def poweroff_bh1730 (bh1730_power_down : Int) : Int × List Event :=
  let t0 : List Event :=
    [.call "poweroff_bh1730", .log .inf "Power Off BH1730FVC (Light Sensor)",
     .call "bh1730_power_down"]
  if bh1730_power_down ≠ 0 then
    (-1, t0 ++ [.log .err " * Error powering down BH1730FVC", .k_msleep 1000])
  else (0, t0)

/-- Answers of the calls made by `poweron_as7331`. -/
structure PoweronAs7331Env where
  gpio_I2C_AS7331_EN : Int
  as7331_power_up : Int

/-- The function `poweron_as7331`: return value and trace. -/
def poweron_as7331 (e : PoweronAs7331Env) : Int × List Event :=
  let t0 : List Event :=
    [.call "poweron_as7331", .log .inf "Power On AS7331 (UV Sensor)",
     .gpio_pin_set_dt "gpio_I2C_AS7331_EN" 1]
  if e.gpio_I2C_AS7331_EN < 0 then
    (-1, t0 ++ [.log .err "AS7331 I2C EN GPIO configuration error", .k_msleep 1000])
  else
    let t1 := t0 ++ [.k_msleep 100, .call "as7331_power_up"]
    if e.as7331_power_up ≠ 0 then
      (-1, t1 ++ [.log .err " * Error powering up AS7331", .k_msleep 1000])
    else (0, t1)

/-- Answers of the calls made by `poweroff_as7331`. -/
structure PoweroffAs7331Env where
  as7331_power_down : Int
  gpio_I2C_AS7331_EN : Int

/-- The function `poweroff_as7331`: return value and trace. -/
def poweroff_as7331 (e : PoweroffAs7331Env) : Int × List Event :=
  let t0 : List Event :=
    [.call "poweroff_as7331", .log .inf "Power Off AS7331 (UV Sensor)", .call "as7331_power_down"]
  if e.as7331_power_down ≠ 0 then
    (-1, t0 ++ [.log .err " * Error powering down AS7331", .k_msleep 1000])
  else
    let t1 := t0 ++ [.gpio_pin_set_dt "gpio_I2C_AS7331_EN" 0]
    if e.gpio_I2C_AS7331_EN < 0 then
      (-1, t1 ++ [.log .err "AS7331 I2C EN GPIO configuration error", .k_msleep 1000])
    else (0, t1)

/-! ## main.c: the output record -/

/-- The record `sensor_values_t`. -/
structure sensor_values_t where
  timestamp : Nat
  scd41_co2 : Nat
  scd41_temperature : Flt
  scd41_humidity : Flt
  sgp41_voc : Nat
  sgp41_nox : Nat
  ilps28qsw_pressure : Flt
  ilps28qsw_temperature : Flt
  bme688_temperature : Flt
  bme688_pressure : Flt
  bme688_humidity : Flt
  bme688_gas_resistance : Flt
  bh1730_visible : Nat
  bh1730_ir : Nat
  bh1730_lux : Nat
  as7331_temp : Flt
  as7331_uva : Nat
  as7331_uvb : Nat
  as7331_uvc : Nat

/-- The expression `raw / 1000.0f` of lines 351-352 (`raw` is an `int32_t`). -/
def scd41_scale (raw : Int) : Flt := Flt.div 24 (Flt.ofInt 24 raw) (Flt.lit 24 1000 1)

/-- The expression `v.val1 + (v.val2 / 1000000.0)` of lines 387-390, evaluated in
`double` and stored into a `float` field. -/
def bme688_combine (val1 val2 : Int) : Flt :=
  Flt.cast 24 (Flt.add 53 (Flt.ofInt 53 val1) (Flt.div 53 (Flt.ofInt 53 val2) (Flt.lit 53 1000000 1)))

/-- The expression `temp * 0.05f - 66.9f` of line 473 and of `test_as7331`
(`temp` is a `uint16_t`). -/
def as7331_temperature (raw : Nat) : Flt :=
  Flt.sub 24 (Flt.mul 24 (Flt.ofInt 24 (raw : Int)) (Flt.lit 24 5 100)) (Flt.lit 24 669 10)

/-- The text of the CSV header printed at lines 296-314. -/
def csv_header : String :=
  "Timestamp," ++ "SCD41_CO2," ++ "SCD41_Temperature," ++ "SCD41_Humidity," ++ "SGP41_VOC," ++
  "SGP41_NOX," ++ "ILPS28QSW_Pressure," ++ "ILPS28QSW_Temperature," ++ "BME688_Temperature," ++
  "BME688_Pressure," ++ "BME688_Humidity," ++ "BME688_Gas_Resistance," ++ "BH1730FVC_Visible," ++
  "BH1730FVC_IR," ++ "BH1730FVC_Lux," ++ "AS7331_Temperature," ++ "AS7331_UVA," ++ "AS7331_UVB," ++
  "AS7331_UVC\n"

/-- The text of the CSV record printed at lines 492-498. -/
def csv_record (v : sensor_values_t) : String :=
  printf "%u,%u,%f,%f,%u,%u,%f,%f,%f,%f,%f,%f,%u,%u,%u,%f,%u,%u,%u\n"
    [.u v.timestamp, .u v.scd41_co2, .f v.scd41_temperature, .f v.scd41_humidity,
     .u v.sgp41_voc, .u v.sgp41_nox, .f v.ilps28qsw_pressure, .f v.ilps28qsw_temperature,
     .f v.bme688_temperature, .f v.bme688_pressure, .f v.bme688_humidity,
     .f v.bme688_gas_resistance, .u v.bh1730_visible, .u v.bh1730_ir, .u v.bh1730_lux,
     .f v.as7331_temp, .u v.as7331_uva, .u v.as7331_uvb, .u v.as7331_uvc]

/-! ## main.c: data-ready polling -/

/-- Answers seen by one data-ready poll loop: the reading `time` of
`k_uptime_get_32()` taken before the loop, the answer of the `j`-th status
query (return code and the value of `data_ready` after the call) and the
reading of `k_uptime_get_32()` after the `j`-th `k_usleep(100)`. -/
structure PollEnv where
  time : Nat
  status : Nat → Int × Bool
  uptime : Nat → Nat

/-- The texts that tell the three poll loops apart. -/
structure PollSite where
  statusFn : String
  errMsg : String
  timeoutMsg : String

/-- How a poll loop was left. -/
inductive PollOutcome where
  | ready
  | timeout
  | error
deriving DecidableEq, Repr

/-- Result of a poll loop: how it was left, the final `data_ready`, the trace. -/
structure PollResult where
  outcome : PollOutcome
  data_ready : Bool
  trace : List Event
deriving DecidableEq, Repr

/-- The `do { ... } while (!data_ready)` loops of lines 330-345, 396-411 and
437-457, started at the `j`-th status query; `none` when the fuel runs out. -/
def poll_loop (s : PollSite) (e : PollEnv) : Nat → Nat → Option PollResult
  | 0, _ => none
  | fuel + 1, j =>
    let error := (e.status j).1
    let data_ready := (e.status j).2
    if error ≠ 0 then
      some ⟨.error, data_ready, [.call s.statusFn, .log .err s.errMsg]⟩
    else if data_ready then
      some ⟨.ready, data_ready, [.call s.statusFn]⟩
    else if 10 * 1000 < elapsed32 (e.uptime j) e.time then
      some ⟨.timeout, data_ready,
        [.call s.statusFn, .k_usleep 100, .call "k_uptime_get_32", .log .err s.timeoutMsg]⟩
    else
      (poll_loop s e fuel (j + 1)).map fun r =>
        { r with trace := [.call s.statusFn, .k_usleep 100, .call "k_uptime_get_32"] ++ r.trace }

/-- The SCD41 poll loop of lines 328-345. -/
def scd41_poll : PollSite :=
  ⟨"scd4x_get_data_ready_status", " * SCD41 Error %d getting data ready status",
   " * SCD41 Timeout waiting for data ready status"⟩

/-- The BH1730FVC poll loop of lines 394-411. -/
def bh1730_poll : PollSite :=
  ⟨"bh1730_valid", " * BH1730FVC Error %d reading valid status",
   " * BH1730FVC Timeout waiting for data ready status"⟩

/-- The AS7331 poll loop of lines 434-457; it has no error exit. -/
def as7331_poll : PollSite :=
  ⟨"gpio_pin_get_dt", "", " * AS7331 Timeout waiting for data ready status"⟩

/-- The status seen by the AS7331 loop: `data_ready = (ret == 1)` for the value
`ret` of `gpio_pin_get_dt`, and no error code. -/
def as7331_status (gpio_ext_as7331_ready : Nat → Int) (j : Nat) : Int × Bool :=
  (0, decide (gpio_ext_as7331_ready j = 1))

/-! ## main.c: one iteration of the steady-state loop -/

/-- Answers of the calls made by one iteration of the `while (1)` loop. An
output parameter is given by its content after the call. The five BME688
calls (lines 381-385) return a code as well; the loop discards it. -/
structure IterEnv where
  scd41 : PollEnv
  scd4x_read_measurement : Int
  scd41_co2 : Nat
  scd41_temperature : Int
  scd41_humidity : Int
  sgp41_measure_raw_signals : Int
  sgp41_voc : Nat
  sgp41_nox : Nat
  ilps28qsw_data_get : Int
  ilps28qsw_hpa : Flt
  ilps28qsw_deg_c : Flt
  sensor_sample_fetch : Int
  sensor_channel_get_temp : Int
  sensor_channel_get_press : Int
  sensor_channel_get_humidity : Int
  sensor_channel_get_gas_res : Int
  temp : Int × Int
  press : Int × Int
  humidity : Int × Int
  gas_res : Int × Int
  bh1730 : PollEnv
  bh1730_read_visible : Int
  bh1730_visible : Nat
  bh1730_read_ir : Int
  bh1730_ir : Nat
  bh1730_read_lux : Int
  bh1730_lux : Nat
  as7331_time : Nat
  gpio_ext_as7331_ready : Nat → Int
  as7331_uptime : Nat → Nat
  as7331_read_all : Int
  as7331_all_temp : Nat
  as7331_all_uva : Nat
  as7331_all_uvb : Nat
  as7331_all_uvc : Nat
  as7331_start_measurement : Int
  timestamp : Nat
  uptime_500 : Nat
  uptime_501 : Nat

/-- The record assembled by an iteration (lines 349-352, 361, 375-376, 387-390,
414-426, 473-476 and 489). -/
def sensor_values (e : IterEnv) : sensor_values_t where
  timestamp := e.timestamp % 2 ^ 32
  scd41_co2 := e.scd41_co2
  scd41_temperature := scd41_scale e.scd41_temperature
  scd41_humidity := scd41_scale e.scd41_humidity
  sgp41_voc := e.sgp41_voc
  sgp41_nox := e.sgp41_nox
  ilps28qsw_pressure := e.ilps28qsw_hpa
  ilps28qsw_temperature := e.ilps28qsw_deg_c
  bme688_temperature := bme688_combine e.temp.1 e.temp.2
  bme688_pressure := bme688_combine e.press.1 e.press.2
  bme688_humidity := bme688_combine e.humidity.1 e.humidity.2
  bme688_gas_resistance := bme688_combine e.gas_res.1 e.gas_res.2
  bh1730_visible := e.bh1730_visible
  bh1730_ir := e.bh1730_ir
  bh1730_lux := e.bh1730_lux
  as7331_temp := as7331_temperature e.as7331_all_temp
  as7331_uva := e.as7331_all_uva
  as7331_uvb := e.as7331_all_uvb
  as7331_uvc := e.as7331_all_uvc

/-- Lines 500-511: the measured loop duration, the new `loop_time` and the
sleep or the warning. `SAMPLING_TIME` comes from config.h. -/
def pace (SAMPLING_TIME : Int) (loop_time uptime_500 uptime_501 : Nat) : Nat × List Event :=
  let loop_duration : Int := i32 (elapsed32 uptime_500 loop_time)
  let loop_time := uptime_501 % 2 ^ 32
  if loop_duration < SAMPLING_TIME then
    let sleep_duration : Int := i32 (SAMPLING_TIME - loop_duration)
    (loop_time, [.call "k_uptime_get_32", .call "k_uptime_get_32", .k_msleep sleep_duration])
  else
    (loop_time, [.call "k_uptime_get_32", .call "k_uptime_get_32",
                 .log .wrn "Loop duration too long: %d ms"])

/-- How an iteration of `while (1)` ends. -/
inductive IterResult where
  | diverge (trace : List Event)
  | brk (trace : List Event)
  | next (trace : List Event) (loop_time : Nat)

/-- Lines 433-511 of the loop body: AS7331, CSV output and pacing; `t` is the
trace of the iteration so far. -/
def loop_body_as7331 (SAMPLING_TIME : Int) (fuel : Nat) (e : IterEnv) (loop_time : Nat)
    (t : List Event) : IterResult :=
  match poll_loop as7331_poll ⟨e.as7331_time, as7331_status e.gpio_ext_as7331_ready, e.as7331_uptime⟩
      fuel 0 with
  | none => .diverge (t ++ [.call "k_uptime_get_32"])
  | some r =>
    let t := t ++ [.call "k_uptime_get_32"] ++ r.trace ++ [.call "as7331_read_all"]
    if e.as7331_read_all ≠ 0 then .brk (t ++ [.log .err " * AS7331 Error %d reading all values"])
    else
      let t := t ++ [.call "as7331_start_measurement"]
      if e.as7331_start_measurement ≠ 0 then
        .brk (t ++ [.log .err " * AS7331 Error %d starting one-shot measurement"])
      else
        let t := t ++ sync ++ [.gpio_pin_set_dt "gpio_debug_1" 0, .call "k_uptime_get_32",
                               .printf (csv_record (sensor_values e))]
        let p := pace SAMPLING_TIME loop_time e.uptime_500 e.uptime_501
        .next (t ++ p.2) p.1

/-- Lines 393-431 of the loop body: BH1730FVC, then the rest. -/
def loop_body_bh1730 (SAMPLING_TIME : Int) (fuel : Nat) (e : IterEnv) (loop_time : Nat)
    (t : List Event) : IterResult :=
  match poll_loop bh1730_poll e.bh1730 fuel 0 with
  | none => .diverge (t ++ [.call "k_uptime_get_32"])
  | some r =>
    let t := t ++ [.call "k_uptime_get_32"] ++ r.trace ++ [.call "bh1730_read_visible"]
    if e.bh1730_read_visible ≠ 0 then
      .brk (t ++ [.log .err " * BH1730FVC Error %d reading visible light"])
    else
      let t := t ++ [.call "bh1730_read_ir"]
      if e.bh1730_read_ir ≠ 0 then .brk (t ++ [.log .err " * BH1730FVC Error %d reading IR light"])
      else
        let t := t ++ [.call "bh1730_read_lux"]
        if e.bh1730_read_lux ≠ 0 then .brk (t ++ [.log .err " * BH1730FVC Error %d reading lux"])
        else loop_body_as7331 SAMPLING_TIME fuel e loop_time (t ++ sync)

/-- The body of `while (1)` (lines 323-511), entered with the current
`loop_time`; `fuel` bounds the number of polls of each poll loop. -/
def loop_body (SAMPLING_TIME : Int) (fuel : Nat) (e : IterEnv) (loop_time : Nat) : IterResult :=
  let t : List Event := [.gpio_pin_set_dt "gpio_debug_1" 1] ++ sync
  match poll_loop scd41_poll e.scd41 fuel 0 with
  | none => .diverge (t ++ [.call "k_uptime_get_32"])
  | some r =>
    let t := t ++ [.call "k_uptime_get_32"] ++ r.trace ++ [.call "scd4x_read_measurement"]
    if e.scd4x_read_measurement ≠ NO_ERROR then
      .brk (t ++ [.log .err " * SCD41 Error %d reading measurement"])
    else
      let t := t ++ sync ++ [.call "sgp41_measure_raw_signals"]
      if e.sgp41_measure_raw_signals ≠ NO_ERROR then
        .brk (t ++ [.log .err " * SGP41 Error %d reading signals"])
      else
        let t := t ++ sync ++ [.call "ilps28qsw_data_get"]
        if e.ilps28qsw_data_get ≠ 0 then .brk (t ++ [.log .err " * ILPS28QSW Error %d getting data"])
        else
          let t := t ++ sync ++
            [.call "sensor_sample_fetch", .call "sensor_channel_get", .call "sensor_channel_get",
             .call "sensor_channel_get", .call "sensor_channel_get"] ++ sync
          loop_body_bh1730 SAMPLING_TIME fuel e loop_time t

/-- The loop `while (1)` of lines 322-512 from iteration `k` on. The result says
whether the loop was left (by `break`) within `n` iterations and gives the
trace. -/
def main_loop (SAMPLING_TIME : Int) (fuel : Nat) (iter : Nat → IterEnv) :
    Nat → Nat → Nat → Bool × List Event
  | 0, _, _ => (false, [])
  | n + 1, k, loop_time =>
    match loop_body SAMPLING_TIME fuel (iter k) loop_time with
    | .diverge t => (false, t)
    | .brk t => (true, t)
    | .next t loop_time =>
      let r := main_loop SAMPLING_TIME fuel iter n (k + 1) loop_time
      (r.1, t ++ r.2)

/-! ## main.c: start-up, shutdown and `main` -/

/-- Answers of the calls made by `main` outside the loop body and the answers
of every iteration. `test_sensors_returns` says whether the call of
`test_sensors` (test.c) returns; the events of that routine are not part of the
trace of `main`, and it contains no enabled `printf`. The routine itself is
embedded further down as `test_sensors`; for a self-test environment `e` the
field stands for `(test_sensors fuel e).isSome`. -/
structure MainEnv where
  uart_dev_ready : Bool
  usb_enable : Int
  bme_dev_ready : Bool
  test_sensors_returns : Bool
  poweron_scd41 : PoweronScd41Env
  scd4x_start_periodic_measurement : Int
  poweron_sgp41 : PowerSgp41Env
  sgp41_execute_conditioning : Int
  sgp41_measure_raw_signals : Int
  bh1730_power_on : Int
  bh1730_init : Int
  poweron_as7331_1 : PoweronAs7331Env
  as7331_reset : Int
  poweron_as7331_2 : PoweronAs7331Env
  as7331_set_configuration_mode : Int
  as7331_init : Int
  as7331_set_measurement_mode : Int
  as7331_start_measurement : Int
  loop_time : Nat
  iter : Nat → IterEnv
  scd4x_stop_periodic_measurement : Int
  poweroff_scd41 : PoweroffScd41Env
  sgp41_turn_heater_off : Int
  poweroff_sgp41 : PowerSgp41Env
  bh1730_power_down : Int
  poweroff_as7331 : PoweroffAs7331Env

/-- Lines 118-155 of `main`: transport and device checks. The first component
is the value returned by `main` if it returns here. -/
def main_init (env : MainEnv) : Option Int × List Event :=
  let t : List Event :=
    [.call "LOG_INIT", .log .inf "Sensor Shield Scan Test on %s",
     .gpio_pin_set_dt "gpio_debug_1" 0, .gpio_pin_set_dt "gpio_debug_2" 0,
     .call "gpio_pin_configure_dt", .call "pwr_init", .call "pwr_start", .k_msleep 100,
     .call "device_is_ready"]
  if !env.uart_dev_ready then
    (some (-1), t ++ [.log .err "CDC ACM device not ready", .k_msleep 1000])
  else
    let error_i32 := env.usb_enable
    let t := t ++ [.call "usb_enable"]
    if error_i32 ≠ NO_ERROR then (some (-1), t ++ [.k_msleep 1000])
    else
      let t := t ++ [.log .inf "USB enabled", .call "device_is_ready"]
      if !env.bme_dev_ready then
        (some (-1), t ++ [.log .err "BME688 not not ready.", .k_msleep 1000])
      else (none, t ++ [.log .inf "Device %p name is %s", .k_msleep 5000])

/-- Lines 230-292 of `main`: preparation of the AS7331. -/
def main_powerup_as7331 (env : MainEnv) (t : List Event) : Option Int × List Event :=
  let t := t ++ [.log .inf "Preparing AS7331", .log .inf " - Turn on AS7331"] ++
    (poweron_as7331 env.poweron_as7331_1).2
  if (poweron_as7331 env.poweron_as7331_1).1 ≠ NO_ERROR then
    (some (-1), t ++ [.log .err " * Error %d powering on AS7331", .k_msleep 1000])
  else
    let t := t ++ [.call "as7331_reset"]
    if env.as7331_reset ≠ 0 then
      (some (-1), t ++ [.log .err " * Error %d resetting AS7331", .k_msleep 1000])
    else
      let t := t ++ (poweron_as7331 env.poweron_as7331_2).2
      if (poweron_as7331 env.poweron_as7331_2).1 ≠ NO_ERROR then
        (some (-1), t ++ [.log .err " * Error %d powering on AS7331", .k_msleep 1000])
      else
        let t := t ++ [.log .inf " - Configuring AS7331", .call "as7331_set_configuration_mode"]
        if env.as7331_set_configuration_mode ≠ 0 then
          (some (-1), t ++ [.log .err " * Error %d setting configuration mode", .k_msleep 1000])
        else
          let t := t ++ [.call "as7331_init"]
          if env.as7331_init ≠ 0 then
            (some (-1), t ++ [.log .err " * Error %d initializing sensor", .k_msleep 1000])
          else
            let t := t ++ [.log .inf " - Starting continuous measurement",
                           .call "as7331_set_measurement_mode"]
            if env.as7331_set_measurement_mode ≠ 0 then
              (some (-1), t ++ [.log .err " * Error %d setting measurement mode", .k_msleep 1000])
            else
              let t := t ++ [.call "as7331_start_measurement"]
              if env.as7331_start_measurement ≠ 0 then
                (some (-1), t ++ [.log .err " * AS7331 Error %d starting one-shot measurement",
                                  .k_msleep 1000])
              else (none, t)

/-- Lines 161-292 of `main`: power-up and one-time configuration of the sensors.
The first component is the value returned by `main` if it returns here. -/
def main_powerup (env : MainEnv) : Option Int × List Event :=
  let t : List Event :=
    [.log .inf "===== Gathering Data ======", .log .inf "Preparing SCD41",
     .log .inf " - Turn on SCD41"] ++ (poweron_scd41 env.poweron_scd41).2 ++
    [.call "scd4x_start_periodic_measurement"]
  let error_i16 := env.scd4x_start_periodic_measurement
  if error_i16 ≠ NO_ERROR then
    (some (-1), t ++ [.log .err " * Error %d starting periodic measurement", .k_msleep 1000])
  else
    let t := t ++ [.log .inf "Preparing SGP41", .log .inf " - Turn on SGP41"] ++
      (poweron_sgp41 env.poweron_sgp41).2 ++
      [.log .inf " - Start conditioning for 10s", .call "sgp41_execute_conditioning"]
    let error_i16 := env.sgp41_execute_conditioning
    if error_i16 ≠ NO_ERROR then
      (some (-1), t ++ [.log .err " * Error %d starting conditioning", .k_msleep 1000])
    else
      let t := t ++ [.k_msleep 10000, .log .inf " - SRAW VOC (Conditioning)             : %u",
                     .log .inf " - Start measuring raw signals", .call "sgp41_measure_raw_signals"]
      if error_i16 ≠ NO_ERROR then
        (some (-1), t ++ [.log .err " * Error %d reading signals", .k_msleep 1000])
      else
        let t := t ++ [.log .inf " - SRAW VOC                            : %u",
                       .log .inf " - SRAW NOX                            : %u",
                       .log .inf "Preparing BH1730FVC", .log .inf " - Turn on BH1730FVC"] ++
          (poweron_bh1730 env.bh1730_power_on).2
        let error_i16 := (poweron_bh1730 env.bh1730_power_on).1
        if error_i16 ≠ NO_ERROR then
          (some (-1), t ++ [.log .err " * Error %d powering on BH1730FVC", .k_msleep 1000])
        else
          let t := t ++ [.log .inf " - Configuring BH1730FVC", .call "bh1730_init"]
          if env.bh1730_init ≠ 0 then
            (some (-1), t ++ [.log .err " * Error %d initializing BH1730FVC", .k_msleep 1000])
          else
            main_powerup_as7331 env
              (t ++ [.log .inf " - Integration Time                    : %.2f ms",
                     .log .inf " - Gain                                : x%d"])

/-- Lines 514-553 of `main`: the power-off sequence and the return value. -/
def main_shutdown (env : MainEnv) : Int × List Event :=
  let t : List Event :=
    [.log .inf "===== Powering off sensors ======",
     .log .inf " - Stop periodic measurement of SCD41", .call "scd4x_stop_periodic_measurement"]
  if env.scd4x_stop_periodic_measurement ≠ NO_ERROR then
    (-1, t ++ [.log .err " * Error %d stopping periodic measurement", .k_msleep 1000])
  else
    let t := t ++ [.log .inf " - Power off SCD41"] ++ (poweroff_scd41 env.poweroff_scd41).2 ++
      [.log .inf " - Turn off heater of SGP41", .call "sgp41_turn_heater_off"]
    if env.sgp41_turn_heater_off ≠ NO_ERROR then
      (-1, t ++ [.log .err " * Error %d turning heater off", .k_msleep 1000])
    else
      (0, t ++ [.log .inf " - Power off SGP41"] ++ (poweroff_sgp41 env.poweroff_sgp41).2 ++
        [.log .inf " - Power off BH1730FVC"] ++ (poweroff_bh1730 env.bh1730_power_down).2 ++
        [.log .inf " - Power off AS7331"] ++ (poweroff_as7331 env.poweroff_as7331).2)

/-- Outcome of a run of `main`: the value returned (`none` if `main` has not
returned within the fuel) and the trace. -/
structure Run where
  ret : Option Int
  trace : List Event

/-- The function `main` of main.c. `fuel` bounds the number of iterations of the
steady-state loop and of each poll loop. -/
def main (SAMPLING_TIME : Int) (fuel : Nat) (env : MainEnv) : Run :=
  match main_init env with
  | (some c, t) => ⟨some c, t⟩
  | (none, t) =>
    let t := t ++ [.log .inf "===== Testing all sensors ======", .call "test_sensors"]
    if !env.test_sensors_returns then ⟨none, t⟩
    else
      match main_powerup env with
      | (some c, tp) => ⟨some c, t ++ tp⟩
      | (none, tp) =>
        let t := t ++ tp ++ [.printf csv_header, .call "k_uptime_get_32"]
        match main_loop SAMPLING_TIME fuel env.iter fuel 0 (env.loop_time % 2 ^ 32) with
        | (false, tl) => ⟨none, t ++ tl⟩
        | (true, tl) => ⟨some (main_shutdown env).1, t ++ tl ++ (main_shutdown env).2⟩

/-! ## Self-test routines (sensor modules) -/

/-- The statement pattern `error = fn (...); if (error) LOG_ERR (msg);`: the call
and, if its answer is not zero, the message. -/
def checked (fn : String) (error : Int) (msg : String) : List Event :=
  .call fn :: (if error ≠ 0 then [.log .err msg] else [])

/-- The statement pattern `error = fn (...); if (error) LOG_ERR (msg); else ...`,
where `ok` is the trace of the `else` branch. -/
def checked_else (fn : String) (error : Int) (msg : String) (ok : List Event) : List Event :=
  .call fn :: (if error ≠ 0 then [.log .err msg] else ok)

/-- The loops `do { status_get (&ctx, &status); } while (status.sw_reset);` of
`test_ilpS28qsw` and `test_lis2duxs12`, started at the `j`-th query; `sw_reset j`
is the bit found in `status` after the `j`-th query. `none` when the fuel runs
out. -/
def reset_loop (statusFn : String) (sw_reset : Nat → Bool) : Nat → Nat → Option (List Event)
  | 0, _ => none
  | fuel + 1, j =>
    if sw_reset j then
      (reset_loop statusFn sw_reset fuel (j + 1)).map fun t => .call statusFn :: t
    else some [.call statusFn]

/-- Answers of the calls made by `test_as7331`; `poll.status j` is the answer of
the `j`-th `as7331_get_status` and the bit `status.ndata` it delivers. -/
structure TestAs7331Env where
  as7331_reset : Int
  as7331_power_up : Int
  as7331_set_configuration_mode : Int
  as7331_get_chip_id : Int
  as7331_init : Int
  as7331_set_measurement_mode : Int
  as7331_start_measurement : Int
  poll : PollEnv
  as7331_read_all : Int

/-- The poll loop of `test_as7331` (its timeout message names the BH1730FVC). -/
def test_as7331_poll : PollSite :=
  ⟨"as7331_get_status", " * Error getting status",
   " * BH1730FVC Timeout waiting for data ready status"⟩

/-- The function `test_as7331` (as7331_sensor.c); `none` if its poll loop does
not end within the fuel. -/
def test_as7331 (fuel : Nat) (e : TestAs7331Env) : Option (List Event) :=
  let t : List Event :=
    [.call "test_as7331", .log .inf "Testing AS7331 (UV Sensor)", .call "as7331_reset"]
  if e.as7331_reset ≠ 0 then some (t ++ [.log .err " * Error resetting AS7331"])
  else
    let t := t ++ [.call "gpio_pin_toggle_dt", .call "as7331_power_up"]
    if e.as7331_power_up ≠ 0 then some (t ++ [.log .err " * Error powering up AS7331"])
    else
      let t := t ++
        checked "as7331_set_configuration_mode" e.as7331_set_configuration_mode
          " * Error setting configuration mode" ++
        checked_else "as7331_get_chip_id" e.as7331_get_chip_id " * Error getting ID"
          [.log .inf " - ID                                  : 0x%02X"] ++
        checked "as7331_init" e.as7331_init " * Error initializing AS7331" ++
        checked "as7331_set_measurement_mode" e.as7331_set_measurement_mode
          " * Error setting measurement mode" ++
        checked "as7331_start_measurement" e.as7331_start_measurement
          " * Error starting one shot" ++
        [.call "k_uptime_get_32"]
      match poll_loop test_as7331_poll e.poll fuel 0 with
      | none => none
      | some r =>
        if r.outcome = .error then some (t ++ r.trace)
        else
          some (t ++ r.trace ++
            [.call "k_uptime_get_32", .log .inf " > Data ready after %u ms"] ++
            checked_else "as7331_read_all" e.as7331_read_all " * Error reading all"
              [.log .inf " - Temp                                : %.2f °C",
               .log .inf " - UVA                                 : %u",
               .log .inf " - UVB                                 : %u",
               .log .inf " - UVC                                 : %u"] ++
            [.call "gpio_pin_toggle_dt"])

/-- Answers of the calls made by `test_bh1730fvc`. -/
structure TestBh1730Env where
  bh1730_init : Int
  poll : PollEnv
  bh1730_read_visible : Int
  bh1730_read_ir : Int
  bh1730_read_lux : Int

/-- The poll loop of `test_bh1730fvc`. -/
def test_bh1730_poll : PollSite :=
  ⟨"bh1730_valid", " * Error reading valid status",
   " * BH1730FVC Timeout waiting for data ready status"⟩

/-- The function `test_bh1730fvc` (bh1730fvc_sensor.c). -/
def test_bh1730fvc (fuel : Nat) (e : TestBh1730Env) : Option (List Event) :=
  let t : List Event :=
    [.call "test_bh1730fvc", .log .inf "Testing BH1730FVC (Light Sensor)",
     .call "gpio_pin_toggle_dt", .call "bh1730_init"]
  if e.bh1730_init ≠ 0 then some (t ++ [.log .err " * Error initializing BH1730FVC"])
  else
    let t := t ++ [.log .inf " - Integration Time                    : %.2f ms",
                   .log .inf " - Gain                                : x%d",
                   .call "k_uptime_get_32"]
    match poll_loop test_bh1730_poll e.poll fuel 0 with
    | none => none
    | some r =>
      if r.outcome = .error then some (t ++ r.trace)
      else
        some (t ++ r.trace ++
          [.call "k_uptime_get_32", .log .inf " > Data ready after %u ms"] ++
          checked_else "bh1730_read_visible" e.bh1730_read_visible " * Error reading visible light"
            [.log .inf " - Visible                             : %u"] ++
          checked_else "bh1730_read_ir" e.bh1730_read_ir " * Error reading IR light"
            [.log .inf " - IR                                  : %u"] ++
          checked_else "bh1730_read_lux" e.bh1730_read_lux " * Error reading lux"
            [.log .inf " - LUX                                 : %u"] ++
          [.call "gpio_pin_toggle_dt"])

/-- Answers of the calls made by `test_scd41`. -/
structure TestScd41Env where
  scd4x_stop_periodic_measurement : Int
  scd4x_get_serial_number : Int
  scd4x_measure_single_shot : Int
  poll : PollEnv
  scd4x_read_measurement : Int

/-- The poll loop of `test_scd41`. -/
def test_scd41_poll : PollSite :=
  ⟨"scd4x_get_data_ready_status", " * Error %d getting data ready status",
   " * SCD41 Timeout waiting for data ready status"⟩

/-- The function `test_scd41` (scd41_sensor.c). -/
def test_scd41 (fuel : Nat) (e : TestScd41Env) : Option (List Event) :=
  let t : List Event :=
    [.call "test_scd41", .log .inf "Testing SCD41 (CO2 Sensor)"] ++
    checked "scd4x_stop_periodic_measurement" e.scd4x_stop_periodic_measurement
      " * Error %d stopping periodic measurement" ++
    checked_else "scd4x_get_serial_number" e.scd4x_get_serial_number
      " * Error %d getting serial number"
      [.call "sensirion_common_to_integer",
       .log .inf " - Serial Number                       : %llu"] ++
    [.call "gpio_pin_toggle_dt"] ++
    checked "scd4x_measure_single_shot" e.scd4x_measure_single_shot
      " * Error %d starting periodic measurement" ++
    [.call "k_uptime_get_32"]
  match poll_loop test_scd41_poll e.poll fuel 0 with
  | none => none
  | some r =>
    if r.outcome = .error then some (t ++ r.trace)
    else
      some (t ++ r.trace ++
        [.call "k_uptime_get_32", .log .inf " > Data ready after %u ms"] ++
        checked_else "scd4x_read_measurement" e.scd4x_read_measurement
          " * Error %d reading measurement"
          [.log .inf " - CO2                                 : %u ppm",
           .log .inf " - Temperature                         : %.2f °C",
           .log .inf " - Humidity                            : %.2f %% RH"] ++
        [.call "gpio_pin_toggle_dt"])

/-- Answers of the calls made by `test_sgp41`. -/
structure TestSgp41Env where
  sgp41_get_serial_number : Int
  sgp41_execute_self_test : Int
  sgp41_measure_raw_signals : Int

/-- The function `test_sgp41` (sgp41_sensor.c). -/
def test_sgp41 (e : TestSgp41Env) : List Event :=
  let t : List Event :=
    [.call "test_sgp41", .log .inf "Testing SGP41 (VOC Sensor)"] ++
    checked_else "sgp41_get_serial_number" e.sgp41_get_serial_number
      " * Error %d getting serial number"
      [.call "sensirion_common_to_integer",
       .log .inf " - Serial Number                       : %llu"] ++
    checked_else "sgp41_execute_self_test" e.sgp41_execute_self_test " * Error %d self testing"
      [.log .inf " - Self Test                           : 0x%04X"] ++
    [.call "gpio_pin_toggle_dt", .call "sgp41_measure_raw_signals"]
  if e.sgp41_measure_raw_signals ≠ NO_ERROR then t ++ [.log .err " * Error %d reading signals"]
  else
    t ++ [.log .inf " - SRAW VOC                            : %u",
          .log .inf " - SRAW NOX                            : %u", .call "gpio_pin_toggle_dt"]

/-- The function `test_bme688` (bme688_sensor.c); it tests no return code. -/
def test_bme688 : List Event :=
  [.call "test_bme688", .log .inf "Testing BME680 (Environmental Sensor)",
   .call "gpio_pin_toggle_dt", .call "sensor_sample_fetch", .call "sensor_channel_get",
   .call "sensor_channel_get", .call "sensor_channel_get", .call "sensor_channel_get",
   .call "gpio_pin_toggle_dt",
   .log .inf " - Temperature                         : %d.%06d Â°C",
   .log .inf " - Pressure                            : %d.%06d kPa",
   .log .inf " - Humidity                            : %d.%06d %%",
   .log .inf " - Gas Resistance                      : %d.%06d ohm"]

/-- Answers of the calls made by `test_ilpS28qsw`; `sw_reset j` is the bit
`status.sw_reset` after the `j`-th `ilps28qsw_status_get`. -/
structure TestIlps28qswEnv where
  ilps28qsw_id_get : Int
  ilps28qsw_init_set_reset : Int
  sw_reset : Nat → Bool
  ilps28qsw_ah_qvar_en_set : Int
  ilps28qsw_init_set_drv_rdy : Int
  ilps28qsw_bus_mode_set : Int
  ilps28qsw_mode_set : Int
  ilps28qsw_all_sources_get : Int
  ilps28qsw_data_get : Int

/-- The function `test_ilpS28qsw` (ilps28qsw_sensor.c); `none` if its reset loop
does not end within the fuel. -/
def test_ilpS28qsw (fuel : Nat) (e : TestIlps28qswEnv) : Option (List Event) :=
  let t : List Event :=
    [.call "test_ilpS28qsw", .log .inf "Testing ILPS28QSW (Pressure Sensor)"] ++
    checked_else "ilps28qsw_id_get" e.ilps28qsw_id_get " * Error %d getting device ID"
      [.log .inf " - ID                                  : 0x%02X"] ++
    [.call "ilps28qsw_init_set"]
  if e.ilps28qsw_init_set_reset ≠ 0 then some (t ++ [.log .err " * Error %d during reset"])
  else
    match reset_loop "ilps28qsw_status_get" e.sw_reset fuel 0 with
    | none => none
    | some w =>
      let t := t ++ w ++
        checked "ilps28qsw_ah_qvar_en_set" e.ilps28qsw_ah_qvar_en_set
          " * Error %d enabling AH/QVAR" ++
        [.call "gpio_pin_toggle_dt"] ++
        checked "ilps28qsw_init_set" e.ilps28qsw_init_set_drv_rdy " * Error %d during init" ++
        checked "ilps28qsw_bus_mode_set" e.ilps28qsw_bus_mode_set " * Error %d setting bus mode" ++
        checked "ilps28qsw_mode_set" e.ilps28qsw_mode_set " * Error %d setting mode" ++
        [.call "ilps28qsw_all_sources_get"]
      if e.ilps28qsw_all_sources_get ≠ 0 then
        some (t ++ [.log .err " * Error %d getting all sources"])
      else
        some (t ++
          checked_else "ilps28qsw_data_get" e.ilps28qsw_data_get " * Error %d getting data"
            [.log .inf " - Pressure                            : %4.2f kPa",
             .log .inf " - Temperature                         : %4.2f Â°C"] ++
          [.call "gpio_pin_toggle_dt"])

/-- Answers of the calls made by `test_lis2duxs12`, each as stored in the
`int16_t` variable `error`; `sw_reset j` is the bit `status.sw_reset` after the
`j`-th `lis2duxs12_status_get`. -/
structure TestLis2duxs12Env where
  lis2duxs12_exit_deep_power_down : Int
  lis2duxs12_device_id_get : Int
  lis2duxs12_init_set_reset : Int
  sw_reset : Nat → Bool
  lis2duxs12_init_set_sensor_only_on : Int
  lis2duxs12_mode_set : Int
  lis2duxs12_xl_data_get : Int
  lis2duxs12_outt_data_get : Int

/-- The function `test_lis2duxs12` (lis2duxs12_sensor.c); `none` if its reset
loop does not end within the fuel. -/
def test_lis2duxs12 (fuel : Nat) (e : TestLis2duxs12Env) : Option (List Event) :=
  let t : List Event :=
    [.call "test_lis2duxs12", .log .inf "Testing LIS2DUXS12 (Accelerometer)"] ++
    checked "lis2duxs12_exit_deep_power_down" e.lis2duxs12_exit_deep_power_down
      " * Error %d exiting deep power down" ++
    checked_else "lis2duxs12_device_id_get" e.lis2duxs12_device_id_get " * Error %d getting ID"
      [.log .inf " - ID                                  : 0x%02X"] ++
    [.call "lis2duxs12_init_set"]
  if e.lis2duxs12_init_set_reset ≠ NO_ERROR then some (t ++ [.log .err " * Error %d during reset"])
  else
    match reset_loop "lis2duxs12_status_get" e.sw_reset fuel 0 with
    | none => none
    | some w =>
      some (t ++ w ++ [.call "gpio_pin_toggle_dt"] ++
        checked "lis2duxs12_init_set" e.lis2duxs12_init_set_sensor_only_on
          " * Error %d during init" ++
        checked "lis2duxs12_mode_set" e.lis2duxs12_mode_set " * Error %d setting mode" ++
        checked_else "lis2duxs12_xl_data_get" e.lis2duxs12_xl_data_get " * Error %d getting data"
          [.log .inf " - Acceleration X                      : % 7.2f mg",
           .log .inf " - Acceleration Y                      : % 7.2f mg",
           .log .inf " - Acceleration Z                      : % 7.2f mg"] ++
        checked_else "lis2duxs12_outt_data_get" e.lis2duxs12_outt_data_get
          " * Error %d getting temperature"
          [.log .inf " - Temperature                         : %3.2f °C"] ++
        [.call "gpio_pin_toggle_dt"])

/-- The accelerometer full-scale codes named by the `switch` of
`ism330dhcx_xl_sensitivity`; `other` is any value that matches no `case`. -/
inductive ism330dhcx_fs_xl_t where
  | ISM330DHCX_2g
  | ISM330DHCX_4g
  | ISM330DHCX_8g
  | ISM330DHCX_16g
  | other
deriving DecidableEq, Repr

/-- The gyroscope full-scale codes named by the `switch` of
`ism330dhcx_gy_sensitivity`; `other` is any value that matches no `case`. -/
inductive ism330dhcx_fs_g_t where
  | ISM330DHCX_125dps
  | ISM330DHCX_250dps
  | ISM330DHCX_500dps
  | ISM330DHCX_1000dps
  | ISM330DHCX_2000dps
  | ISM330DHCX_4000dps
  | other
deriving DecidableEq, Repr

/-- The function `ism330dhcx_xl_sensitivity`: `error` and `sensitivity_raw` are
what `ism330dhcx_xl_full_scale_get` answers and delivers, `sensitivity` is the
content of `*sensitivity` before the call; the result is the return value, the
content of `*sensitivity` afterwards and the trace. -/
def ism330dhcx_xl_sensitivity (error : Int) (sensitivity_raw : ism330dhcx_fs_xl_t)
    (sensitivity : Flt) : Int × Flt × List Event :=
  let t : List Event := .call "ism330dhcx_xl_sensitivity" ::
    checked "ism330dhcx_xl_full_scale_get" error " * Error %d getting accel sensitivity"
  match sensitivity_raw with
  | .ISM330DHCX_2g => (0, Flt.lit 24 61 1000, t)
  | .ISM330DHCX_4g => (0, Flt.lit 24 122 1000, t)
  | .ISM330DHCX_8g => (0, Flt.lit 24 244 1000, t)
  | .ISM330DHCX_16g => (0, Flt.lit 24 488 1000, t)
  | .other => (-1, sensitivity, t ++ [.k_msleep 1000])

/-- The function `ism330dhcx_gy_sensitivity`, with the conventions of
`ism330dhcx_xl_sensitivity`. -/
def ism330dhcx_gy_sensitivity (error : Int) (sensitivity_raw : ism330dhcx_fs_g_t)
    (sensitivity : Flt) : Int × Flt × List Event :=
  let t : List Event := .call "ism330dhcx_gy_sensitivity" ::
    checked "ism330dhcx_gy_full_scale_get" error " * Error %d getting gyro sensitivity"
  match sensitivity_raw with
  | .ISM330DHCX_125dps => (0, Flt.lit 24 4375 1000, t)
  | .ISM330DHCX_250dps => (0, Flt.lit 24 8750 1000, t)
  | .ISM330DHCX_500dps => (0, Flt.lit 24 17500 1000, t)
  | .ISM330DHCX_1000dps => (0, Flt.lit 24 35000 1000, t)
  | .ISM330DHCX_2000dps => (0, Flt.lit 24 70000 1000, t)
  | .ISM330DHCX_4000dps => (0, Flt.lit 24 140000 1000, t)
  | .other => (-1, sensitivity, t ++ [.k_msleep 1000])

/-- Answers of the calls made by `test_ism330dhcx`. -/
structure TestIsm330dhcxEnv where
  ism330dhcx_device_id_get : Int
  ism330dhcx_reset_set : Int
  ism330dhcx_auto_increment_set : Int
  ism330dhcx_block_data_update_set : Int
  ism330dhcx_fifo_mode_set : Int
  ism330dhcx_xl_data_rate_set : Int
  ism330dhcx_xl_full_scale_set : Int
  ism330dhcx_gy_data_rate_set : Int
  ism330dhcx_gy_full_scale_set : Int
  ism330dhcx_xl_full_scale_get : Int
  xl_sensitivity_raw : ism330dhcx_fs_xl_t
  ism330dhcx_acceleration_raw_get : Int
  ism330dhcx_gy_full_scale_get : Int
  gy_sensitivity_raw : ism330dhcx_fs_g_t
  ism330dhcx_angular_rate_raw_get : Int

/-- The function `test_ism330dhcx` (ism330dhcx_sensor.c). -/
def test_ism330dhcx (e : TestIsm330dhcxEnv) : List Event :=
  let xl := ism330dhcx_xl_sensitivity e.ism330dhcx_xl_full_scale_get e.xl_sensitivity_raw
    (Flt.lit 24 0 1)
  let gy := ism330dhcx_gy_sensitivity e.ism330dhcx_gy_full_scale_get e.gy_sensitivity_raw xl.2.1
  [.call "test_ism330dhcx", .log .inf "Testing ISM330DHCX (IMU)"] ++
  checked_else "ism330dhcx_device_id_get" e.ism330dhcx_device_id_get
    " * Error %d getting device ID" [.log .inf " - ID                                  : 0x%02X"] ++
  checked "ism330dhcx_reset_set" e.ism330dhcx_reset_set " * Error %d during SW reset" ++
  checked "ism330dhcx_auto_increment_set" e.ism330dhcx_auto_increment_set
    " * Error %d enabling auto-increment" ++
  checked "ism330dhcx_block_data_update_set" e.ism330dhcx_block_data_update_set
    " * Error %d enabling BDU" ++
  checked "ism330dhcx_fifo_mode_set" e.ism330dhcx_fifo_mode_set " * Error %d setting FIFO mode" ++
  checked "ism330dhcx_xl_data_rate_set" e.ism330dhcx_xl_data_rate_set
    " * Error %d setting accel ODR" ++
  checked "ism330dhcx_xl_full_scale_set" e.ism330dhcx_xl_full_scale_set
    " * Error %d setting accel full scale" ++
  checked "ism330dhcx_gy_data_rate_set" e.ism330dhcx_gy_data_rate_set
    " * Error %d setting gyro ODR" ++
  checked "ism330dhcx_gy_full_scale_set" e.ism330dhcx_gy_full_scale_set
    " * Error %d setting gyro full scale" ++
  xl.2.2 ++ (if xl.1 ≠ 0 then [.log .err " * Error %d getting accel sensitivity"] else []) ++
  [.call "gpio_pin_toggle_dt"] ++
  checked "ism330dhcx_acceleration_raw_get" e.ism330dhcx_acceleration_raw_get
    " * Error %d reading accel raw data" ++
  [.log .inf " - Acceleration X                      : % 7.2f mg",
   .log .inf " - Acceleration Y                      : % 7.2f mg",
   .log .inf " - Acceleration Z                      : % 7.2f mg"] ++
  gy.2.2 ++ (if gy.1 ≠ 0 then [.log .err " * Error %d getting gyro sensitivity"] else []) ++
  checked "ism330dhcx_angular_rate_raw_get" e.ism330dhcx_angular_rate_raw_get
    " * Error %d reading gyro raw data" ++
  [.log .inf " - Gyroscope X                         : % 10.2f °/s",
   .log .inf " - Gyroscope Y                         : % 10.2f °/s",
   .log .inf " - Gyroscope Z                         : % 10.2f °/s",
   .call "gpio_pin_toggle_dt"]

/-- The table `value_names` of `test_max77654`: the name, the unit and the
channel (`index`) of each measured value, in the order of the table. -/
def value_names : List (String × String × String) :=
  [("AGND Voltage                        ", "mV", "MAX77654_AGND"),
   ("VSYS Voltage                        ", "mV", "MAX77654_VSYS"),
   ("CHGIN Voltage                       ", "mV", "MAX77654_CHGIN_V"),
   ("CHGIN Current                       ", "mA", "MAX77654_CHGIN_I"),
   ("Battery Voltage                     ", "mV", "MAX77654_BATT_V"),
   ("Battery Current                     ", "%", "MAX77654_BATT_I_CHG"),
   ("Battery Discharge Current           ", "mA", "MAX77654_BATT_I_8MA2"),
   ("Thermistor Voltage                  ", "mV", "MAX77654_THM"),
   ("Thermistor Bias                     ", "mV", "MAX77654_TBIAS")]

/-- The `for` loop of `test_max77654` from index `i` on, over the entries of the
table that are left; `success i` says whether the `i`-th `max77654_measure`
answers `E_MAX77654_SUCCESS`. The result says whether the loop ran to its end
(it is left by `return` at the first failure), gives the trace and lists the
channels passed to `max77654_measure`, in the order of the calls. -/
def max77654_loop (success : Nat → Bool) :
    List (String × String × String) → Nat → Bool × List Event × List String
  | [], _ => (true, [], [])
  | v :: rest, i =>
    if success i then
      let r := max77654_loop success rest (i + 1)
      (r.1, [.call "max77654_measure", .log .inf " - %s: %i %s"] ++ r.2.1, v.2.2 :: r.2.2)
    else (false, [.call "max77654_measure", .log .err " * PMIC measure failed!"], [v.2.2])

/-- The function `test_max77654` (max77654_sensor.c): the nine values of the
table are measured under `pwr_mutex`. -/
def test_max77654 (success : Nat → Bool) : List Event :=
  let r := max77654_loop success value_names 0
  [.call "test_max77654", .log .inf "Testing MAX77654 (PMIC)", .call "k_mutex_lock"] ++ r.2.1 ++
  (if r.1 then [.call "k_mutex_unlock"] else [])

/-- The channels that `test_max77654` passes to `max77654_measure`, in the order
of the calls. -/
def test_max77654_channels (success : Nat → Bool) : List String :=
  (max77654_loop success value_names 0).2.2

/-- Answers of the calls made by `poweroff_max_m10s`. -/
structure PoweroffMaxM10sEnv where
  uPortInit : Int
  uPortI2cInit : Int
  uDeviceInit : Int
  uDeviceOpen : Int
  uGnssInit : Int
  uGnssPwrOffBackup : Int
  uDeviceDeinit_1 : Int
  uDeviceDeinit_2 : Int

/-- The function `poweroff_max_m10s` (max_m10s_sensor.c, where `LOG_DBG` is
enabled). -/
def poweroff_max_m10s (e : PoweroffMaxM10sEnv) : List Event :=
  [.call "poweroff_max_m10s", .log .inf "Power Off MAX-M10S (GNSS Module)"] ++
  checked_else "uPortInit" e.uPortInit " * Failed to initiate U-Blox library: %d"
    [.log .dbg " > Initalized U-Blox library"] ++
  checked_else "uPortI2cInit" e.uPortI2cInit " * Failed to initiate U-Blox I2C library: %d"
    [.log .dbg " > Initalized U-Blox I2C library"] ++
  checked_else "uDeviceInit" e.uDeviceInit " * Failed to initiate U-Blox library: %d"
    [.log .dbg " > Initalized U-Blox library"] ++
  [.log .inf "Initiating the module...", .call "uDeviceOpen"] ++
  (if e.uDeviceOpen = 0 then
    [.call "uGnssInit"] ++
    (if e.uGnssInit = 0 then [.log .inf "GNSS module initiated successfully"]
     else [.log .err "* Failed to initiate the module: %d"]) ++
    [.call "uGnssPwrOffBackup"] ++
    (if e.uGnssPwrOffBackup = 0 then [.log .inf "GNSS module powered off successfully"]
     else [.log .err "* Failed to power off the module: %d"]) ++
    [.call "uDeviceClose"]
   else [.log .err "* Failed to initiate the module: %d"]) ++
  checked_else "uDeviceDeinit" e.uDeviceDeinit_1 "Failed to deinit U-Blox library: %d"
    [.log .inf "Deinitialized U-Blox library"] ++
  checked_else "uDeviceDeinit" e.uDeviceDeinit_2 " * Failed to deinit U-Blox library: %d"
    [.log .dbg " > Deinitialized U-Blox library"] ++
  [.call "uPortI2cDeinit", .call "uPortDeinit"]

/-! ## test.c -/

/-- Answers of the calls made by `test_sensors` and by the routines it calls. -/
structure TestEnv where
  poweron_as7331 : PoweronAs7331Env
  test_as7331 : TestAs7331Env
  poweroff_as7331 : PoweroffAs7331Env
  bh1730_power_on : Int
  test_bh1730fvc : TestBh1730Env
  bh1730_power_down : Int
  test_ism330dhcx : TestIsm330dhcxEnv
  test_lis2duxs12 : TestLis2duxs12Env
  test_ilpS28qsw : TestIlps28qswEnv
  poweron_scd41 : PoweronScd41Env
  test_scd41 : TestScd41Env
  poweroff_scd41 : PoweroffScd41Env
  poweron_sgp41 : PowerSgp41Env
  test_sgp41 : TestSgp41Env
  poweroff_sgp41 : PowerSgp41Env
  max77654_measure : Nat → Bool
  poweroff_max_m10s : PoweroffMaxM10sEnv

/-- The function `test_sensors` of test.c (the GAP9 block is compiled out):
`none` if one of the five routines that contain a loop waiting for the hardware
does not return within the fuel. `data_init` fills two buffers that nothing
reads and `i2c_scan` is a helper of the repository; both appear as calls. -/
def test_sensors (fuel : Nat) (e : TestEnv) : Option (List Event) :=
  match test_as7331 fuel e.test_as7331, test_bh1730fvc fuel e.test_bh1730fvc,
    test_lis2duxs12 fuel e.test_lis2duxs12, test_ilpS28qsw fuel e.test_ilpS28qsw,
    test_scd41 fuel e.test_scd41 with
  | some t_as7331, some t_bh1730fvc, some t_lis2duxs12, some t_ilpS28qsw, some t_scd41 =>
    some (
      [.call "data_init", .log .inf "Scanning I2C A Interface", .call "i2c_scan",
       .log .inf "Scanning I2C B Interface", .call "i2c_scan"] ++
      sync ++ [.gpio_pin_set_dt "gpio_debug_1" 1] ++ (poweron_as7331 e.poweron_as7331).2 ++
        t_as7331 ++ (poweroff_as7331 e.poweroff_as7331).2 ++ [.gpio_pin_set_dt "gpio_debug_1" 0] ++
      sync ++ [.gpio_pin_set_dt "gpio_debug_1" 1] ++ (poweron_bh1730 e.bh1730_power_on).2 ++
        t_bh1730fvc ++ (poweroff_bh1730 e.bh1730_power_down).2 ++
        [.gpio_pin_set_dt "gpio_debug_1" 0] ++
      sync ++ [.gpio_pin_set_dt "gpio_debug_1" 1] ++ test_ism330dhcx e.test_ism330dhcx ++
        [.gpio_pin_set_dt "gpio_debug_1" 0] ++
      sync ++ [.gpio_pin_set_dt "gpio_debug_1" 1] ++ t_lis2duxs12 ++
        [.gpio_pin_set_dt "gpio_debug_1" 0] ++
      sync ++ [.gpio_pin_set_dt "gpio_debug_1" 1] ++ test_bme688 ++
        [.gpio_pin_set_dt "gpio_debug_1" 0] ++
      sync ++ [.gpio_pin_set_dt "gpio_debug_1" 1] ++ t_ilpS28qsw ++
        [.gpio_pin_set_dt "gpio_debug_1" 0] ++
      sync ++ [.gpio_pin_set_dt "gpio_debug_1" 1] ++ (poweron_scd41 e.poweron_scd41).2 ++
        t_scd41 ++ (poweroff_scd41 e.poweroff_scd41).2 ++ [.gpio_pin_set_dt "gpio_debug_1" 0] ++
      sync ++ [.gpio_pin_set_dt "gpio_debug_1" 1] ++ (poweron_sgp41 e.poweron_sgp41).2 ++
        test_sgp41 e.test_sgp41 ++ (poweroff_sgp41 e.poweroff_sgp41).2 ++
        [.gpio_pin_set_dt "gpio_debug_1" 0] ++
      sync ++ [.gpio_pin_set_dt "gpio_debug_1" 1] ++ test_max77654 e.max77654_measure ++
        [.gpio_pin_set_dt "gpio_debug_1" 0] ++
      sync ++ poweroff_max_m10s e.poweroff_max_m10s ++ sync)
  | _, _, _, _, _ => none

/-- The object `stmdev_ctx_t`; a pointer is given by the name of what it points
to. -/
structure stmdev_ctx_t where
  write_reg : String
  read_reg : String
  handle : String
deriving DecidableEq, Repr

/-- The object `i2c_ctx_t`. -/
structure i2c_ctx_t where
  i2c_handle : String
  i2c_addr : Nat
deriving DecidableEq, Repr

/-- The object `ilps28qsw_md_t`; an enumerator of the vendor header is given by
its name. -/
structure ilps28qsw_md_t where
  odr : String
  avg : String
  lpf : String
  fs : String
deriving DecidableEq, Repr

/-- The three objects defined at lines 47-49 of ilps28qsw_sensor.c. -/
structure Ilps28qswGlobals where
  ilps28qsw_ctx : stmdev_ctx_t
  ilps28qsw_i2c_ctx : i2c_ctx_t
  ilps28qsw_md : ilps28qsw_md_t
deriving DecidableEq, Repr

/-- The effect of `test_ilpS28qsw` on the three objects: their content when the
routine returns or, if its reset loop does not end within the fuel, while it is
in that loop. The driver calls receive the addresses of `ilps28qsw_ctx` and
`ilps28qsw_md`; they are taken not to write through them. -/
def test_ilpS28qsw_globals (fuel : Nat) (e : TestIlps28qswEnv) (g : Ilps28qswGlobals) :
    Ilps28qswGlobals :=
  let g : Ilps28qswGlobals :=
    { g with
      ilps28qsw_i2c_ctx := ⟨"i2c_b", 0x5C⟩
      ilps28qsw_ctx := ⟨"i2c_write_reg", "i2c_read_reg", "ilps28qsw_i2c_ctx"⟩ }
  if e.ilps28qsw_init_set_reset ≠ 0 then g
  else
    match reset_loop "ilps28qsw_status_get" e.sw_reset fuel 0 with
    | none => g
    | some _ =>
      { g with
        ilps28qsw_md :=
          ⟨"ILPS28QSW_4Hz", "ILPS28QSW_16_AVG", "ILPS28QSW_LPF_ODR_DIV_4", "ILPS28QSW_1260hPa"⟩ }

/-- The content of the three objects when the acquisition loop passes
`&ilps28qsw_ctx` and `&ilps28qsw_md` to `ilps28qsw_data_get` (main.c, line 370),
from their content `g` at the start of `main`: `test_ilpS28qsw`, reached through
`test_sensors`, is the only function of the repository that assigns to them;
main.c declares them `extern` (lines 79-80) and names them at line 370 only. -/
def main_loop_ilps28qsw (fuel : Nat) (e : TestEnv) (g : Ilps28qswGlobals) : Ilps28qswGlobals :=
  test_ilpS28qsw_globals fuel e.test_ilpS28qsw g

/-! ## max_m10s_sensor.c: the keep-going callback and the coordinate text -/

/-- The function `keepGoingCallback` (max_m10s_sensor.c, lines 75-93), the file
in which `LOG_DBG` is compiled in. `firstTime` is the value of the static
variable on entry and `uptime` the uptime in ms; `k_uptime_get_32` returns it
modulo `2^32` and the initialisation of the `int32_t time_now` reinterprets
that as a signed value. The `int32_t` subtraction is taken modulo `2^32`, as the
target computes it. Result: the value returned, `firstTime` on exit, and the
trace. -/
def keepGoingCallback (MAX_M10S_TIMEOUT : Int) (firstTime : Int) (uptime : Nat) :
    Bool × Int × List Event :=
  let time_now : Int := i32 ((uptime % 2 ^ 32 : Nat) : Int)
  let firstTime := if firstTime = 0 then time_now else firstTime
  let time_diff : Int := i32 (time_now - firstTime)
  let t : List Event :=
    [.call "keepGoingCallback", .call "k_uptime_get_32",
      .log .dbg "MAX-M10S keep going callback: %8.1fs"]
  if time_diff > MAX_M10S_TIMEOUT then
    (false, firstTime, t ++ [.log .err "Keep going callback: Timeout"])
  else (true, firstTime, t)

/-- The conversion `%d`. -/
def fmt_d (z : Int) : List Char := (if z < 0 then ['-'] else []) ++ fmt_u z.natAbs

/-- The conversion `%0<w>d`: the sign, if any, then zeros up to the width `w`,
then the digits. -/
def fmt_0d (w : Nat) (z : Int) : List Char :=
  if z < 0 then '-' :: (List.replicate (w - 1 - (fmt_u z.natAbs).length) '0' ++ fmt_u z.natAbs)
  else List.replicate (w - (fmt_u z.natAbs).length) '0' ++ fmt_u z.natAbs

/-- The function `locStr` (max_m10s_sensor.c, lines 64-73) on an `int32_t`
argument: the text left in the 25-byte buffer by
`snprintf(str, sizeof(str), "%s%d.%07d", sign, loc / 10000000, loc % 10000000)`,
which writes at most 24 characters. The negation is taken modulo `2^32`;
division and remainder truncate towards zero. -/
def locStr (loc : Int) : String :=
  let sign : String := if loc < 0 then "-" else ""
  let loc : Int := if loc < 0 then i32 (-loc) else loc
  String.mk
    ((sign.data ++ fmt_d (Int.tdiv loc 10000000) ++ ['.'] ++
      fmt_0d 7 (Int.tmod loc 10000000)).take 24)

/-! ## Vocabulary of the statements -/

/-- The trace of `k` unsuccessful polls of a poll loop. -/
def waits (s : PollSite) : Nat → List Event
  | 0 => []
  | k + 1 => [.call s.statusFn, .k_usleep 100, .call "k_uptime_get_32"] ++ waits s k

/-- An advancing clock, seen from a poll loop: `time` and `uptime j` are the
uptime in milliseconds at the successive readings (the program sees them
modulo `2^32`); the uptime never decreases, grows by less than `2^32 - 10000`
ms between two readings, and eventually exceeds `time + 10000`. -/
def ClockAdvances (e : PollEnv) : Prop :=
  e.time ≤ e.uptime 0 ∧ e.uptime 0 < e.time + (2 ^ 32 - 10000) ∧
  (∀ j, e.uptime j ≤ e.uptime (j + 1) ∧ e.uptime (j + 1) < e.uptime j + (2 ^ 32 - 10000)) ∧
  ∃ j, e.time + 10000 < e.uptime j

/-- Sign factor of a floating-point datum. -/
def sgn (b : Bool) : ℚ := if b then -1 else 1

/-- Value of a string of decimal digits. -/
def decode (l : List Char) : Nat := l.foldl (fun acc c => 10 * acc + (c.toNat - 48)) 0

/-- The columns of the CSV stream: the name in the header and the text of the
field in a record. -/
def csv_columns (v : sensor_values_t) : List (String × List Char) :=
  [("Timestamp", fmt_u v.timestamp),
   ("SCD41_CO2", fmt_u v.scd41_co2),
   ("SCD41_Temperature", fmt_f v.scd41_temperature),
   ("SCD41_Humidity", fmt_f v.scd41_humidity),
   ("SGP41_VOC", fmt_u v.sgp41_voc),
   ("SGP41_NOX", fmt_u v.sgp41_nox),
   ("ILPS28QSW_Pressure", fmt_f v.ilps28qsw_pressure),
   ("ILPS28QSW_Temperature", fmt_f v.ilps28qsw_temperature),
   ("BME688_Temperature", fmt_f v.bme688_temperature),
   ("BME688_Pressure", fmt_f v.bme688_pressure),
   ("BME688_Humidity", fmt_f v.bme688_humidity),
   ("BME688_Gas_Resistance", fmt_f v.bme688_gas_resistance),
   ("BH1730FVC_Visible", fmt_u v.bh1730_visible),
   ("BH1730FVC_IR", fmt_u v.bh1730_ir),
   ("BH1730FVC_Lux", fmt_u v.bh1730_lux),
   ("AS7331_Temperature", fmt_f v.as7331_temp),
   ("AS7331_UVA", fmt_u v.as7331_uva),
   ("AS7331_UVB", fmt_u v.as7331_uvb),
   ("AS7331_UVC", fmt_u v.as7331_uvc)]

/-- The events by which the loop paces itself: sleeps other than the 1 ms of
`sync`, and warnings. -/
def is_pacing : Event → Bool
  | .k_msleep ms => decide (ms ≠ 1)
  | .log .wrn _ => true
  | _ => false

/-- The lines written to standard output by a trace, in the order of the writes. -/
def printed : List Event → List String
  | [] => []
  | .printf out :: t => out :: printed t
  | _ :: t => printed t

/-- The GPIO lines written by a trace, in the order of the writes. -/
def gpio_writes : List Event → List String
  | [] => []
  | .gpio_pin_set_dt pin _ :: t => pin :: gpio_writes t
  | _ :: t => gpio_writes t

/-- The functions entered by a trace, in the order of the calls, restricted to the
functions named in `names`. -/
def calls_of (names : List String) : List Event → List String
  | [] => []
  | .call fn :: t => if fn ∈ names then fn :: calls_of names t else calls_of names t
  | _ :: t => calls_of names t

/-- The trace of an iteration. -/
def IterResult.trace : IterResult → List Event
  | .diverge t => t
  | .brk t => t
  | .next t _ => t

/-- The seven sensor reads of an iteration whose return code the loop tests
(lines 349, 361, 370, 414, 420, 426 and 467) all succeed. -/
def reads_ok (e : IterEnv) : Prop :=
  e.scd4x_read_measurement = 0 ∧ e.sgp41_measure_raw_signals = 0 ∧ e.ilps28qsw_data_get = 0 ∧
  e.bh1730_read_visible = 0 ∧ e.bh1730_read_ir = 0 ∧ e.bh1730_read_lux = 0 ∧
  e.as7331_read_all = 0

instance (e : IterEnv) : Decidable (reads_ok e) := by
  unfold reads_ok; infer_instance

/-- The three poll loops of an iteration end within the fuel. -/
def polls_end (fuel : Nat) (e : IterEnv) : Prop :=
  (poll_loop scd41_poll e.scd41 fuel 0).isSome = true ∧
  (poll_loop bh1730_poll e.bh1730 fuel 0).isSome = true ∧
  (poll_loop as7331_poll ⟨e.as7331_time, as7331_status e.gpio_ext_as7331_ready, e.as7331_uptime⟩
    fuel 0).isSome = true

instance (fuel : Nat) (e : IterEnv) : Decidable (polls_end fuel e) := by
  unfold polls_end; infer_instance

/-- The four power-on routines called by `main`. -/
def poweron_names : List String :=
  ["poweron_scd41", "poweron_sgp41", "poweron_bh1730", "poweron_as7331"]

/-- The four power-off routines called by `main`. -/
def poweroff_names : List String :=
  ["poweroff_scd41", "poweroff_sgp41", "poweroff_bh1730", "poweroff_as7331"]

/-- The value of `loop_duration` at line 500: the `int32_t` difference of the
uptime read there and `loop_time`. -/
def loop_duration (loop_time uptime_500 : Nat) : Int := i32 (elapsed32 uptime_500 loop_time)

/-- The trace of `k` successful measurements of `test_max77654`. -/
def measures : Nat → List Event
  | 0 => []
  | k + 1 => [.call "max77654_measure", .log .inf " - %s: %i %s"] ++ measures k

/-- The values returned by successive calls of `keepGoingCallback` made at the
given uptimes, the static `firstTime` being carried from call to call. -/
def keepGoing_calls (MAX_M10S_TIMEOUT : Int) : Int → List Nat → List Bool
  | _, [] => []
  | firstTime, u :: us =>
    (keepGoingCallback MAX_M10S_TIMEOUT firstTime u).1 ::
      keepGoing_calls MAX_M10S_TIMEOUT (keepGoingCallback MAX_M10S_TIMEOUT firstTime u).2.1 us

/-! ## Sample environments -/

/-- A poll environment in which the first status query reports data ready. -/
def demo_poll (start : Nat) : PollEnv := ⟨start, fun _ => (0, true), fun _ => start⟩

/-- An iteration that starts at uptime `start` ms and whose work lasts `work`
ms: every sensor is ready at once, every read succeeds and yields the values of
the end-to-end scenario of the specification. -/
def demo_iter (start work : Nat) : IterEnv where
  scd41 := demo_poll start
  scd4x_read_measurement := 0
  scd41_co2 := 800
  scd41_temperature := 22500
  scd41_humidity := 45000
  sgp41_measure_raw_signals := 0
  sgp41_voc := 30000
  sgp41_nox := 15000
  ilps28qsw_data_get := 0
  ilps28qsw_hpa := Flt.lit 24 101325 100
  ilps28qsw_deg_c := Flt.lit 24 231 10
  sensor_sample_fetch := 0
  sensor_channel_get_temp := 0
  sensor_channel_get_press := 0
  sensor_channel_get_humidity := 0
  sensor_channel_get_gas_res := 0
  temp := (22, 800000)
  press := (101, 325000)
  humidity := (44, 0)
  gas_res := (50000, 0)
  bh1730 := demo_poll start
  bh1730_read_visible := 0
  bh1730_visible := 120
  bh1730_read_ir := 0
  bh1730_ir := 40
  bh1730_read_lux := 0
  bh1730_lux := 95
  as7331_time := start
  gpio_ext_as7331_ready := fun _ => 1
  as7331_uptime := fun _ => start
  as7331_read_all := 0
  as7331_all_temp := 1800
  as7331_all_uva := 100
  as7331_all_uvb := 50
  as7331_all_uvc := 10
  as7331_start_measurement := 0
  timestamp := start + work
  uptime_500 := start + work
  uptime_501 := start + work

/-- A run in which every call succeeds. With `SAMPLING_TIME = 5000` the first
iteration starts at uptime 0, works for 300 ms and sleeps 4700 ms, so the
second one starts at uptime 5000; it works for 300 ms as well. -/
def demo_env : MainEnv where
  uart_dev_ready := true
  usb_enable := 0
  bme_dev_ready := true
  test_sensors_returns := true
  poweron_scd41 := ⟨0, 0, 0⟩
  scd4x_start_periodic_measurement := 0
  poweron_sgp41 := ⟨0, 0⟩
  sgp41_execute_conditioning := 0
  sgp41_measure_raw_signals := 0
  bh1730_power_on := 0
  bh1730_init := 0
  poweron_as7331_1 := ⟨0, 0⟩
  as7331_reset := 0
  poweron_as7331_2 := ⟨0, 0⟩
  as7331_set_configuration_mode := 0
  as7331_init := 0
  as7331_set_measurement_mode := 0
  as7331_start_measurement := 0
  loop_time := 0
  iter := fun k => if k = 0 then demo_iter 0 300 else demo_iter 5000 300
  scd4x_stop_periodic_measurement := 0
  poweroff_scd41 := ⟨0, 0, 0⟩
  sgp41_turn_heater_off := 0
  poweroff_sgp41 := ⟨0, 0⟩
  bh1730_power_down := 0
  poweroff_as7331 := ⟨0, 0⟩

/-- A poll environment: the signal is asserted at the poll of index `k` (never
if `k` is `none`) and each wait lasts 2500 ms. -/
def demo_wait (k : Option Nat) : PollEnv :=
  ⟨1000, fun j => (0, decide (some j = k)), fun j => 1000 + 2500 * (j + 1)⟩

/-- The sample run, except that the second iteration fails to read the infrared
channel of the BH1730FVC. -/
def read_failure_env : MainEnv :=
  { demo_env with
    iter := fun k => if k = 0 then demo_iter 0 300
                     else { demo_iter 5000 300 with bh1730_read_ir := -3 } }

/-- The sample run, except that `sensor_sample_fetch` fails (returns -5) in the
first iteration. -/
def bme688_failure_env : MainEnv :=
  { demo_env with
    iter := fun k => if k = 0 then { demo_iter 0 300 with sensor_sample_fetch := -5 }
                     else demo_iter 5000 300 }

/-- An iteration whose SCD41 poll loop, entered at uptime 1000, never sees the
signal and times out at uptime 13500; everything after it succeeds. -/
def scd41_timeout_iter : IterEnv :=
  { demo_iter 13500 300 with scd41 := demo_wait none }

/-- An iteration in which reading the BH1730FVC valid flag fails and the BME688
pressure channel cannot be read; every checked read succeeds. -/
def unchecked_failures_iter : IterEnv :=
  { demo_iter 0 300 with
    sensor_channel_get_press := -5
    bh1730 := ⟨0, fun _ => (-1, false), fun _ => 0⟩ }

/-- A run whose first iteration fails to read the SCD41, so that the loop is left
at once. -/
def break_env : MainEnv :=
  { demo_env with iter := fun _ => { demo_iter 0 300 with scd4x_read_measurement := -1 } }

/-- A self-test in which every call succeeds, every data-ready signal is
asserted at the first query and both reset bits are found cleared at once. -/
def demo_test_env : TestEnv where
  poweron_as7331 := ⟨0, 0⟩
  test_as7331 := ⟨0, 0, 0, 0, 0, 0, 0, demo_poll 0, 0⟩
  poweroff_as7331 := ⟨0, 0⟩
  bh1730_power_on := 0
  test_bh1730fvc := ⟨0, demo_poll 0, 0, 0, 0⟩
  bh1730_power_down := 0
  test_ism330dhcx := ⟨0, 0, 0, 0, 0, 0, 0, 0, 0, 0, .ISM330DHCX_2g, 0, 0, .ISM330DHCX_2000dps, 0⟩
  test_lis2duxs12 := ⟨0, 0, 0, fun _ => false, 0, 0, 0, 0⟩
  test_ilpS28qsw := ⟨0, 0, fun _ => false, 0, 0, 0, 0, 0, 0⟩
  poweron_scd41 := ⟨0, 0, 0⟩
  test_scd41 := ⟨0, 0, 0, demo_poll 0, 0⟩
  poweroff_scd41 := ⟨0, 0, 0⟩
  poweron_sgp41 := ⟨0, 0⟩
  test_sgp41 := ⟨0, 0, 0⟩
  poweroff_sgp41 := ⟨0, 0⟩
  max77654_measure := fun _ => true
  poweroff_max_m10s := ⟨0, 0, 0, 0, 0, 0, 0, 0⟩

/-- The same self-test, except that the ILPS28QSW accepts the reset command and
then reports `sw_reset` set at every status query. -/
def stuck_reset_env : TestEnv :=
  { demo_test_env with
    test_ilpS28qsw := { demo_test_env.test_ilpS28qsw with sw_reset := fun _ => true } }

/-- A self-test in which many things go wrong under a clock that advances
2500 ms per wait: the AS7331 data arrive at the third query and cannot be read,
the BH1730FVC poll loop times out, the SCD41 cannot stop its periodic
measurement, the LIS2DUXS12 reports `sw_reset` set three times, the reset command of the
ILPS28QSW fails, the fifth PMIC measurement fails and the GNSS module cannot be
opened. -/
def rough_test_env : TestEnv :=
  { demo_test_env with
    test_as7331 := ⟨0, 0, -1, 0, 0, 0, 0, demo_wait (some 2), -1⟩
    test_bh1730fvc := ⟨0, demo_wait none, 0, -1, 0⟩
    test_scd41 := ⟨-1, 0, 0, demo_wait (some 0), 0⟩
    test_lis2duxs12 := ⟨0, 0, 0, fun j => decide (j < 3), 0, 0, -1, 0⟩
    test_ilpS28qsw := ⟨0, -5, fun _ => true, 0, 0, 0, 0, 0, 0⟩
    max77654_measure := fun i => decide (i < 4)
    poweroff_max_m10s := ⟨0, 0, 0, -1, 0, 0, 0, 0⟩ }

/-- The three ILPS28QSW objects before any assignment (static storage): null
pointers, address 0, and the enumerators of value 0, written `0`. -/
def unset_globals : Ilps28qswGlobals :=
  ⟨⟨"NULL", "NULL", "NULL"⟩, ⟨"NULL", 0⟩, ⟨"0", "0", "0", "0"⟩⟩

/-- An iteration that starts at uptime 1000 and in which every call succeeds,
those of the BME688 included, and the SCD41 and the BH1730FVC are ready at
once; the ready line of the AS7331 never reads 1, so that its poll loop,
entered at uptime 1000 with waits of 2500 ms, times out at uptime 13500. -/
def as7331_timeout_iter : IterEnv :=
  { demo_iter 1000 12800 with
    as7331_time := 1000
    gpio_ext_as7331_ready := fun _ => 0
    as7331_uptime := fun j => 1000 + 2500 * (j + 1) }

/-! # Theorems -/

/-! ## Lemmas: polling -/

/-- A poll loop entered at query `j` with fuel for `k + 1` queries is left as
`ready` at query `j + k` if that query is the first to report the signal. -/
theorem poll_loop_ready_from (s : PollSite) (e : PollEnv) (n : Nat)
    (herr : (e.status n).1 = 0) (hrdy : (e.status n).2 = true) :
    ∀ k j, j + k = n →
      (∀ i, j ≤ i → i < n → (e.status i).1 = 0 ∧ (e.status i).2 = false ∧
        elapsed32 (e.uptime i) e.time ≤ 10 * 1000) →
      ∀ fuel, k < fuel →
        poll_loop s e fuel j = some ⟨.ready, true, waits s k ++ [.call s.statusFn]⟩ := by
  intro k
  induction k with
  | zero =>
    intro j hj _ fuel hf
    obtain ⟨f, rfl⟩ : ∃ f, fuel = f + 1 := ⟨fuel - 1, by omega⟩
    have hjn : j = n := by omega
    subst hjn
    simp [poll_loop, herr, hrdy, waits]
  | succ k ih =>
    intro j hj hpre fuel hf
    obtain ⟨f, rfl⟩ : ∃ f, fuel = f + 1 := ⟨fuel - 1, by omega⟩
    obtain ⟨h1, h2, h3⟩ := hpre j (le_refl j) (by omega)
    have hrec := ih (j + 1) (by omega) (fun i hi hin => hpre i (by omega) hin) f (by omega)
    have h3' : ¬ (10 * 1000 < elapsed32 (e.uptime j) e.time) := by omega
    simp [poll_loop, h1, h2, h3', hrec, waits]

/-- A poll loop entered at query `j` is left as `timeout` after query `j + k`
if no query up to there reports the signal and the elapsed time exceeds
10000 ms there for the first time. -/
theorem poll_loop_timeout_from (s : PollSite) (e : PollEnv) (n : Nat)
    (hto : 10 * 1000 < elapsed32 (e.uptime n) e.time) :
    ∀ k j, j + k = n →
      (∀ i, j ≤ i → i ≤ n → (e.status i).1 = 0 ∧ (e.status i).2 = false) →
      (∀ i, j ≤ i → i < n → elapsed32 (e.uptime i) e.time ≤ 10 * 1000) →
      ∀ fuel, k < fuel →
        poll_loop s e fuel j = some ⟨.timeout, false,
          waits s (k + 1) ++ [.log .err s.timeoutMsg]⟩ := by
  intro k
  induction k with
  | zero =>
    intro j hj hst _ fuel hf
    obtain ⟨f, rfl⟩ : ∃ f, fuel = f + 1 := ⟨fuel - 1, by omega⟩
    have hjn : j = n := by omega
    subst hjn
    obtain ⟨h1, h2⟩ := hst j (le_refl j) (le_refl j)
    simp [poll_loop, h1, h2, hto, waits]
  | succ k ih =>
    intro j hj hst hpre fuel hf
    obtain ⟨f, rfl⟩ : ∃ f, fuel = f + 1 := ⟨fuel - 1, by omega⟩
    obtain ⟨h1, h2⟩ := hst j (le_refl j) (by omega)
    have h3 := hpre j (le_refl j) (by omega)
    have hrec := ih (j + 1) (by omega) (fun i hi hin => hst i (by omega) hin)
      (fun i hi hin => hpre i (by omega) hin) f (by omega)
    have h3' : ¬ (10 * 1000 < elapsed32 (e.uptime j) e.time) := by omega
    simp [poll_loop, h1, h2, h3', hrec, waits]

/-- A poll loop is left at the latest when the elapsed time exceeds 10000 ms. -/
theorem poll_loop_terminates_from (s : PollSite) (e : PollEnv) (n : Nat)
    (hto : 10 * 1000 < elapsed32 (e.uptime n) e.time) :
    ∀ k j, j + k = n → ∀ fuel, k < fuel → ∃ r, poll_loop s e fuel j = some r := by
  intro k
  induction k with
  | zero =>
    intro j hj fuel hf
    obtain ⟨f, rfl⟩ : ∃ f, fuel = f + 1 := ⟨fuel - 1, by omega⟩
    have hjn : j = n := by omega
    subst hjn
    simp only [poll_loop]
    split_ifs <;> simp
  | succ k ih =>
    intro j hj fuel hf
    obtain ⟨f, rfl⟩ : ∃ f, fuel = f + 1 := ⟨fuel - 1, by omega⟩
    obtain ⟨r, hr⟩ := ih (j + 1) (by omega) f (by omega)
    simp only [poll_loop]
    split_ifs <;> simp [hr]

/-- Under an advancing clock there is a first reading later than 10000 ms after
the start; the 32-bit difference computed by the program agrees with the true
elapsed time up to that reading. -/
theorem clock_first_timeout (e : PollEnv) (h : ClockAdvances e) :
    ∃ n, (e.time + 10000 < e.uptime n ∧ ∀ i, i < n → e.uptime i ≤ e.time + 10000) ∧
      10 * 1000 < elapsed32 (e.uptime n) e.time ∧
      ∀ i, i < n → elapsed32 (e.uptime i) e.time ≤ 10 * 1000 := by
  classical
  obtain ⟨h0, h1, hstep, hex⟩ := h
  have hmono : ∀ i, e.time ≤ e.uptime i := by
    intro i
    induction i with
    | zero => exact h0
    | succ i ih => exact le_trans ih (hstep i).1
  refine ⟨Nat.find hex, ⟨Nat.find_spec hex, ?_⟩, ?_, ?_⟩
  · intro i hi
    have := Nat.find_min hex hi
    omega
  · have hs := Nat.find_spec hex
    have hlt : e.uptime (Nat.find hex) < e.time + 2 ^ 32 := by
      rcases Nat.eq_zero_or_pos (Nat.find hex) with hz | hp
      · rw [hz]; omega
      · have hprev := Nat.find_min hex (Nat.sub_lt hp Nat.one_pos)
        have hst := (hstep (Nat.find hex - 1)).2
        rw [Nat.sub_add_cancel hp] at hst
        omega
    unfold elapsed32
    omega
  · intro i hi
    have h2 := Nat.find_min hex hi
    have h3 := hmono i
    unfold elapsed32
    omega

/-- The clock of `demo_wait` advances. -/
theorem demo_wait_clock (k : Option Nat) : ClockAdvances (demo_wait k) := by
  refine ⟨?_, ?_, ?_, ⟨4, ?_⟩⟩
  · simp only [demo_wait]; omega
  · simp only [demo_wait]; omega
  · intro j; simp only [demo_wait]; omega
  · simp only [demo_wait]; omega

/-! ## Lemmas: floating point -/

/-- With enough fuel `ilog2Aux` brackets its argument between two powers of two. -/
theorem ilog2Aux_spec : ∀ fuel n, n ≤ fuel → 0 < n →
    2 ^ ilog2Aux fuel n ≤ n ∧ n < 2 ^ (ilog2Aux fuel n + 1) := by
  intro fuel
  induction fuel with
  | zero => intro n h1 h2; omega
  | succ f ih =>
    intro n h1 h2
    unfold ilog2Aux
    by_cases hn : n < 2
    · have : n = 1 := by omega
      subst this
      simp
    · simp only [hn, if_false]
      have := ih (n / 2) (by omega) (by omega)
      rw [pow_succ, pow_succ, pow_succ]
      omega

/-- The function `ilog2` brackets its argument between two powers of two. -/
theorem ilog2_spec (n : Nat) (h : 0 < n) : 2 ^ ilog2 n ≤ n ∧ n < 2 ^ (ilog2 n + 1) :=
  ilog2Aux_spec n n (le_refl n) h

/-- Scaling a fraction by a power of two given by an integer exponent. -/
theorem scale_eq (n d : Nat) (e : Int) :
    ((n * 2 ^ (-e).toNat : Nat) : ℚ) / ((d * 2 ^ e.toNat : Nat) : ℚ) =
      (n : ℚ) / (d : ℚ) * (2 : ℚ) ^ (-e) := by
  rcases le_total 0 e with h | h
  · have h1 : (-e).toNat = 0 := Int.toNat_eq_zero.mpr (by omega)
    have h2 : ((e.toNat : Int)) = e := Int.toNat_of_nonneg h
    have h3 : (2 : ℚ) ^ (-e) = 1 / (2 : ℚ) ^ e.toNat := by
      rw [zpow_neg, ← h2, zpow_natCast, h2]; simp
    rw [h1, h3]
    push_cast
    field_simp
  · have h1 : e.toNat = 0 := Int.toNat_eq_zero.mpr h
    have h2 : (((-e).toNat : Int)) = -e := Int.toNat_of_nonneg (by omega)
    have h3 : (2 : ℚ) ^ (-e) = (2 : ℚ) ^ (-e).toNat := by
      rw [← zpow_natCast, h2]
    rw [h1, h3]
    push_cast
    field_simp

/-- Rounding a quotient to the nearest integer moves it by at most one half. -/
theorem round_step (N D : Nat) (hD : 0 < D) :
    |(((if D < 2 * (N % D) ∨ (2 * (N % D) = D ∧ N / D % 2 = 1) then N / D + 1 else N / D : Nat) : ℚ))
      - (N : ℚ) / (D : ℚ)| ≤ 1 / 2 := by
  have hDq : (0 : ℚ) < D := by exact_mod_cast hD
  have hdiv : (N : ℚ) / D = (N / D : Nat) + ((N % D : Nat) : ℚ) / D := by
    have := Nat.div_add_mod N D
    have h2 : (N : ℚ) = (D : ℚ) * ((N / D : Nat) : ℚ) + ((N % D : Nat) : ℚ) := by
      exact_mod_cast this.symm
    field_simp
    linarith
  have hr : ((N % D : Nat) : ℚ) < D := by exact_mod_cast Nat.mod_lt N hD
  have hr0 : (0 : ℚ) ≤ ((N % D : Nat) : ℚ) := by positivity
  rw [hdiv]
  split_ifs with h
  · have h2 : (D : ℚ) ≤ 2 * ((N % D : Nat) : ℚ) := by
      rcases h with h | h
      · exact_mod_cast h.le
      · exact_mod_cast h.1.symm.le
    push_cast
    rw [abs_le]
    constructor
    · have : ((N % D : Nat) : ℚ) / D ≤ 1 := by rw [div_le_one hDq]; exact hr.le
      linarith
    · have : (1 : ℚ) / 2 ≤ ((N % D : Nat) : ℚ) / D := by
        rw [le_div_iff₀ hDq]; linarith
      linarith
  · have h2 : 2 * ((N % D : Nat) : ℚ) ≤ D := by
      have : ¬ D < 2 * (N % D) := fun hh => h (Or.inl hh)
      exact_mod_cast Nat.le_of_not_lt this
    rw [abs_le]
    constructor
    · have : ((N % D : Nat) : ℚ) / D ≤ 1 / 2 := by
        rw [div_le_iff₀ hDq]; linarith
      linarith
    · have : 0 ≤ ((N % D : Nat) : ℚ) / D := by positivity
      linarith

/-- Rounding to `p` bits has a relative error of at most `2^-p`. -/
theorem roundNE_error (p : Nat) (neg : Bool) (n d : Nat) (hd : 0 < d) :
    |(Flt.roundNE p neg n d).toRat - sgn neg * ((n : ℚ) / d)| ≤ (n : ℚ) / d / 2 ^ p := by
  unfold Flt.roundNE
  by_cases hn : n = 0
  · simp [hn, Flt.toRat]
  simp only [hn, if_false]
  have hn0 : 0 < n := Nat.pos_of_ne_zero hn
  have hnq : (0 : ℚ) < n := by exact_mod_cast hn0
  have hdq : (0 : ℚ) < d := by exact_mod_cast hd
  obtain ⟨hln1, hln2⟩ := ilog2_spec n hn0
  obtain ⟨hld1, hld2⟩ := ilog2_spec d hd
  set e0 : Int := (ilog2 n : Int) - (ilog2 d : Int) - (p : Int) with he0
  set e : Int := if 2 ^ p * (d * 2 ^ e0.toNat) ≤ n * 2 ^ (-e0).toNat then e0 + 1 else e0 with he
  set N := n * 2 ^ (-e).toNat with hN
  set D := d * 2 ^ e.toNat with hD
  have hDpos : 0 < D := by positivity
  have hstep := round_step N D hDpos
  have hscale : (N : ℚ) / D = (n : ℚ) / d * (2 : ℚ) ^ (-e) := scale_eq n d e
  have hlow : (2 : ℚ) ^ p / 2 ≤ (N : ℚ) / D := by
    rw [hscale]
    by_cases hc : 2 ^ p * (d * 2 ^ e0.toNat) ≤ n * 2 ^ (-e0).toNat
    · have hee : e = e0 + 1 := by simp only [he, hc, if_true]
      have hD0 : (0 : ℚ) < ((d * 2 ^ e0.toNat : Nat) : ℚ) := by
        have : 0 < d * 2 ^ e0.toNat := by positivity
        exact_mod_cast this
      have hcq : (2 : ℚ) ^ p ≤ ((n * 2 ^ (-e0).toNat : Nat) : ℚ) / ((d * 2 ^ e0.toNat : Nat) : ℚ) := by
        rw [le_div_iff₀ hD0]
        exact_mod_cast hc
      rw [scale_eq] at hcq
      rw [hee, neg_add, zpow_add₀ (by norm_num : (2 : ℚ) ≠ 0), zpow_neg_one]
      linarith
    · have hee : e = e0 := by simp only [he, hc, if_false]
      have h2 : (2 : ℚ) ^ (-e0) = (2 : ℚ) ^ p * (2 : ℚ) ^ (ilog2 d) / (2 : ℚ) ^ (ilog2 n) := by
        rw [he0, show -((ilog2 n : Int) - (ilog2 d : Int) - (p : Int))
          = (p : Int) + (ilog2 d : Int) - (ilog2 n : Int) by ring,
          zpow_sub₀ (by norm_num : (2 : ℚ) ≠ 0), zpow_add₀ (by norm_num : (2 : ℚ) ≠ 0),
          zpow_natCast, zpow_natCast, zpow_natCast]
      rw [hee, h2]
      have hnq2 : (2 : ℚ) ^ (ilog2 n) ≤ n := by exact_mod_cast hln1
      have hdq2 : (d : ℚ) < 2 * (2 : ℚ) ^ (ilog2 d) := by
        have : d < 2 ^ (ilog2 d) * 2 := by rw [← pow_succ]; exact hld2
        have h3 : (d : ℚ) < (2 : ℚ) ^ (ilog2 d) * 2 := by exact_mod_cast this
        linarith
      have hpn : (0 : ℚ) < (2 : ℚ) ^ (ilog2 n) := by positivity
      have hpd : (0 : ℚ) < (2 : ℚ) ^ (ilog2 d) := by positivity
      have hpp : (0 : ℚ) < (2 : ℚ) ^ p := by positivity
      have hA : (1 : ℚ) ≤ n / (2 : ℚ) ^ (ilog2 n) := by rw [one_le_div hpn]; exact hnq2
      have hB : (1 : ℚ) / 2 ≤ (2 : ℚ) ^ (ilog2 d) / d := by
        rw [le_div_iff₀ hdq]; linarith
      have hAB : (1 : ℚ) / 2 ≤ n / (2 : ℚ) ^ (ilog2 n) * ((2 : ℚ) ^ (ilog2 d) / d) := by
        nlinarith
      have hre : (n : ℚ) / d * ((2 : ℚ) ^ p * (2 : ℚ) ^ (ilog2 d) / (2 : ℚ) ^ (ilog2 n))
          = (2 : ℚ) ^ p * (n / (2 : ℚ) ^ (ilog2 n) * ((2 : ℚ) ^ (ilog2 d) / d)) := by
        field_simp
        ring
      rw [hre]
      have := mul_le_mul_of_nonneg_left hAB hpp.le
      linarith
  have hv : (n : ℚ) / d = (N : ℚ) / D * (2 : ℚ) ^ e := by
    rw [hscale, mul_assoc, ← zpow_add₀ (by norm_num : (2 : ℚ) ≠ 0)]
    simp
  have hpe : (0 : ℚ) < (2 : ℚ) ^ e := by positivity
  have hpp : (0 : ℚ) < (2 : ℚ) ^ p := by positivity
  simp only [Flt.toRat]
  set m : Nat := (if D < 2 * (N % D) ∨ 2 * (N % D) = D ∧ N / D % 2 = 1 then N / D + 1 else N / D) with hm
  have hsg : (if neg = true then (-1 : ℚ) else 1) = sgn neg := rfl
  rw [hsg]
  have hfact : sgn neg * (m : ℚ) * (2 : ℚ) ^ e - sgn neg * ((n : ℚ) / d)
      = sgn neg * (((m : ℚ) - (N : ℚ) / D) * (2 : ℚ) ^ e) := by
    rw [hv]; ring
  have hsabs : |sgn neg| = 1 := by
    unfold sgn; split_ifs <;> simp
  rw [hfact, abs_mul, hsabs, one_mul, abs_mul, abs_of_pos hpe, hv]
  have h10 : |(m : ℚ) - (N : ℚ) / D| * (2 : ℚ) ^ e ≤ 1 / 2 * (2 : ℚ) ^ e :=
    mul_le_mul_of_nonneg_right hstep hpe.le
  have h11 : 1 / 2 * (2 : ℚ) ^ e ≤ (N : ℚ) / D * (2 : ℚ) ^ e / (2 : ℚ) ^ p := by
    rw [le_div_iff₀ hpp]
    have : (2 : ℚ) ^ p / 2 * (2 : ℚ) ^ e ≤ (N : ℚ) / D * (2 : ℚ) ^ e :=
      mul_le_mul_of_nonneg_right hlow hpe.le
    linarith
  linarith


/-- Rounding to `p` bits, stated for a signed target value. -/
theorem roundNE_approx (p : Nat) (b : Bool) (n d : Nat) (hd : 0 < d) (t : ℚ)
    (h : sgn b * ((n : ℚ) / d) = t) :
    |(Flt.roundNE p b n d).toRat - t| ≤ |t| / 2 ^ p := by
  have h1 := roundNE_error p b n d hd
  have h2 : |t| = (n : ℚ) / d := by
    rw [← h, abs_mul]
    have : |sgn b| = 1 := by unfold sgn; split_ifs <;> simp
    rw [this, one_mul, abs_of_nonneg (by positivity)]
  rw [h2, ← h]
  exact h1

theorem Flt.den_pos (x : Flt) : 0 < x.den := by
  unfold Flt.den; positivity

theorem Flt.toRat_eq (x : Flt) : x.toRat = sgn x.neg * ((x.num : ℚ) / x.den) := by
  have h := scale_eq x.mant 1 (-x.exp)
  simp only [neg_neg, one_mul, Nat.cast_one, div_one] at h
  unfold Flt.toRat Flt.num Flt.den sgn
  rw [h]
  ring

theorem Flt.toRat_eq_snum (x : Flt) : x.toRat = (x.snum : ℚ) / x.den := by
  rw [Flt.toRat_eq]
  unfold Flt.snum sgn
  split_ifs <;> simp
  ring

theorem sgn_natAbs (s : Int) (b0 : Bool) :
    sgn (if s = 0 then b0 else decide (s < 0)) * (s.natAbs : ℚ) = (s : ℚ) := by
  by_cases h0 : s = 0
  · simp [h0]
  · simp only [h0, if_false]
    have hcast : ((s.natAbs : ℚ)) = |(s : ℚ)| := by
      rw [Nat.cast_natAbs]; simp
    rw [hcast]
    by_cases hneg : s < 0
    · have : (s : ℚ) < 0 := by exact_mod_cast hneg
      simp [sgn, hneg, abs_of_neg this]
    · have : (0 : ℚ) ≤ (s : ℚ) := by exact_mod_cast (not_lt.mp hneg)
      simp [sgn, hneg, abs_of_nonneg this]

theorem sgn_bne (a b : Bool) : sgn (a != b) = sgn a * sgn b := by
  cases a <;> cases b <;> simp [sgn]

theorem Flt.ofInt_error (p : Nat) (z : Int) :
    |(Flt.ofInt p z).toRat - (z : ℚ)| ≤ |(z : ℚ)| / 2 ^ p := by
  unfold Flt.ofInt
  apply roundNE_approx p _ _ 1 Nat.one_pos
  have := sgn_natAbs z false
  by_cases h0 : z = 0
  · simp [h0]
  · simp only [h0, if_false] at this
    simpa using this

theorem Flt.lit_error (p n d : Nat) (hd : 0 < d) :
    |(Flt.lit p n d).toRat - (n : ℚ) / d| ≤ (n : ℚ) / d / 2 ^ p := by
  have := roundNE_error p false n d hd
  simpa [Flt.lit, sgn] using this

theorem Flt.cast_error (p : Nat) (x : Flt) :
    |(Flt.cast p x).toRat - x.toRat| ≤ |x.toRat| / 2 ^ p := by
  unfold Flt.cast
  exact roundNE_approx p _ _ _ x.den_pos _ (x.toRat_eq).symm

theorem Flt.mul_error (p : Nat) (x y : Flt) :
    |(Flt.mul p x y).toRat - x.toRat * y.toRat| ≤ |x.toRat * y.toRat| / 2 ^ p := by
  unfold Flt.mul
  apply roundNE_approx p _ _ _ (Nat.mul_pos x.den_pos y.den_pos)
  have hx : (x.den : ℚ) ≠ 0 := by exact_mod_cast x.den_pos.ne'
  have hy : (y.den : ℚ) ≠ 0 := by exact_mod_cast y.den_pos.ne'
  rw [x.toRat_eq, y.toRat_eq, sgn_bne]
  push_cast
  field_simp
  ring

theorem Flt.div_error (p : Nat) (x y : Flt) (hy0 : 0 < y.num) :
    |(Flt.div p x y).toRat - x.toRat / y.toRat| ≤ |x.toRat / y.toRat| / 2 ^ p := by
  unfold Flt.div
  apply roundNE_approx p _ _ _ (Nat.mul_pos x.den_pos hy0)
  have hx : (x.den : ℚ) ≠ 0 := by exact_mod_cast x.den_pos.ne'
  have hy : (y.den : ℚ) ≠ 0 := by exact_mod_cast y.den_pos.ne'
  have hyn : (y.num : ℚ) ≠ 0 := by exact_mod_cast hy0.ne'
  have hs : sgn y.neg ≠ 0 := by unfold sgn; split_ifs <;> norm_num
  have hss : sgn y.neg * sgn y.neg = 1 := by unfold sgn; split_ifs <;> norm_num
  rw [x.toRat_eq, y.toRat_eq, sgn_bne]
  push_cast
  field_simp
  linear_combination (sgn x.neg * (x.num : ℚ) * y.den * (x.den * y.num)) * hss

theorem Flt.add_error (p : Nat) (x y : Flt) :
    |(Flt.add p x y).toRat - (x.toRat + y.toRat)| ≤ |x.toRat + y.toRat| / 2 ^ p := by
  unfold Flt.add
  apply roundNE_approx p _ _ _ (Nat.mul_pos x.den_pos y.den_pos)
  have hx : (x.den : ℚ) ≠ 0 := by exact_mod_cast x.den_pos.ne'
  have hy : (y.den : ℚ) ≠ 0 := by exact_mod_cast y.den_pos.ne'
  rw [mul_div_assoc', sgn_natAbs, x.toRat_eq_snum, y.toRat_eq_snum]
  push_cast
  field_simp

theorem Flt.sub_error (p : Nat) (x y : Flt) :
    |(Flt.sub p x y).toRat - (x.toRat - y.toRat)| ≤ |x.toRat - y.toRat| / 2 ^ p := by
  unfold Flt.sub
  apply roundNE_approx p _ _ _ (Nat.mul_pos x.den_pos y.den_pos)
  have hx : (x.den : ℚ) ≠ 0 := by exact_mod_cast x.den_pos.ne'
  have hy : (y.den : ℚ) ≠ 0 := by exact_mod_cast y.den_pos.ne'
  rw [mul_div_assoc', sgn_natAbs, x.toRat_eq_snum, y.toRat_eq_snum]
  push_cast
  field_simp

  ring

theorem lit_1000 : Flt.lit 24 1000 1 = ⟨false, 16384000, -14⟩ := by decide
theorem lit_005 : Flt.lit 24 5 100 = ⟨false, 13421773, -28⟩ := by decide
theorem lit_669 : Flt.lit 24 669 10 = ⟨false, 8768717, -17⟩ := by decide
theorem lit_1e6 : Flt.lit 53 1000000 1 = ⟨false, 8589934592000000, -33⟩ := by decide

theorem lit_1000_toRat : (Flt.lit 24 1000 1).toRat = 1000 := by
  rw [lit_1000]; norm_num [Flt.toRat]
theorem lit_005_toRat : (Flt.lit 24 5 100).toRat = 13421773 / 268435456 := by
  rw [lit_005]; norm_num [Flt.toRat]
theorem lit_669_toRat : (Flt.lit 24 669 10).toRat = 8768717 / 131072 := by
  rw [lit_669]; norm_num [Flt.toRat]
theorem lit_1e6_toRat : (Flt.lit 53 1000000 1).toRat = 1000000 := by
  rw [lit_1e6]; norm_num [Flt.toRat]

theorem as7331_temperature_zero : as7331_temperature 0 = ⟨true, 8768717, -17⟩ := by decide

theorem scd41_scale_22500 : scd41_scale 22500 = ⟨false, 11796480, -19⟩ := by decide

theorem scd41_scale_23100 : scd41_scale 23100 = ⟨false, 12111053, -19⟩ := by decide

set_option maxRecDepth 100000 in
theorem bme688_combine_44 : bme688_combine 44 0 = ⟨false, 11534336, -18⟩ := by decide

set_option maxRecDepth 100000 in
theorem bme688_combine_22_8 : bme688_combine 22 800000 = ⟨false, 11953766, -19⟩ := by decide

/-! ## Lemmas: decimal output -/

theorem digit_char (d : Nat) (h : d < 10) :
    (Char.ofNat (48 + d)).isDigit = true ∧ (Char.ofNat (48 + d)).toNat - 48 = d ∧
    Char.ofNat (48 + d) ≠ ',' ∧ Char.ofNat (48 + d) ≠ '\n' := by
  interval_cases d <;> decide

theorem decode_append_single (l : List Char) (c : Char) :
    decode (l ++ [c]) = 10 * decode l + (c.toNat - 48) := by
  simp [decode, List.foldl_append]

theorem decimalAux_digits : ∀ fuel n, ∀ c ∈ decimalAux fuel n, c.isDigit = true ∧ c ≠ ',' ∧ c ≠ '\n' := by
  intro fuel
  induction fuel with
  | zero => intro n c hc; simp [decimalAux] at hc
  | succ f ih =>
    intro n c hc
    unfold decimalAux at hc
    rw [List.mem_append] at hc
    have hd := digit_char (n % 10) (Nat.mod_lt n (by norm_num))
    rcases hc with hc | hc
    · split_ifs at hc with h
      · simp at hc
      · exact ih _ c hc
    · simp only [List.mem_singleton] at hc
      subst hc
      exact ⟨hd.1, hd.2.2.1, hd.2.2.2⟩

theorem decimalAux_decode : ∀ fuel n, n < fuel → decode (decimalAux fuel n) = n := by
  intro fuel
  induction fuel with
  | zero => intro n h; omega
  | succ f ih =>
    intro n h
    unfold decimalAux
    have hd := digit_char (n % 10) (Nat.mod_lt n (by norm_num))
    rw [decode_append_single, hd.2.1]
    split_ifs with h0
    · simp only [decode, List.foldl_nil]
      omega
    · rw [ih (n / 10) (by omega)]
      omega

theorem decimalAux_ne_nil (fuel n : Nat) : decimalAux (fuel + 1) n ≠ [] := by
  unfold decimalAux; simp

theorem digitsN_length : ∀ k n, (digitsN k n).length = k := by
  intro k
  induction k with
  | zero => intro n; simp [digitsN]
  | succ k ih => intro n; simp [digitsN, ih]

theorem digitsN_digits : ∀ k n, ∀ c ∈ digitsN k n, c.isDigit = true ∧ c ≠ ',' ∧ c ≠ '\n' := by
  intro k
  induction k with
  | zero => intro n c hc; simp [digitsN] at hc
  | succ k ih =>
    intro n c hc
    unfold digitsN at hc
    rw [List.mem_append] at hc
    have hd := digit_char (n % 10) (Nat.mod_lt n (by norm_num))
    rcases hc with hc | hc
    · exact ih _ c hc
    · simp only [List.mem_singleton] at hc
      subst hc
      exact ⟨hd.1, hd.2.2.1, hd.2.2.2⟩

theorem digitsN_decode : ∀ k n, decode (digitsN k n) = n % 10 ^ k := by
  intro k
  induction k with
  | zero => intro n; simp [digitsN, decode, Nat.mod_one]
  | succ k ih =>
    intro n
    unfold digitsN
    have hd := digit_char (n % 10) (Nat.mod_lt n (by norm_num))
    rw [decode_append_single, hd.2.1, ih, pow_succ]
    have h1 := Nat.mod_mul_right_div_self n 10 (10 ^ k)
    have h2 := Nat.div_add_mod (n % (10 * 10 ^ k)) 10
    have h3 : n % (10 * 10 ^ k) % 10 = n % 10 := Nat.mod_mul_right_mod n 10 (10 ^ k)
    rw [mul_comm (10 ^ k) 10]
    omega

/-- The text of `%u` is the decimal numeral of the argument. -/
theorem fmt_u_spec (n : Nat) :
    fmt_u n ≠ [] ∧ decode (fmt_u n) = n ∧ ∀ c ∈ fmt_u n, c.isDigit = true ∧ c ≠ ',' ∧ c ≠ '\n' :=
  ⟨decimalAux_ne_nil n n, decimalAux_decode (n + 1) n (Nat.lt_succ_self n),
    decimalAux_digits (n + 1) n⟩

/-- The text of `%f`: an optional sign, the decimal numeral of the integer part,
a point and six digits; the number written differs from the magnitude of the
argument by at most half a unit of the sixth decimal. -/
theorem fmt_f_spec (x : Flt) :
    ∃ ip fr : List Char,
      fmt_f x = (if x.neg then ['-'] else []) ++ ip ++ ['.'] ++ fr ∧
      ip ≠ [] ∧ (∀ c ∈ ip, c.isDigit = true) ∧ fr.length = 6 ∧ (∀ c ∈ fr, c.isDigit = true) ∧
      |((decode ip : ℚ) + (decode fr : ℚ) / 10 ^ 6) - abs x.toRat| ≤ 1 / (2 * 10 ^ 6) := by
  set N := x.num * 10 ^ 6 with hN
  set D := x.den with hD
  set k : Nat := if D < 2 * (N % D) ∨ (2 * (N % D) = D ∧ N / D % 2 = 1) then N / D + 1 else N / D
    with hk
  refine ⟨fmt_u (k / 10 ^ 6), digitsN 6 (k % 10 ^ 6), rfl, (fmt_u_spec _).1,
    fun c hc => ((fmt_u_spec _).2.2 c hc).1, digitsN_length 6 _,
    fun c hc => (digitsN_digits 6 _ c hc).1, ?_⟩
  rw [(fmt_u_spec _).2.1, digitsN_decode, Nat.mod_mod]
  have hstep := round_step N D x.den_pos
  rw [← hk] at hstep
  have hDq : (0 : ℚ) < (D : ℚ) := by exact_mod_cast x.den_pos
  have habs : |x.toRat| = (x.num : ℚ) / D := by
    rw [x.toRat_eq, abs_mul]
    have : |sgn x.neg| = 1 := by unfold sgn; split_ifs <;> simp
    rw [this, one_mul, abs_of_nonneg (by positivity)]
  have hND : (N : ℚ) / D = |x.toRat| * 10 ^ 6 := by
    rw [habs, hN]; push_cast; ring
  have hkk : ((k / 10 ^ 6 : Nat) : ℚ) + ((k % 10 ^ 6 : Nat) : ℚ) / 10 ^ 6 = (k : ℚ) / 10 ^ 6 := by
    have := Nat.div_add_mod k (10 ^ 6)
    have h2 : (k : ℚ) = (10 ^ 6 : ℚ) * ((k / 10 ^ 6 : Nat) : ℚ) + ((k % 10 ^ 6 : Nat) : ℚ) := by
      exact_mod_cast this.symm
    rw [h2]; field_simp; ring
  rw [hkk]
  rw [hND] at hstep
  have e1 : (k : ℚ) / 10 ^ 6 - |x.toRat| = ((k : ℚ) - |x.toRat| * 10 ^ 6) / 10 ^ 6 := by
    field_simp; ring
  rw [e1, abs_div, abs_of_pos (by positivity : (0 : ℚ) < 10 ^ 6), div_le_iff₀ (by positivity)]
  calc |(k : ℚ) - |x.toRat| * 10 ^ 6| ≤ 1 / 2 := hstep
    _ = 1 / (2 * 10 ^ 6) * 10 ^ 6 := by norm_num


theorem fmt_f_no_sep (x : Flt) : ∀ c ∈ fmt_f x, c ≠ ',' ∧ c ≠ '\n' := by
  intro c hc
  unfold fmt_f at hc
  simp only [List.mem_append, List.mem_singleton] at hc
  rcases hc with ((hc | hc) | hc) | hc
  · split_ifs at hc
    · simp only [List.mem_singleton] at hc
      subst hc; decide
    · simp at hc
  · exact ((fmt_u_spec _).2.2 c hc).2
  · subst hc; decide
  · exact (digitsN_digits 6 _ c hc).2

/-! ## Lemmas: control flow of `main` -/

/-- The transport phase either goes on or makes `main` return -1. -/
theorem main_init_ret (env : MainEnv) :
    (main_init env).1 = none ∨ (main_init env).1 = some (-1) := by
  unfold main_init
  by_cases h1 : env.uart_dev_ready <;> by_cases h2 : env.usb_enable = NO_ERROR <;>
    by_cases h3 : env.bme_dev_ready <;> simp [h1, h2, h3]

theorem main_powerup_as7331_ret (env : MainEnv) (t : List Event) :
    (main_powerup_as7331 env t).1 = none ∨ (main_powerup_as7331 env t).1 = some (-1) := by
  unfold main_powerup_as7331
  simp only []
  split_ifs <;> simp

/-- The power-up phase either goes on or makes `main` return -1. -/
theorem main_powerup_ret (env : MainEnv) :
    (main_powerup env).1 = none ∨ (main_powerup env).1 = some (-1) := by
  unfold main_powerup
  simp only []
  split_ifs <;> first | exact main_powerup_as7331_ret env _ | simp

/-- The power-off sequence returns 0 only after calling the four power-off
routines. -/
theorem main_shutdown_zero (env : MainEnv) (h : (main_shutdown env).1 = 0) :
    Event.call "poweroff_scd41" ∈ (main_shutdown env).2 ∧
    Event.call "poweroff_sgp41" ∈ (main_shutdown env).2 ∧
    Event.call "poweroff_bh1730" ∈ (main_shutdown env).2 ∧
    Event.call "poweroff_as7331" ∈ (main_shutdown env).2 := by
  unfold main_shutdown at h ⊢
  by_cases h1 : env.scd4x_stop_periodic_measurement = NO_ERROR
  · by_cases h2 : env.sgp41_turn_heater_off = NO_ERROR
    · simp only [h1, h2, ne_eq, not_true_eq_false, if_false]
      refine ⟨?_, ?_, ?_, ?_⟩
      · have : Event.call "poweroff_scd41" ∈ (poweroff_scd41 env.poweroff_scd41).2 := by
          unfold poweroff_scd41; split_ifs <;> simp
        simp [this]
      · have : Event.call "poweroff_sgp41" ∈ (poweroff_sgp41 env.poweroff_sgp41).2 := by
          unfold poweroff_sgp41; split_ifs <;> simp
        simp [this]
      · have : Event.call "poweroff_bh1730" ∈ (poweroff_bh1730 env.bh1730_power_down).2 := by
          unfold poweroff_bh1730; split_ifs <;> simp
        simp [this]
      · have : Event.call "poweroff_as7331" ∈ (poweroff_as7331 env.poweroff_as7331).2 := by
          unfold poweroff_as7331; split_ifs <;> simp
        simp [this]
    · simp [h1, h2] at h
  · simp [h1] at h

theorem poweron_scd41_no_printf (e : PoweronScd41Env) (out : String) :
    Event.printf out ∉ (poweron_scd41 e).2 := by
  unfold poweron_scd41
  split_ifs <;> simp

/-! ## Lemmas: the CSV stream of an iteration -/

/-- A poll loop prints nothing. -/
theorem poll_loop_no_printf (s : PollSite) (e : PollEnv) (out : String) :
    ∀ fuel j r, poll_loop s e fuel j = some r → Event.printf out ∉ r.trace := by
  intro fuel
  induction fuel with
  | zero => intro j r h; simp [poll_loop] at h
  | succ f ih =>
    intro j r h
    unfold poll_loop at h
    simp only [] at h
    split_ifs at h with h1 h2 h3
    · cases h; simp
    · cases h; simp
    · cases h; simp
    · rcases hrec : poll_loop s e f (j + 1) with _ | r'
      · simp [hrec] at h
      · simp only [hrec, Option.map_some', Option.some.injEq] at h
        subst h
        have := ih (j + 1) r' hrec
        simp [this]

theorem sync_no_printf (out : String) : Event.printf out ∉ sync := by
  simp [sync]

theorem pace_no_printf (P : Int) (lt a b : Nat) (out : String) :
    Event.printf out ∉ (pace P lt a b).2 := by
  unfold pace
  simp only []
  split_ifs <;> simp

theorem loop_body_as7331_next (P : Int) (fuel : Nat) (e : IterEnv) (lt : Nat)
    (t0 t : List Event) (lt' : Nat) (out : String) (h0 : Event.printf out ∉ t0)
    (h : loop_body_as7331 P fuel e lt t0 = .next t lt') :
    (Event.printf out ∈ t ↔ out = csv_record (sensor_values e)) := by
  unfold loop_body_as7331 at h
  rcases hp : poll_loop as7331_poll
    ⟨e.as7331_time, as7331_status e.gpio_ext_as7331_ready, e.as7331_uptime⟩ fuel 0 with _ | r
  · simp [hp] at h
  · simp only [hp] at h
    have hr := poll_loop_no_printf _ _ out _ _ _ hp
    have hs := sync_no_printf out
    have hpc := pace_no_printf P lt e.uptime_500 e.uptime_501 out
    split_ifs at h with h1 h2
    simp only [IterResult.next.injEq] at h
    obtain ⟨ht, _⟩ := h
    subst ht
    simp [h0, hr, hs, hpc, eq_comm]

theorem loop_body_bh1730_next (P : Int) (fuel : Nat) (e : IterEnv) (lt : Nat)
    (t0 t : List Event) (lt' : Nat) (out : String) (h0 : Event.printf out ∉ t0)
    (h : loop_body_bh1730 P fuel e lt t0 = .next t lt') :
    (Event.printf out ∈ t ↔ out = csv_record (sensor_values e)) := by
  unfold loop_body_bh1730 at h
  rcases hp : poll_loop bh1730_poll e.bh1730 fuel 0 with _ | r
  · simp [hp] at h
  · simp only [hp] at h
    have hr := poll_loop_no_printf _ _ out _ _ _ hp
    have hs := sync_no_printf out
    split_ifs at h with h1 h2 h3
    exact loop_body_as7331_next P fuel e lt _ t lt' out (by simp [h0, hr, hs]) h

/-- An iteration that runs to its end prints exactly one line, the record of
the values it has read. -/
theorem loop_body_next (P : Int) (fuel : Nat) (e : IterEnv) (lt : Nat)
    (t : List Event) (lt' : Nat) (out : String)
    (h : loop_body P fuel e lt = .next t lt') :
    (Event.printf out ∈ t ↔ out = csv_record (sensor_values e)) := by
  unfold loop_body at h
  rcases hp : poll_loop scd41_poll e.scd41 fuel 0 with _ | r
  · simp [hp] at h
  · simp only [hp] at h
    have hr := poll_loop_no_printf _ _ out _ _ _ hp
    have hs := sync_no_printf out
    split_ifs at h with h1 h2 h3
    exact loop_body_bh1730_next P fuel e lt _ t lt' out (by simp [hr, hs]) h

/-! ## Data-ready polling -/

/-- C1: each data-ready poll loop of `main` (`loop_body` runs `poll_loop` for
the SCD41 status, the BH1730FVC valid flag and the AS7331 ready GPIO) behaves
as follows. (1) If a status query reports the signal asserted, after earlier
queries that reported no error and no signal, each followed by a reading of at
most 10000 ms elapsed, the loop is left with the outcome `ready`, `data_ready`
true and nothing logged. (2) If every query reports no error and no signal
until, for the first time, more than 10000 ms have elapsed, the loop is left
with the outcome `timeout`, `data_ready` false and the timeout error logged.
(3) Under an advancing clock there is a first reading later than 10000 ms
after the start, the elapsed time computed there exceeds 10000, and the loop
terminates whatever the status queries answer. -/
theorem poll_loop_contract (s : PollSite) (e : PollEnv) :
    (∀ n, (∀ i, i < n → (e.status i).1 = 0 ∧ (e.status i).2 = false ∧
          elapsed32 (e.uptime i) e.time ≤ 10 * 1000) →
        (e.status n).1 = 0 → (e.status n).2 = true →
        ∀ fuel, n < fuel →
          poll_loop s e fuel 0 = some ⟨.ready, true, waits s n ++ [.call s.statusFn]⟩) ∧
    (∀ n, (∀ i, i ≤ n → (e.status i).1 = 0 ∧ (e.status i).2 = false) →
        (∀ i, i < n → elapsed32 (e.uptime i) e.time ≤ 10 * 1000) →
        10 * 1000 < elapsed32 (e.uptime n) e.time →
        ∀ fuel, n < fuel →
          poll_loop s e fuel 0 =
            some ⟨.timeout, false, waits s (n + 1) ++ [.log .err s.timeoutMsg]⟩) ∧
    (ClockAdvances e →
      ∃ n, (e.time + 10000 < e.uptime n ∧ ∀ i, i < n → e.uptime i ≤ e.time + 10000) ∧
        10 * 1000 < elapsed32 (e.uptime n) e.time ∧
        (∀ i, i < n → elapsed32 (e.uptime i) e.time ≤ 10 * 1000) ∧
        ∀ fuel, n < fuel → ∃ r, poll_loop s e fuel 0 = some r) := by
  refine ⟨?_, ?_, ?_⟩
  · intro n hpre herr hrdy fuel hf
    exact poll_loop_ready_from s e n herr hrdy n 0 (by omega) (fun i _ hi => hpre i hi) fuel hf
  · intro n hst hpre hto fuel hf
    exact poll_loop_timeout_from s e n hto n 0 (by omega) (fun i _ hi => hst i hi)
      (fun i _ hi => hpre i hi) fuel hf
  · intro hclk
    obtain ⟨n, hn, hto, hpre⟩ := clock_first_timeout e hclk
    exact ⟨n, hn, hto, hpre,
      fun fuel hf => poll_loop_terminates_from s e n hto n 0 (by omega) fuel hf⟩

/-- Witness of C1, under a clock that advances 2500 ms per wait: a signal
asserted at the third query of the SCD41 loop, a signal that never comes in the
AS7331 loop (timeout after the fourth wait), and termination of the BH1730FVC
loop. -/
theorem poll_loop_contract_witness :
    poll_loop scd41_poll (demo_wait (some 2)) 3 0 =
      some ⟨.ready, true, waits scd41_poll 2 ++ [.call scd41_poll.statusFn]⟩ ∧
    poll_loop as7331_poll (demo_wait none) 5 0 =
      some ⟨.timeout, false, waits as7331_poll 5 ++ [.log .err as7331_poll.timeoutMsg]⟩ ∧
    (∃ n, ∀ fuel, n < fuel → ∃ r, poll_loop bh1730_poll (demo_wait (some 7)) fuel 0 = some r) :=
  ⟨(poll_loop_contract scd41_poll (demo_wait (some 2))).1 2
      (by intro i hi; interval_cases i <;> simp [demo_wait, elapsed32])
      (by simp [demo_wait]) (by simp [demo_wait]) 3 (by norm_num),
   (poll_loop_contract as7331_poll (demo_wait none)).2.1 4
      (by intro i _; simp [demo_wait])
      (by intro i hi; interval_cases i <;> simp [demo_wait, elapsed32])
      (by simp [demo_wait, elapsed32]) 5 (by norm_num),
   ((poll_loop_contract bh1730_poll (demo_wait (some 7))).2.2 (demo_wait_clock (some 7))).imp
      fun _ h => h.2.2.2⟩

/-! ## Loop pacing -/

set_option maxRecDepth 100000 in
/-- C2: with `SAMPLING_TIME = 5000`, a first iteration whose work lasts 300 ms
sleeps 4700 ms; the second iteration, whose work lasts 300 ms as well, measures
a loop duration of 5000 ms (its work and the sleep before it), logs the
overrun warning and does not sleep. -/
theorem pacing_counts_previous_sleep :
    (main_loop 5000 1 demo_env.iter 2 0 demo_env.loop_time).2.filter is_pacing =
      [.k_msleep 4700, .log .wrn "Loop duration too long: %d ms"] := by
  decide

/-! ## The CSV stream -/

set_option maxRecDepth 100000 in
/-- C3, amended: when the sensor reads of one iteration yield CO2 = 800, SCD41
raw temperature 22500 and humidity 45000, VOC = 30000, NOx = 15000, ILPS28QSW
pressure and temperature the `float`s 1013.25 and 23.1, BME688 pairs
(22, 800000), (101, 325000), (44, 0) and (50000, 0), BH1730 visible = 120,
ir = 40, lux = 95, AS7331 raw temperature 1800 and UVA = 100, UVB = 50,
UVC = 10, and the timestamp is 12345, the record is the line
`12345,800,22.500000,45.000000,30000,15000,1013.250000,23.100000,22.799999,101.324997,44.000000,50000.000000,120,40,95,23.099998,100,50,10`
followed by a newline, and an iteration that runs to its end prints this line
and no other. -/
theorem csv_record_scenario (e : IterEnv)
    (h1 : e.timestamp = 12345) (h2 : e.scd41_co2 = 800) (h3 : e.scd41_temperature = 22500)
    (h4 : e.scd41_humidity = 45000) (h5 : e.sgp41_voc = 30000) (h6 : e.sgp41_nox = 15000)
    (h7 : e.ilps28qsw_hpa = Flt.lit 24 101325 100) (h8 : e.ilps28qsw_deg_c = Flt.lit 24 231 10)
    (h9 : e.temp = (22, 800000)) (h10 : e.press = (101, 325000)) (h11 : e.humidity = (44, 0))
    (h12 : e.gas_res = (50000, 0)) (h13 : e.bh1730_visible = 120) (h14 : e.bh1730_ir = 40)
    (h15 : e.bh1730_lux = 95) (h16 : e.as7331_all_temp = 1800) (h17 : e.as7331_all_uva = 100)
    (h18 : e.as7331_all_uvb = 50) (h19 : e.as7331_all_uvc = 10) :
    csv_record (sensor_values e) =
      "12345,800,22.500000,45.000000,30000,15000,1013.250000,23.100000,22.799999,101.324997,44.000000,50000.000000,120,40,95,23.099998,100,50,10\n" ∧
    ∀ (SAMPLING_TIME : Int) (fuel loop_time : Nat) (t : List Event) (loop_time1 : Nat)
      (out : String), loop_body SAMPLING_TIME fuel e loop_time = .next t loop_time1 →
      (Event.printf out ∈ t ↔ out =
        "12345,800,22.500000,45.000000,30000,15000,1013.250000,23.100000,22.799999,101.324997,44.000000,50000.000000,120,40,95,23.099998,100,50,10\n") := by
  have hv : sensor_values e = sensor_values (demo_iter 12045 300) := by
    simp only [sensor_values, demo_iter, h1, h2, h3, h4, h5, h6, h7, h8, h9, h10, h11, h12, h13,
      h14, h15, h16, h17, h18, h19]
  have hline : csv_record (sensor_values e) =
      "12345,800,22.500000,45.000000,30000,15000,1013.250000,23.100000,22.799999,101.324997,44.000000,50000.000000,120,40,95,23.099998,100,50,10\n" := by
    rw [hv]
    decide
  refine ⟨hline, ?_⟩
  intro P fuel lt t lt1 out h
  rw [← hline]
  exact loop_body_next P fuel e lt t lt1 out h

/-- Witness of C3: the sample iteration that starts at uptime 12045 and works
for 300 ms. -/
theorem csv_record_scenario_witness :
    csv_record (sensor_values (demo_iter 12045 300)) =
      "12345,800,22.500000,45.000000,30000,15000,1013.250000,23.100000,22.799999,101.324997,44.000000,50000.000000,120,40,95,23.099998,100,50,10\n" :=
  (csv_record_scenario (demo_iter 12045 300) rfl rfl rfl rfl rfl rfl rfl rfl rfl rfl rfl rfl rfl
    rfl rfl rfl rfl rfl rfl).1

set_option maxRecDepth 100000 in
/-- Counterexample to C3: in the scenario the record printed is not the line
of the specification. -/
theorem csv_record_scenario_differs :
    csv_record (sensor_values (demo_iter 12045 300)) ≠
      "12345,800,22.500000,45.000000,30000,15000,1013.250000,23.100000,22.800000,101.325000,44.000000,50000.000000,120,40,95,23.100000,100,50,10\n" := by
  decide

set_option maxRecDepth 100000 in
/-- C4: the header printed by `main` is the 19 column names of the
specification joined by commas and ended by a newline; every record is the 19
fields of the same columns, in the same order, joined by commas and ended by a
newline, and no field contains a comma or a newline. An integer field is the
decimal numeral of its value (`%u`); a float field is an optional sign, the
integer part, a point and exactly six digits, the number written being the
value rounded to six decimals (`%f`). -/
theorem csv_format (v : sensor_values_t) :
    csv_header =
      "Timestamp,SCD41_CO2,SCD41_Temperature,SCD41_Humidity,SGP41_VOC,SGP41_NOX,ILPS28QSW_Pressure,ILPS28QSW_Temperature,BME688_Temperature,BME688_Pressure,BME688_Humidity,BME688_Gas_Resistance,BH1730FVC_Visible,BH1730FVC_IR,BH1730FVC_Lux,AS7331_Temperature,AS7331_UVA,AS7331_UVB,AS7331_UVC\n" ∧
    csv_header =
      String.mk (List.intercalate [','] ((csv_columns v).map fun c => c.1.data) ++ ['\n']) ∧
    csv_record v =
      String.mk (List.intercalate [','] ((csv_columns v).map fun c => c.2) ++ ['\n']) ∧
    (csv_columns v).length = 19 ∧
    (∀ c ∈ csv_columns v, ∀ ch ∈ c.2, ch ≠ ',' ∧ ch ≠ '\n') ∧
    (∀ n, fmt_u n ≠ [] ∧ decode (fmt_u n) = n ∧ ∀ c ∈ fmt_u n, c.isDigit = true) ∧
    (∀ x : Flt, ∃ ip fr : List Char,
      fmt_f x = (if x.neg then ['-'] else []) ++ ip ++ ['.'] ++ fr ∧
      ip ≠ [] ∧ (∀ c ∈ ip, c.isDigit = true) ∧ fr.length = 6 ∧ (∀ c ∈ fr, c.isDigit = true) ∧
      |((decode ip : ℚ) + (decode fr : ℚ) / 10 ^ 6) - abs x.toRat| ≤ 1 / (2 * 10 ^ 6)) := by
  refine ⟨by decide, ?_, ?_, rfl, ?_, ?_, fmt_f_spec⟩
  · simp only [csv_columns, List.map, List.intercalate, List.intersperse, List.flatten, csv_header]
    decide
  · simp [csv_record, printf, printf_chars, csv_columns, List.intercalate]
  · intro c hc
    have hu : ∀ n, ∀ ch ∈ fmt_u n, ch ≠ ',' ∧ ch ≠ '\n' := fun n ch h => ((fmt_u_spec n).2.2 ch h).2
    simp only [csv_columns, List.mem_cons, List.mem_singleton, List.not_mem_nil, or_false] at hc
    rcases hc with h | h | h | h | h | h | h | h | h | h | h | h | h | h | h | h | h | h | h <;>
      subst h <;> first | exact hu _ | exact fmt_f_no_sep _
  · intro n
    exact ⟨(fmt_u_spec n).1, (fmt_u_spec n).2.1, fun c hc => ((fmt_u_spec n).2.2 c hc).1⟩

/-! ## Unit conversions -/

/-- C5, amended: for every raw temperature code `raw` of the AS7331 the value
stored in the record (and logged by the self-test, which evaluates the same
expression) is the single-precision result of `raw * 0.05f - 66.9f`; it differs
from `raw * 0.05 - 66.9` by at most `(raw * 0.05 + 66.9) / 2^22`, and for
`raw = 0` it is `-8768717 / 131072 = -66.90000152587890625`. -/
theorem as7331_temperature_error (raw : Nat) :
    |(as7331_temperature raw).toRat - ((raw : ℚ) * (5 / 100) - 669 / 10)|
      ≤ ((raw : ℚ) * (5 / 100) + 669 / 10) / 2 ^ 22 ∧
    (as7331_temperature 0).toRat = -(8768717 / 131072) := by
  refine ⟨?_, by rw [as7331_temperature_zero]; norm_num [Flt.toRat]⟩
  unfold as7331_temperature
  have ha := Flt.ofInt_error 24 (raw : Int)
  have hm := Flt.mul_error 24 (Flt.ofInt 24 (raw : Int)) (Flt.lit 24 5 100)
  have hs := Flt.sub_error 24 (Flt.mul 24 (Flt.ofInt 24 (raw : Int)) (Flt.lit 24 5 100))
    (Flt.lit 24 669 10)
  rw [lit_005_toRat] at hm
  rw [lit_669_toRat] at hs
  set a := (Flt.ofInt 24 (raw : Int)).toRat
  set m := (Flt.mul 24 (Flt.ofInt 24 (raw : Int)) (Flt.lit 24 5 100)).toRat
  set r := (Flt.sub 24 (Flt.mul 24 (Flt.ofInt 24 (raw : Int)) (Flt.lit 24 5 100))
    (Flt.lit 24 669 10)).toRat
  have hr0 : (0 : ℚ) ≤ (raw : ℚ) := by positivity
  have hcast : (((raw : Int)) : ℚ) = (raw : ℚ) := by push_cast; rfl
  rw [hcast, abs_of_nonneg hr0, abs_le] at ha
  have ha0 : 0 ≤ a := by
    have : (raw : ℚ) / 2 ^ 24 ≤ raw := by
      rw [div_le_iff₀ (by positivity)]; nlinarith
    linarith
  have hac : |a * (13421773 / 268435456)| = a * (13421773 / 268435456) :=
    abs_of_nonneg (by positivity)
  rw [hac, abs_le] at hm
  have hm0 : 0 ≤ m := by
    have : a * (13421773 / 268435456) / 2 ^ 24 ≤ a * (13421773 / 268435456) := by
      rw [div_le_iff₀ (by positivity)]; nlinarith
    linarith
  have hW : |m - 8768717 / 131072| ≤ m + 8768717 / 131072 := by
    rw [abs_le]; constructor <;> linarith
  rw [abs_le] at hs ⊢
  constructor <;> linarith

/-- Counterexample to C5: for `raw = 0` the stored temperature is not `-66.9`. -/
theorem as7331_temperature_zero_inexact :
    (as7331_temperature 0).toRat ≠ (0 : ℚ) * (5 / 100) - 669 / 10 := by
  rw [as7331_temperature_zero]; norm_num [Flt.toRat]

/-- C6, amended: for every raw SCD41 temperature or humidity `raw` (negative
values included) the value stored in the record is the single-precision result
of `raw / 1000.0f`; it differs from `raw / 1000` by at most
`|raw| / 1000 / 2^22`, and it is exact for the raw value 22500 (22.5). -/
theorem scd41_scale_error (raw : Int) :
    |(scd41_scale raw).toRat - (raw : ℚ) / 1000| ≤ |(raw : ℚ)| / 1000 / 2 ^ 22 ∧
    (scd41_scale 22500).toRat = 22500 / 1000 := by
  refine ⟨?_, by rw [scd41_scale_22500]; norm_num [Flt.toRat]⟩
  unfold scd41_scale
  have ha := Flt.ofInt_error 24 raw
  have hv := Flt.div_error 24 (Flt.ofInt 24 raw) (Flt.lit 24 1000 1) (by rw [lit_1000]; decide)
  rw [lit_1000_toRat] at hv
  set a := (Flt.ofInt 24 raw).toRat
  set v := (Flt.div 24 (Flt.ofInt 24 raw) (Flt.lit 24 1000 1)).toRat
  have hR : (0 : ℚ) ≤ |(raw : ℚ)| := abs_nonneg _
  have h1 := le_abs_self (raw : ℚ)
  have h2 := neg_abs_le (raw : ℚ)
  rw [abs_le] at ha
  have hA : |a / 1000| ≤ |(raw : ℚ)| / 1000 * (1 + 1 / 2 ^ 24) := by
    rw [abs_le]; constructor <;> linarith
  rw [abs_le] at hv ⊢
  constructor <;> linarith

/-- Counterexample to C6: the raw temperature 23100 is not stored as 23.1. -/
theorem scd41_scale_inexact : (scd41_scale 23100).toRat ≠ (23100 : ℚ) / 1000 := by
  rw [scd41_scale_23100]; norm_num [Flt.toRat]

/-- C7, amended: for every BME688 channel and every pair `(val1, val2)` the
value stored in the record is `val1 + val2 / 1000000.0` evaluated in `double`
and converted to `float`; it differs from `val1 + val2 / 1000000` by at most
`(|val1| + |val2| / 1000000) / 2^23`, and it is exact for the pair (44, 0). -/
theorem bme688_combine_error (val1 val2 : Int) :
    |(bme688_combine val1 val2).toRat - ((val1 : ℚ) + (val2 : ℚ) / 1000000)|
      ≤ (|(val1 : ℚ)| + |(val2 : ℚ)| / 1000000) / 2 ^ 23 ∧
    (bme688_combine 44 0).toRat = 44 + 0 / 1000000 := by
  refine ⟨?_, by rw [bme688_combine_44]; norm_num [Flt.toRat]⟩
  unfold bme688_combine
  have ha := Flt.ofInt_error 53 val1
  have hb0 := Flt.ofInt_error 53 val2
  have hb := Flt.div_error 53 (Flt.ofInt 53 val2) (Flt.lit 53 1000000 1)
    (by rw [lit_1e6]; decide)
  have hs := Flt.add_error 53 (Flt.ofInt 53 val1)
    (Flt.div 53 (Flt.ofInt 53 val2) (Flt.lit 53 1000000 1))
  have hf := Flt.cast_error 24 (Flt.add 53 (Flt.ofInt 53 val1)
    (Flt.div 53 (Flt.ofInt 53 val2) (Flt.lit 53 1000000 1)))
  rw [lit_1e6_toRat] at hb
  set a := (Flt.ofInt 53 val1).toRat
  set b0 := (Flt.ofInt 53 val2).toRat
  set b := (Flt.div 53 (Flt.ofInt 53 val2) (Flt.lit 53 1000000 1)).toRat
  set s := (Flt.add 53 (Flt.ofInt 53 val1)
    (Flt.div 53 (Flt.ofInt 53 val2) (Flt.lit 53 1000000 1))).toRat
  set f := (Flt.cast 24 (Flt.add 53 (Flt.ofInt 53 val1)
    (Flt.div 53 (Flt.ofInt 53 val2) (Flt.lit 53 1000000 1)))).toRat
  have hV1 : (0 : ℚ) ≤ |(val1 : ℚ)| := abs_nonneg _
  have hV2 : (0 : ℚ) ≤ |(val2 : ℚ)| := abs_nonneg _
  have h1 := le_abs_self (val1 : ℚ)
  have h2 := neg_abs_le (val1 : ℚ)
  have h3 := le_abs_self (val2 : ℚ)
  have h4 := neg_abs_le (val2 : ℚ)
  rw [abs_le] at ha hb0
  have hB0 : |b0 / 1000000| ≤ |(val2 : ℚ)| / 1000000 * (1 + 1 / 2 ^ 53) := by
    rw [abs_le]; constructor <;> linarith
  rw [abs_le] at hb
  have hAB : |a + b| ≤ (|(val1 : ℚ)| + |(val2 : ℚ)| / 1000000) * (1 + 1 / 2 ^ 51) := by
    rw [abs_le]; constructor <;> nlinarith
  rw [abs_le] at hs
  have hS : |s| ≤ (|(val1 : ℚ)| + |(val2 : ℚ)| / 1000000) * (1 + 1 / 2 ^ 50) := by
    rw [abs_le]; constructor <;> nlinarith
  rw [abs_le] at hf ⊢
  constructor <;> nlinarith

/-- Counterexample to C7: the pair (22, 800000) is not stored as 22.8. -/
theorem bme688_combine_inexact :
    (bme688_combine 22 800000).toRat ≠ (22 : ℚ) + 800000 / 1000000 := by
  rw [bme688_combine_22_8]; norm_num [Flt.toRat]

/-! ## Return value of `main` -/

/-- C8: if the CDC-ACM device is not ready, or `usb_enable` fails, or the BME688
device is not ready, or (the self-test having returned)
`scd4x_start_periodic_measurement` fails, then `main` returns -1 and its trace
contains no `printf`: neither the header nor a record is written. -/
theorem main_fatal_startup (P : Int) (fuel : Nat) (env : MainEnv)
    (h : env.uart_dev_ready = false ∨ env.usb_enable ≠ NO_ERROR ∨ env.bme_dev_ready = false ∨
      (env.test_sensors_returns = true ∧ env.scd4x_start_periodic_measurement ≠ NO_ERROR)) :
    (main P fuel env).ret = some (-1) ∧ ∀ out, Event.printf out ∉ (main P fuel env).trace := by
  have hp := poweron_scd41_no_printf env.poweron_scd41
  by_cases h1 : env.uart_dev_ready = false
  · simp [main, main_init, h1]
  by_cases h2 : env.usb_enable ≠ NO_ERROR
  · simp [main, main_init, h1, h2]
  by_cases h3 : env.bme_dev_ready = false
  · simp [main, main_init, h1, h2, h3]
  have h4 : env.test_sensors_returns = true ∧ env.scd4x_start_periodic_measurement ≠ NO_ERROR := by
    rcases h with h | h | h | h
    · exact absurd h h1
    · exact absurd h h2
    · exact absurd h h3
    · exact h
  simp only [ne_eq, Decidable.not_not] at h2
  simp only [Bool.not_eq_false] at h1 h3
  simp [main, main_init, main_powerup, h1, h2, h3, h4.1, h4.2, hp]

/-- Witness of C8: the run in which the CDC-ACM device is not ready. -/
theorem main_fatal_startup_witness :
    (main 5000 1 { demo_env with uart_dev_ready := false }).ret = some (-1) :=
  (main_fatal_startup 5000 1 { demo_env with uart_dev_ready := false } (Or.inl rfl)).1

/-- C9: if the BME688 device is not ready, `main` returns -1 and its trace
contains no call of `test_sensors` or of a `poweron_*` function, and no GPIO
write other than to the two debug pins. -/
theorem main_bme_not_ready (P : Int) (fuel : Nat) (env : MainEnv)
    (h : env.bme_dev_ready = false) :
    (main P fuel env).ret = some (-1) ∧
    Event.call "test_sensors" ∉ (main P fuel env).trace ∧
    Event.call "poweron_scd41" ∉ (main P fuel env).trace ∧
    Event.call "poweron_sgp41" ∉ (main P fuel env).trace ∧
    Event.call "poweron_bh1730" ∉ (main P fuel env).trace ∧
    Event.call "poweron_as7331" ∉ (main P fuel env).trace ∧
    (∀ pin value, Event.gpio_pin_set_dt pin value ∈ (main P fuel env).trace →
      pin = "gpio_debug_1" ∨ pin = "gpio_debug_2") := by
  by_cases h1 : env.uart_dev_ready <;> by_cases h2 : env.usb_enable = NO_ERROR <;>
    simp [main, main_init, h, h1, h2] <;> tauto

/-- Witness of C9: the run in which only the BME688 device is not ready. -/
theorem main_bme_not_ready_witness :
    (main 5000 1 { demo_env with bme_dev_ready := false }).ret = some (-1) :=
  (main_bme_not_ready 5000 1 { demo_env with bme_dev_ready := false } rfl).1

/-- C10: if `main` returns 0 then the start-up phases did not return, the
steady-state loop was entered and left by a `break`, and the trace ends with
the power-off sequence, in which `poweroff_scd41`, `poweroff_sgp41`,
`poweroff_bh1730` and `poweroff_as7331` are called. -/
theorem main_returns_zero (P : Int) (fuel : Nat) (env : MainEnv)
    (h : (main P fuel env).ret = some 0) :
    ∃ tl, (main_init env).1 = none ∧ env.test_sensors_returns = true ∧
      (main_powerup env).1 = none ∧
      main_loop P fuel env.iter fuel 0 (env.loop_time % 2 ^ 32) = (true, tl) ∧
      (main P fuel env).trace =
        (main_init env).2 ++ [.log .inf "===== Testing all sensors ======", .call "test_sensors"] ++
          (main_powerup env).2 ++ [.printf csv_header, .call "k_uptime_get_32"] ++ tl ++
          (main_shutdown env).2 ∧
      Event.call "poweroff_scd41" ∈ (main_shutdown env).2 ∧
      Event.call "poweroff_sgp41" ∈ (main_shutdown env).2 ∧
      Event.call "poweroff_bh1730" ∈ (main_shutdown env).2 ∧
      Event.call "poweroff_as7331" ∈ (main_shutdown env).2 := by
  rcases hi : main_init env with ⟨ri, ti⟩
  have hri := main_init_ret env
  rw [hi] at hri
  rcases hri with hri | hri
  · simp only at hri
    subst hri
    by_cases hts : env.test_sensors_returns = true
    · rcases hp : main_powerup env with ⟨rp, tp⟩
      have hrp := main_powerup_ret env
      rw [hp] at hrp
      rcases hrp with hrp | hrp
      · simp only at hrp
        subst hrp
        rcases hl : main_loop P fuel env.iter fuel 0 (env.loop_time % 2 ^ 32) with ⟨b, tl⟩
        cases b with
        | false => simp [main, hi, hts, hp, hl, -Nat.reducePow] at h
        | true =>
          have hz : (main_shutdown env).1 = 0 := by simpa [main, hi, hts, hp, hl, -Nat.reducePow] using h
          refine ⟨tl, rfl, hts, rfl, rfl, ?_, main_shutdown_zero env hz⟩
          simp [main, hi, hts, hp, hl, -Nat.reducePow]
      · simp only at hrp
        subst hrp
        simp [main, hi, hts, hp] at h
    · simp [main, hi, hts] at h
  · simp only at hri
    subst hri
    simp [main, hi] at h

set_option maxRecDepth 100000 in
/-- Witness of C10: the run whose first iteration fails to read the SCD41. -/
theorem main_returns_zero_witness :
    ∃ tl, main_loop 5000 1 (fun _ => { demo_iter 0 300 with scd4x_read_measurement := -1 }) 1 0
        (0 % 2 ^ 32) = (true, tl) :=
  (main_returns_zero 5000 1
    { demo_env with iter := fun _ => { demo_iter 0 300 with scd4x_read_measurement := -1 } }
    (by decide)).imp fun _ h => h.2.2.2.1

/-! ## Lemmas: the lines written by a trace, the end of an iteration -/

theorem printed_append (a b : List Event) : printed (a ++ b) = printed a ++ printed b := by
  induction a with
  | nil => rfl
  | cons x a ih => cases x <;> simp [printed, ih]

theorem mem_printed (out : String) (t : List Event) : out ∈ printed t ↔ Event.printf out ∈ t := by
  induction t with
  | nil => simp [printed]
  | cons x t ih => cases x <;> simp [printed, ih]

theorem printed_eq_nil (t : List Event) (h : ∀ out, Event.printf out ∉ t) : printed t = [] := by
  apply List.eq_nil_iff_forall_not_mem.2
  intro out ho
  exact h out ((mem_printed out t).1 ho)

theorem printed_poll_loop (s : PollSite) (e : PollEnv) (fuel j : Nat) (r : PollResult)
    (h : poll_loop s e fuel j = some r) : printed r.trace = [] :=
  printed_eq_nil _ fun out => poll_loop_no_printf s e out fuel j r h

theorem printed_sync : printed sync = [] := rfl

theorem printed_pace (P : Int) (lt a b : Nat) : printed (pace P lt a b).2 = [] := by
  unfold pace
  simp only []
  split_ifs <;> rfl

theorem pace_loop_time (P : Int) (lt a b : Nat) : (pace P lt a b).1 = b % 2 ^ 32 := by
  unfold pace
  simp only []
  split_ifs <;> rfl



/-- The AS7331 part of an iteration: it runs to the end exactly when its poll
loop ends and the two checked calls succeed, and only then a record is written. -/
theorem loop_body_as7331_cases (P : Int) (fuel : Nat) (e : IterEnv) (lt : Nat) (t0 : List Event) :
    (∃ t, loop_body_as7331 P fuel e lt t0 = .diverge t ∧ printed t = printed t0 ∧
      poll_loop as7331_poll ⟨e.as7331_time, as7331_status e.gpio_ext_as7331_ready, e.as7331_uptime⟩
        fuel 0 = none) ∨
    (∃ t, loop_body_as7331 P fuel e lt t0 = .brk t ∧ printed t = printed t0 ∧
      (e.as7331_read_all ≠ 0 ∨ e.as7331_start_measurement ≠ 0)) ∨
    (∃ t, loop_body_as7331 P fuel e lt t0 = .next t (e.uptime_501 % 2 ^ 32) ∧
      printed t = printed t0 ++ [csv_record (sensor_values e)] ∧
      e.as7331_read_all = 0 ∧ e.as7331_start_measurement = 0) := by
  unfold loop_body_as7331
  rcases hp : poll_loop as7331_poll
    ⟨e.as7331_time, as7331_status e.gpio_ext_as7331_ready, e.as7331_uptime⟩ fuel 0 with _ | r
  · left
    exact ⟨_, rfl, by simp [printed_append, printed], rfl⟩
  · right
    have hr := printed_poll_loop _ _ _ _ _ hp
    simp only []
    by_cases h1 : e.as7331_read_all ≠ 0
    · left
      rw [if_pos h1]
      exact ⟨_, rfl, by simp [printed_append, printed, hr], Or.inl h1⟩
    · rw [if_neg h1]
      by_cases h2 : e.as7331_start_measurement ≠ 0
      · left
        rw [if_pos h2]
        exact ⟨_, rfl, by simp [printed_append, printed, hr], Or.inr h2⟩
      · right
        rw [if_neg h2]
        refine ⟨_, by rw [pace_loop_time], ?_, by simpa using h1, by simpa using h2⟩
        simp [printed_append, printed, hr, printed_sync, printed_pace]

/-- The BH1730FVC part of an iteration and what follows it. -/
theorem loop_body_bh1730_cases (P : Int) (fuel : Nat) (e : IterEnv) (lt : Nat) (t0 : List Event) :
    (∃ t, loop_body_bh1730 P fuel e lt t0 = .diverge t ∧ printed t = printed t0 ∧
      (poll_loop bh1730_poll e.bh1730 fuel 0 = none ∨
       poll_loop as7331_poll ⟨e.as7331_time, as7331_status e.gpio_ext_as7331_ready, e.as7331_uptime⟩
        fuel 0 = none)) ∨
    (∃ t, loop_body_bh1730 P fuel e lt t0 = .brk t ∧ printed t = printed t0 ∧
      (e.bh1730_read_visible ≠ 0 ∨ e.bh1730_read_ir ≠ 0 ∨ e.bh1730_read_lux ≠ 0 ∨
       e.as7331_read_all ≠ 0 ∨ e.as7331_start_measurement ≠ 0)) ∨
    (∃ t, loop_body_bh1730 P fuel e lt t0 = .next t (e.uptime_501 % 2 ^ 32) ∧
      printed t = printed t0 ++ [csv_record (sensor_values e)] ∧
      e.bh1730_read_visible = 0 ∧ e.bh1730_read_ir = 0 ∧ e.bh1730_read_lux = 0 ∧
      e.as7331_read_all = 0 ∧ e.as7331_start_measurement = 0) := by
  unfold loop_body_bh1730
  rcases hp : poll_loop bh1730_poll e.bh1730 fuel 0 with _ | r
  · left
    exact ⟨_, rfl, by simp [printed_append, printed], Or.inl rfl⟩
  · have hr := printed_poll_loop _ _ _ _ _ hp
    simp only []
    by_cases h1 : e.bh1730_read_visible ≠ 0
    · right; left
      rw [if_pos h1]
      exact ⟨_, rfl, by simp [printed_append, printed, hr], Or.inl h1⟩
    · rw [if_neg h1]
      by_cases h2 : e.bh1730_read_ir ≠ 0
      · right; left
        rw [if_pos h2]
        exact ⟨_, rfl, by simp [printed_append, printed, hr], Or.inr (Or.inl h2)⟩
      · rw [if_neg h2]
        by_cases h3 : e.bh1730_read_lux ≠ 0
        · right; left
          rw [if_pos h3]
          exact ⟨_, rfl, by simp [printed_append, printed, hr], Or.inr (Or.inr (Or.inl h3))⟩
        · rw [if_neg h3]
          have hp0 : printed (t0 ++ [Event.call "k_uptime_get_32"] ++ r.trace ++
              [Event.call "bh1730_read_visible"] ++ [Event.call "bh1730_read_ir"] ++
              [Event.call "bh1730_read_lux"] ++ sync) = printed t0 := by
            simp [printed_append, printed, hr, printed_sync]
          rcases loop_body_as7331_cases P fuel e lt (t0 ++ [Event.call "k_uptime_get_32"] ++ r.trace ++
              [Event.call "bh1730_read_visible"] ++ [Event.call "bh1730_read_ir"] ++
              [Event.call "bh1730_read_lux"] ++ sync) with ⟨t, ht, hpr, hn⟩ | ⟨t, ht, hpr, hn⟩ |
              ⟨t, ht, hpr, hn⟩
          · left
            exact ⟨t, ht, by rw [hpr, hp0], Or.inr hn⟩
          · right; left
            refine ⟨t, ht, by rw [hpr, hp0], ?_⟩
            rcases hn with hn | hn
            · exact Or.inr (Or.inr (Or.inr (Or.inl hn)))
            · exact Or.inr (Or.inr (Or.inr (Or.inr hn)))
          · right; right
            exact ⟨t, ht, by rw [hpr, hp0], by simpa using h1, by simpa using h2, by simpa using h3,
              hn.1, hn.2⟩

/-- How an iteration ends: out of fuel in a poll loop, with nothing written; by
`break` after a failed checked call, with nothing written; or at its end, all
checked calls having succeeded, with exactly its record written. -/
theorem loop_body_cases (P : Int) (fuel : Nat) (e : IterEnv) (lt : Nat) :
    (∃ t, loop_body P fuel e lt = .diverge t ∧ printed t = [] ∧ ¬ polls_end fuel e) ∨
    (∃ t, loop_body P fuel e lt = .brk t ∧ printed t = [] ∧
      ¬ (reads_ok e ∧ e.as7331_start_measurement = 0)) ∨
    (∃ t, loop_body P fuel e lt = .next t (e.uptime_501 % 2 ^ 32) ∧
      printed t = [csv_record (sensor_values e)] ∧
      reads_ok e ∧ e.as7331_start_measurement = 0) := by
  unfold loop_body
  rcases hp : poll_loop scd41_poll e.scd41 fuel 0 with _ | r
  · left
    exact ⟨_, rfl, by simp [printed_append, printed, printed_sync], by simp [polls_end, hp]⟩
  · have hr := printed_poll_loop _ _ _ _ _ hp
    simp only [NO_ERROR]
    by_cases h1 : e.scd4x_read_measurement ≠ 0
    · right; left
      rw [if_pos h1]
      exact ⟨_, rfl, by simp [printed_append, printed, hr, printed_sync],
        fun h => h1 h.1.1⟩
    · rw [if_neg h1]
      by_cases h2 : e.sgp41_measure_raw_signals ≠ 0
      · right; left
        rw [if_pos h2]
        exact ⟨_, rfl, by simp [printed_append, printed, hr, printed_sync],
          fun h => h2 h.1.2.1⟩
      · rw [if_neg h2]
        by_cases h3 : e.ilps28qsw_data_get ≠ 0
        · right; left
          rw [if_pos h3]
          exact ⟨_, rfl, by simp [printed_append, printed, hr, printed_sync],
            fun h => h3 h.1.2.2.1⟩
        · rw [if_neg h3]
          generalize ht0 : ([Event.gpio_pin_set_dt "gpio_debug_1" 1] ++ sync ++
            [Event.call "k_uptime_get_32"] ++ r.trace ++ [Event.call "scd4x_read_measurement"] ++
            sync ++ [Event.call "sgp41_measure_raw_signals"] ++ sync ++
            [Event.call "ilps28qsw_data_get"] ++ sync ++
            [Event.call "sensor_sample_fetch", Event.call "sensor_channel_get",
             Event.call "sensor_channel_get", Event.call "sensor_channel_get",
             Event.call "sensor_channel_get"] ++ sync) = t0
          have hp0 : printed t0 = [] := by
            rw [← ht0]; simp [printed_append, printed, hr, printed_sync]
          rcases loop_body_bh1730_cases P fuel e lt t0 with ⟨t, ht, hpr, hn⟩ | ⟨t, ht, hpr, hn⟩ |
              ⟨t, ht, hpr, hn⟩
          · left
            refine ⟨t, ht, by rw [hpr, hp0], ?_⟩
            rintro ⟨_, hb, ha⟩
            rcases hn with hn | hn
            · simp [hn] at hb
            · simp [hn] at ha
          · right; left
            refine ⟨t, ht, by rw [hpr, hp0], ?_⟩
            rintro ⟨⟨_, _, _, a1, a2, a3, a4⟩, a5⟩
            rcases hn with hn | hn | hn | hn | hn
            · exact hn a1
            · exact hn a2
            · exact hn a3
            · exact hn a4
            · exact hn a5
          · right; right
            refine ⟨t, ht, by rw [hpr, hp0]; rfl, ⟨by simpa using h1, by simpa using h2,
              by simpa using h3, hn.1, hn.2.1, hn.2.2.1, hn.2.2.2.1⟩, hn.2.2.2.2⟩
theorem loop_body_completes (P : Int) (fuel : Nat) (e : IterEnv) (lt : Nat)
    (hr : reads_ok e) (hs : e.as7331_start_measurement = 0) (hp : polls_end fuel e) :
    ∃ t, loop_body P fuel e lt = .next t (e.uptime_501 % 2 ^ 32) ∧
      printed t = [csv_record (sensor_values e)] := by
  rcases loop_body_cases P fuel e lt with ⟨t, _, _, hn⟩ | ⟨t, _, _, hn⟩ | ⟨t, ht, hpr, _⟩
  · exact absurd hp hn
  · exact absurd ⟨hr, hs⟩ hn
  · exact ⟨t, ht, hpr⟩

theorem loop_body_breaks (P : Int) (fuel : Nat) (e : IterEnv) (lt : Nat)
    (hr : ¬ reads_ok e) (hp : polls_end fuel e) :
    ∃ t, loop_body P fuel e lt = .brk t ∧ printed t = [] := by
  rcases loop_body_cases P fuel e lt with ⟨t, _, _, hn⟩ | ⟨t, ht, hpr, _⟩ | ⟨t, _, _, hn⟩
  · exact absurd hp hn
  · exact ⟨t, ht, hpr⟩
  · exact absurd hn.1 hr

/-- While the iterations run to their end the loop writes their records, one
line each, and goes on with the next iteration. -/
theorem main_loop_prefix (P : Int) (fuel : Nat) (iter : Nat → IterEnv) :
    ∀ k n j lt,
      (∀ i, i < k → reads_ok (iter (j + i)) ∧ (iter (j + i)).as7331_start_measurement = 0 ∧
        polls_end fuel (iter (j + i))) →
      ∃ T lt', printed T = (List.range k).map (fun i => csv_record (sensor_values (iter (j + i)))) ∧
        main_loop P fuel iter (k + n) j lt =
          ((main_loop P fuel iter n (j + k) lt').1, T ++ (main_loop P fuel iter n (j + k) lt').2) := by
  intro k
  induction k with
  | zero =>
    intro n j lt _
    exact ⟨[], lt, rfl, by simp⟩
  | succ k ih =>
    intro n j lt h
    obtain ⟨hr, hs, hp⟩ := h 0 (Nat.succ_pos k)
    obtain ⟨t, ht, hpr⟩ := loop_body_completes P fuel (iter j) lt hr hs hp
    obtain ⟨T, lt', hT, hm⟩ := ih n (j + 1) ((iter j).uptime_501 % 2 ^ 32) (fun i hi => by
      have := h (i + 1) (Nat.succ_lt_succ hi)
      rwa [show j + 1 + i = j + (i + 1) by omega])
    refine ⟨t ++ T, lt', ?_, ?_⟩
    · rw [printed_append, hpr, hT, List.range_succ_eq_map]
      simp only [List.map_cons, List.map_map, List.singleton_append, Nat.add_zero]
      congr 1
      apply List.map_congr_left
      intro i _
      simp only [Function.comp, Nat.succ_eq_add_one]
      rw [show j + 1 + i = j + (i + 1) by omega]
    · rw [show k + 1 + n = (k + n) + 1 by omega, main_loop]
      rw [ht]
      simp only []
      rw [hm, show j + 1 + k = j + (k + 1) by omega]
      simp

/-- The loop up to and including the first iteration in which a checked read
fails: the records of the iterations before it are written, the failing
iteration writes nothing and leaves the loop. -/
theorem main_loop_read_failure (P : Int) (fuel : Nat) (iter : Nat → IterEnv) (k n : Nat) (lt : Nat)
    (hpre : ∀ i, i < k → reads_ok (iter i) ∧ (iter i).as7331_start_measurement = 0 ∧
      polls_end fuel (iter i))
    (hk : ¬ reads_ok (iter k)) (hend : polls_end fuel (iter k)) (hn : k < n) :
    ∃ T, main_loop P fuel iter n 0 lt = (true, T) ∧
      printed T = (List.range k).map (fun i => csv_record (sensor_values (iter i))) := by
  obtain ⟨T, lt', hT, hm⟩ := main_loop_prefix P fuel iter k (n - k) 0 lt (fun i hi => by
    simpa using hpre i hi)
  obtain ⟨t, ht, hpr⟩ := loop_body_breaks P fuel (iter k) lt' hk hend
  have hb : main_loop P fuel iter (n - k) (0 + k) lt' = (true, t) := by
    rw [show n - k = (n - k - 1) + 1 by omega, main_loop]
    simp only [Nat.zero_add]
    rw [ht]
  rw [show k + (n - k) = n by omega, hb] at hm
  refine ⟨T ++ t, hm, ?_⟩
  rw [printed_append, hpr, hT]
  simp

theorem printed_poweron_scd41 (e : PoweronScd41Env) : printed (poweron_scd41 e).2 = [] := by
  unfold poweron_scd41; simp only []; split_ifs <;> rfl

theorem printed_poweroff_scd41 (e : PoweroffScd41Env) : printed (poweroff_scd41 e).2 = [] := by
  unfold poweroff_scd41; simp only []; split_ifs <;> rfl

theorem printed_poweron_sgp41 (e : PowerSgp41Env) : printed (poweron_sgp41 e).2 = [] := by
  unfold poweron_sgp41; simp only []; split_ifs <;> rfl

theorem printed_poweroff_sgp41 (e : PowerSgp41Env) : printed (poweroff_sgp41 e).2 = [] := by
  unfold poweroff_sgp41; simp only []; split_ifs <;> rfl

theorem printed_poweron_bh1730 (r : Int) : printed (poweron_bh1730 r).2 = [] := by
  unfold poweron_bh1730; simp only []; split_ifs <;> rfl

theorem printed_poweroff_bh1730 (r : Int) : printed (poweroff_bh1730 r).2 = [] := by
  unfold poweroff_bh1730; simp only []; split_ifs <;> rfl

theorem printed_poweron_as7331 (e : PoweronAs7331Env) : printed (poweron_as7331 e).2 = [] := by
  unfold poweron_as7331; simp only []; split_ifs <;> rfl

theorem printed_poweroff_as7331 (e : PoweroffAs7331Env) : printed (poweroff_as7331 e).2 = [] := by
  unfold poweroff_as7331; simp only []; split_ifs <;> rfl

theorem printed_main_init (env : MainEnv) : printed (main_init env).2 = [] := by
  unfold main_init; simp only []; split_ifs <;> rfl

theorem printed_main_powerup_as7331 (env : MainEnv) (t : List Event) :
    printed (main_powerup_as7331 env t).2 = printed t := by
  unfold main_powerup_as7331
  simp only []
  split_ifs <;> simp [printed_append, printed, printed_poweron_as7331]

theorem printed_main_powerup (env : MainEnv) : printed (main_powerup env).2 = [] := by
  unfold main_powerup
  simp only []
  split_ifs <;>
    simp [printed_main_powerup_as7331, printed_append, printed, printed_poweron_scd41,
      printed_poweron_sgp41, printed_poweron_bh1730]

theorem printed_main_shutdown (env : MainEnv) : printed (main_shutdown env).2 = [] := by
  unfold main_shutdown
  simp only []
  split_ifs <;>
    simp [printed_append, printed, printed_poweroff_scd41, printed_poweroff_sgp41,
      printed_poweroff_bh1730, printed_poweroff_as7331]

/-! ## Lemmas: the CSV stream of a run -/

/-- A run whose start-up phases pass and whose loop is left: the value returned
and the lines written. -/
theorem main_loop_exit (P : Int) (fuel : Nat) (env : MainEnv) (tl : List Event)
    (hi : (main_init env).1 = none) (hts : env.test_sensors_returns = true)
    (hp : (main_powerup env).1 = none)
    (hl : main_loop P fuel env.iter fuel 0 (env.loop_time % 2 ^ 32) = (true, tl)) :
    (main P fuel env).ret = some (main_shutdown env).1 ∧
    (main P fuel env).trace =
      (main_init env).2 ++ [.log .inf "===== Testing all sensors ======", .call "test_sensors"] ++
        (main_powerup env).2 ++ [.printf csv_header, .call "k_uptime_get_32"] ++ tl ++
        (main_shutdown env).2 ∧
    printed (main P fuel env).trace = csv_header :: printed tl := by
  rcases hi' : main_init env with ⟨ri, ti⟩
  rw [hi'] at hi
  simp only at hi
  subst hi
  rcases hp' : main_powerup env with ⟨rp, tp⟩
  rw [hp'] at hp
  simp only at hp
  subst hp
  have h1 := printed_main_init env
  have h2 := printed_main_powerup env
  have h3 := printed_main_shutdown env
  rw [hi'] at h1
  rw [hp'] at h2
  simp only at h1 h2
  refine ⟨?_, ?_, ?_⟩
  · simp [main, hi', hts, hp', hl, -Nat.reducePow]
  · simp [main, hi', hts, hp', hl, -Nat.reducePow]
  · simp [main, hi', hts, hp', hl, -Nat.reducePow, printed_append, printed, h1, h2, h3]

/-! ## Read failures and the CSV stream -/

set_option maxRecDepth 100000 in
/-- C11: the code departs from the claim for the BME688. In this run
`sensor_sample_fetch` fails (returns -5) in the first iteration; its return
code is dropped (main.c, line 381), where every other read of the loop is
followed by a test and a `break`. The iteration writes its record and the next
one writes a further record. -/
theorem bme688_failure_is_not_seen :
    (bme688_failure_env.iter 0).sensor_sample_fetch = -5 ∧
    printed (main 5000 2 bme688_failure_env).trace =
      [csv_header, csv_record (sensor_values (bme688_failure_env.iter 0)),
       csv_record (sensor_values (bme688_failure_env.iter 1))] := by
  refine ⟨rfl, ?_⟩
  decide

/-- The reads that are followed by a test: let the start-up phases pass and the
first `k` iterations run to their end (these reads succeed and the poll loops
end). If one of the seven reads fails in iteration `k` (SCD41, SGP41, ILPS28QSW,
BH1730FVC visible, ir or lux, AS7331), then that iteration writes nothing and
leaves the loop, the power-off sequence writes nothing, `main` returns the value of the
power-off sequence, and the lines written by the whole run are the header and
the records of the iterations before `k`. -/
theorem read_failure_ends_csv (P : Int) (fuel : Nat) (env : MainEnv) (k : Nat)
    (hi : (main_init env).1 = none) (hts : env.test_sensors_returns = true)
    (hp : (main_powerup env).1 = none)
    (hpre : ∀ i, i < k → reads_ok (env.iter i) ∧ (env.iter i).as7331_start_measurement = 0 ∧
      polls_end fuel (env.iter i))
    (hk : ¬ reads_ok (env.iter k)) (hend : polls_end fuel (env.iter k)) (hfuel : k < fuel) :
    (∀ lt, ∃ t, loop_body P fuel (env.iter k) lt = .brk t ∧ printed t = []) ∧
    printed (main_shutdown env).2 = [] ∧
    (main P fuel env).ret = some (main_shutdown env).1 ∧
    printed (main P fuel env).trace =
      csv_header :: (List.range k).map (fun i => csv_record (sensor_values (env.iter i))) := by
  obtain ⟨T, hT, hpr⟩ := main_loop_read_failure P fuel env.iter k fuel (env.loop_time % 2 ^ 32)
    hpre hk hend hfuel
  obtain ⟨h1, _, h3⟩ := main_loop_exit P fuel env T hi hts hp hT
  exact ⟨fun lt => loop_body_breaks P fuel (env.iter k) lt hk hend, printed_main_shutdown env, h1,
    by rw [h3, hpr]⟩

set_option maxRecDepth 100000 in
/-- An instance of `read_failure_ends_csv`: the run whose second iteration fails
to read the infrared channel writes the header and the record of the first
iteration only. -/
theorem read_failure_ends_csv_witness :
    printed (main 5000 2 read_failure_env).trace =
      [csv_header, csv_record (sensor_values (read_failure_env.iter 0))] :=
  (read_failure_ends_csv 5000 2 read_failure_env 1 (by decide) (by decide) (by decide)
    (by intro i hi
        obtain rfl : i = 0 := by omega
        decide)
    (by decide) (by decide) (by decide)).2.2.2

/-! ## Poll failures -/

/-- A poll loop left by a timeout has logged the timeout last. -/
theorem poll_loop_timeout_logged (s : PollSite) (e : PollEnv) :
    ∀ fuel j r, poll_loop s e fuel j = some r → r.outcome = .timeout →
      ∃ w, r.trace = w ++ [.log .err s.timeoutMsg] := by
  intro fuel
  induction fuel with
  | zero => intro j r h; simp [poll_loop] at h
  | succ f ih =>
    intro j r h ho
    unfold poll_loop at h
    simp only [] at h
    split_ifs at h with h1 h2 h3
    · cases h; simp at ho
    · cases h; simp at ho
    · cases h
      exact ⟨[.call s.statusFn, .k_usleep 100, .call "k_uptime_get_32"], rfl⟩
    · rcases hrec : poll_loop s e f (j + 1) with _ | r'
      · simp [hrec] at h
      · simp only [hrec, Option.map_some', Option.some.injEq] at h
        subst h
        obtain ⟨w, hw⟩ := ih (j + 1) r' hrec ho
        exact ⟨[.call s.statusFn, .k_usleep 100, .call "k_uptime_get_32"] ++ w, by simp [hw]⟩

/-- The AS7331 part of an iteration extends the trace it is given. -/
theorem loop_body_as7331_extends (P : Int) (fuel : Nat) (e : IterEnv) (lt : Nat)
    (t0 : List Event) : ∃ post, (loop_body_as7331 P fuel e lt t0).trace = t0 ++ post := by
  unfold loop_body_as7331
  rcases poll_loop as7331_poll
    ⟨e.as7331_time, as7331_status e.gpio_ext_as7331_ready, e.as7331_uptime⟩ fuel 0 with _ | r
  · exact ⟨_, rfl⟩
  · simp only []
    split_ifs <;> exact ⟨_, by simp only [IterResult.trace, List.append_assoc]; rfl⟩

/-- The BH1730FVC part of an iteration extends the trace it is given. -/
theorem loop_body_bh1730_extends (P : Int) (fuel : Nat) (e : IterEnv) (lt : Nat)
    (t0 : List Event) : ∃ post, (loop_body_bh1730 P fuel e lt t0).trace = t0 ++ post := by
  unfold loop_body_bh1730
  rcases poll_loop bh1730_poll e.bh1730 fuel 0 with _ | r
  · exact ⟨_, rfl⟩
  · simp only []
    split_ifs
    · exact ⟨_, by simp only [IterResult.trace, List.append_assoc]; rfl⟩
    · exact ⟨_, by simp only [IterResult.trace, List.append_assoc]; rfl⟩
    · exact ⟨_, by simp only [IterResult.trace, List.append_assoc]; rfl⟩
    · obtain ⟨post, hpost⟩ := loop_body_as7331_extends P fuel e lt
        (t0 ++ [Event.call "k_uptime_get_32"] ++ r.trace ++ [Event.call "bh1730_read_visible"] ++
          [Event.call "bh1730_read_ir"] ++ [Event.call "bh1730_read_lux"] ++ sync)
      exact ⟨_, by rw [hpost]; simp only [List.append_assoc]; rfl⟩

set_option maxRecDepth 100000 in
/-- C14, as stated, fails: the SCD41 poll loop of this iteration times out, yet
the iteration goes on with `scd4x_read_measurement`, runs to its end and writes
its record; the acquisition loop is not left. -/
theorem scd41_timeout_goes_on :
    (poll_loop scd41_poll scd41_timeout_iter.scd41 10 0).map (fun r => r.outcome) = some .timeout ∧
    Event.call "scd4x_read_measurement" ∈ (loop_body 5000 10 scd41_timeout_iter 0).trace ∧
    ∃ t lt, loop_body 5000 10 scd41_timeout_iter 0 = .next t lt ∧
      printed t = [csv_record (sensor_values scd41_timeout_iter)] := by
  refine ⟨by decide, by decide, ?_⟩
  obtain ⟨t, h1, h2⟩ := loop_body_completes 5000 10 scd41_timeout_iter 0 (by decide) (by decide)
    (by decide)
  exact ⟨t, _, h1, h2⟩

/-- C14, amended: a poll loop of the acquisition loop that is left by a timeout
(SCD41, BH1730FVC or AS7331) has logged the timeout, and the iteration goes on
with the read of that sensor (`scd4x_read_measurement`, `bh1730_read_visible`,
`as7331_read_all`); if the three poll loops end and every checked call of the
iteration succeeds, the iteration runs to its end and writes its record: the
acquisition loop is not left. -/
theorem poll_timeout_goes_on (P : Int) (fuel : Nat) (e : IterEnv) (lt : Nat) :
    (∀ r, poll_loop scd41_poll e.scd41 fuel 0 = some r → r.outcome = .timeout →
      (∃ w, r.trace = w ++ [.log .err " * SCD41 Timeout waiting for data ready status"]) ∧
      ∃ post, (loop_body P fuel e lt).trace =
        [.gpio_pin_set_dt "gpio_debug_1" 1] ++ sync ++ [.call "k_uptime_get_32"] ++ r.trace ++
          [.call "scd4x_read_measurement"] ++ post) ∧
    (∀ t0 r, poll_loop bh1730_poll e.bh1730 fuel 0 = some r → r.outcome = .timeout →
      (∃ w, r.trace = w ++ [.log .err " * BH1730FVC Timeout waiting for data ready status"]) ∧
      ∃ post, (loop_body_bh1730 P fuel e lt t0).trace =
        t0 ++ [.call "k_uptime_get_32"] ++ r.trace ++ [.call "bh1730_read_visible"] ++ post) ∧
    (∀ t0 r, poll_loop as7331_poll
        ⟨e.as7331_time, as7331_status e.gpio_ext_as7331_ready, e.as7331_uptime⟩ fuel 0 = some r →
      r.outcome = .timeout →
      (∃ w, r.trace = w ++ [.log .err " * AS7331 Timeout waiting for data ready status"]) ∧
      ∃ post, (loop_body_as7331 P fuel e lt t0).trace =
        t0 ++ [.call "k_uptime_get_32"] ++ r.trace ++ [.call "as7331_read_all"] ++ post) ∧
    (polls_end fuel e → reads_ok e → e.as7331_start_measurement = 0 →
      ∃ t, loop_body P fuel e lt = .next t (e.uptime_501 % 2 ^ 32) ∧
        printed t = [csv_record (sensor_values e)]) := by
  refine ⟨?_, ?_, ?_, fun hp hr hs => loop_body_completes P fuel e lt hr hs hp⟩
  · intro r hr ho
    refine ⟨poll_loop_timeout_logged _ _ _ _ _ hr ho, ?_⟩
    unfold loop_body
    simp only [hr]
    split_ifs
    · exact ⟨_, by simp only [IterResult.trace, List.append_assoc]; rfl⟩
    · exact ⟨_, by simp only [IterResult.trace, List.append_assoc]; rfl⟩
    · exact ⟨_, by simp only [IterResult.trace, List.append_assoc]; rfl⟩
    · obtain ⟨post, hpost⟩ := loop_body_bh1730_extends P fuel e lt
        ([Event.gpio_pin_set_dt "gpio_debug_1" 1] ++ sync ++ [Event.call "k_uptime_get_32"] ++
          r.trace ++ [Event.call "scd4x_read_measurement"] ++ sync ++
          [Event.call "sgp41_measure_raw_signals"] ++ sync ++ [Event.call "ilps28qsw_data_get"] ++
          sync ++ [Event.call "sensor_sample_fetch", Event.call "sensor_channel_get",
            Event.call "sensor_channel_get", Event.call "sensor_channel_get",
            Event.call "sensor_channel_get"] ++ sync)
      exact ⟨_, by rw [hpost]; simp only [List.append_assoc]; rfl⟩
  · intro t0 r hr ho
    refine ⟨poll_loop_timeout_logged _ _ _ _ _ hr ho, ?_⟩
    unfold loop_body_bh1730
    simp only [hr]
    split_ifs
    · exact ⟨_, by simp only [IterResult.trace, List.append_assoc]; rfl⟩
    · exact ⟨_, by simp only [IterResult.trace, List.append_assoc]; rfl⟩
    · exact ⟨_, by simp only [IterResult.trace, List.append_assoc]; rfl⟩
    · obtain ⟨post, hpost⟩ := loop_body_as7331_extends P fuel e lt
        (t0 ++ [Event.call "k_uptime_get_32"] ++ r.trace ++ [Event.call "bh1730_read_visible"] ++
          [Event.call "bh1730_read_ir"] ++ [Event.call "bh1730_read_lux"] ++ sync)
      exact ⟨_, by rw [hpost]; simp only [List.append_assoc]; rfl⟩
  · intro t0 r hr ho
    refine ⟨poll_loop_timeout_logged _ _ _ _ _ hr ho, ?_⟩
    unfold loop_body_as7331
    simp only [hr]
    split_ifs <;> exact ⟨_, by simp only [IterResult.trace, List.append_assoc]; rfl⟩

set_option maxRecDepth 100000 in
/-- Witness of C14: after the timeout of its SCD41 poll loop (five waits of
2500 ms) the iteration goes on with `scd4x_read_measurement`. -/
theorem poll_timeout_goes_on_witness :
    ∃ post, (loop_body 5000 10 scd41_timeout_iter 0).trace =
      [.gpio_pin_set_dt "gpio_debug_1" 1] ++ sync ++ [.call "k_uptime_get_32"] ++
        (waits scd41_poll 5 ++ [.log .err scd41_poll.timeoutMsg]) ++
        [.call "scd4x_read_measurement"] ++ post :=
  ((poll_timeout_goes_on 5000 10 scd41_timeout_iter 0).1
    ⟨.timeout, false, waits scd41_poll 5 ++ [.log .err scd41_poll.timeoutMsg]⟩
    (by decide) rfl).2

/-! ## Records and failed iterations -/

/-- The lines written by the loop are records of iterations all of whose checked
calls succeeded. -/
theorem main_loop_records (P : Int) (fuel : Nat) (iter : Nat → IterEnv) (out : String) :
    ∀ n j lt, out ∈ printed (main_loop P fuel iter n j lt).2 →
      ∃ i, out = csv_record (sensor_values (iter i)) ∧ reads_ok (iter i) ∧
        (iter i).as7331_start_measurement = 0 := by
  intro n
  induction n with
  | zero => intro j lt h; simp [main_loop, printed] at h
  | succ n ih =>
    intro j lt h
    rw [main_loop] at h
    rcases loop_body_cases P fuel (iter j) lt with ⟨t, ht, hpr, _⟩ | ⟨t, ht, hpr, _⟩ |
      ⟨t, ht, hpr, hr, hs⟩
    · simp [ht, hpr] at h
    · simp [ht, hpr] at h
    · simp only [ht, printed_append, hpr, List.mem_append, List.mem_singleton] at h
      rcases h with h | h
      · exact ⟨j, h, hr, hs⟩
      · exact ih _ _ h

/-- The lines written by a run: nothing, or the header followed by the lines of
the loop. -/
theorem main_printed (P : Int) (fuel : Nat) (env : MainEnv) :
    printed (main P fuel env).trace = [] ∨
    printed (main P fuel env).trace =
      csv_header :: printed (main_loop P fuel env.iter fuel 0 (env.loop_time % 2 ^ 32)).2 := by
  have h1 := printed_main_init env
  have h2 := printed_main_powerup env
  have h3 := printed_main_shutdown env
  rcases hi : main_init env with ⟨ri, ti⟩
  rw [hi] at h1
  simp only at h1
  rcases ri with _ | c
  · by_cases hts : env.test_sensors_returns = true
    · rcases hp : main_powerup env with ⟨rp, tp⟩
      rw [hp] at h2
      simp only at h2
      rcases rp with _ | c
      · right
        rcases hl : main_loop P fuel env.iter fuel 0 (env.loop_time % 2 ^ 32) with ⟨b, tl⟩
        cases b <;>
          simp [main, hi, hts, hp, hl, -Nat.reducePow, printed_append, printed, h1, h2, h3]
      · left
        simp [main, hi, hts, hp, printed_append, printed, h1, h2]
    · left
      simp [main, hi, hts, printed_append, printed, h1]
  · left
    simp [main, hi, h1]

set_option maxRecDepth 100000 in
/-- C15, as stated, fails: the AS7331 poll loop of this iteration ends by its
timeout, the ready line never reading 1, while every read of the iteration
succeeds, the BME688 sample fetch and its four channel reads included. The
iteration logs the timeout, reads the AS7331 and writes its record. -/
theorem record_after_poll_timeout :
    (poll_loop as7331_poll
      ⟨as7331_timeout_iter.as7331_time, as7331_status as7331_timeout_iter.gpio_ext_as7331_ready,
        as7331_timeout_iter.as7331_uptime⟩ 10 0).map (fun r => r.outcome) = some .timeout ∧
    reads_ok as7331_timeout_iter ∧
    (as7331_timeout_iter.sensor_sample_fetch = 0 ∧
      as7331_timeout_iter.sensor_channel_get_temp = 0 ∧
      as7331_timeout_iter.sensor_channel_get_press = 0 ∧
      as7331_timeout_iter.sensor_channel_get_humidity = 0 ∧
      as7331_timeout_iter.sensor_channel_get_gas_res = 0) ∧
    (poll_loop scd41_poll as7331_timeout_iter.scd41 10 0).map (fun r => r.outcome) = some .ready ∧
    (poll_loop bh1730_poll as7331_timeout_iter.bh1730 10 0).map (fun r => r.outcome) =
      some .ready ∧
    Event.log .err " * AS7331 Timeout waiting for data ready status" ∈
      (loop_body 5000 10 as7331_timeout_iter 0).trace ∧
    Event.call "as7331_read_all" ∈ (loop_body 5000 10 as7331_timeout_iter 0).trace ∧
    printed (loop_body 5000 10 as7331_timeout_iter 0).trace =
      [csv_record (sensor_values as7331_timeout_iter)] := by
  decide

set_option maxRecDepth 100000 in
/-- An iteration in which the read of the BH1730FVC valid flag fails, ending its
poll loop with an error, and the BME688 pressure channel cannot be read: it
writes its record. -/
theorem record_after_unchecked_failures :
    (poll_loop bh1730_poll unchecked_failures_iter.bh1730 1 0).map (fun r => r.outcome) =
      some .error ∧
    unchecked_failures_iter.sensor_channel_get_press = -5 ∧
    printed (loop_body 5000 1 unchecked_failures_iter 0).trace =
      [csv_record (sensor_values unchecked_failures_iter)] := by
  decide

/-- C15, amended: every line written by `main` other than the header is the
record of an iteration in which each of the reads `scd4x_read_measurement`,
`sgp41_measure_raw_signals`, `ilps28qsw_data_get`, `bh1730_read_visible`,
`bh1730_read_ir`, `bh1730_read_lux` and `as7331_read_all`, and
`as7331_start_measurement`, succeeded. -/
theorem record_needs_checked_reads (P : Int) (fuel : Nat) (env : MainEnv) (out : String)
    (h : out ∈ printed (main P fuel env).trace) (hh : out ≠ csv_header) :
    ∃ i, out = csv_record (sensor_values (env.iter i)) ∧ reads_ok (env.iter i) ∧
      (env.iter i).as7331_start_measurement = 0 := by
  rcases main_printed P fuel env with h0 | h0
  · simp [h0] at h
  · rw [h0, List.mem_cons] at h
    rcases h with h | h
    · exact absurd h hh
    · exact main_loop_records P fuel env.iter out _ _ _ h

set_option maxRecDepth 100000 in
/-- Witness of C15: the record written by the first iteration of the sample run. -/
theorem record_needs_checked_reads_witness :
    ∃ i, csv_record (sensor_values (demo_env.iter 0)) =
        csv_record (sensor_values (demo_env.iter i)) ∧
      reads_ok (demo_env.iter i) ∧ (demo_env.iter i).as7331_start_measurement = 0 :=
  record_needs_checked_reads 5000 1 demo_env (csv_record (sensor_values (demo_env.iter 0)))
    (by decide) (by decide)

/-! ## Power sequencing -/

/-- C17: on the success path (return value 0) poweron_scd41 writes 1 to the power line,
then 1 to the bus line, sleeps 100 ms and only then calls scd4x_init and scd4x_wake_up (a
failing wake-up is logged and does not change the result); poweron_sgp41 writes the power
line, then the bus line, then sleeps 100 ms; poweron_as7331 writes the bus line, sleeps
100 ms and then calls as7331_power_up. -/
theorem poweron_success_order :
    (∀ a : PoweronScd41Env, (poweron_scd41 a).1 = 0 →
      (poweron_scd41 a).2 =
        [.call "poweron_scd41", .log .inf "Power On SCD41 (CO2 Sensor)",
         .gpio_pin_set_dt "gpio_SCD41_pwr" 1, .gpio_pin_set_dt "gpio_I2C_SCD41_EN" 1,
         .k_msleep 100, .call "scd4x_init", .call "scd4x_wake_up"] ++
        (if a.scd4x_wake_up ≠ NO_ERROR then [.log .err " * Error %d waking up SCD41"] else [])) ∧
    (∀ b : PowerSgp41Env, (poweron_sgp41 b).1 = 0 →
      (poweron_sgp41 b).2 =
        [.call "poweron_sgp41", .log .inf "Power On SGP41 (VOC Sensor)",
         .gpio_pin_set_dt "gpio_SGP41_pwr" 1, .gpio_pin_set_dt "gpio_I2C_SGP41_EN" 1,
         .k_msleep 100]) ∧
    (∀ c : PoweronAs7331Env, (poweron_as7331 c).1 = 0 →
      (poweron_as7331 c).2 =
        [.call "poweron_as7331", .log .inf "Power On AS7331 (UV Sensor)",
         .gpio_pin_set_dt "gpio_I2C_AS7331_EN" 1, .k_msleep 100, .call "as7331_power_up"]) := by
  refine ⟨fun a => ?_, fun b => ?_, fun c => ?_⟩
  · unfold poweron_scd41
    by_cases h1 : a.gpio_SCD41_pwr ≠ NO_ERROR
    · simp [h1]
    · by_cases h2 : a.gpio_I2C_SCD41_EN ≠ NO_ERROR
      · simp [h1, h2]
      · by_cases h3 : a.scd4x_wake_up ≠ NO_ERROR <;> simp [h1, h2, h3]
  · unfold poweron_sgp41
    by_cases h1 : b.gpio_SGP41_pwr < 0
    · simp [h1]
    · by_cases h2 : b.gpio_I2C_SGP41_EN < 0 <;> simp [h1, h2]
  · unfold poweron_as7331
    by_cases h1 : c.gpio_I2C_AS7331_EN < 0
    · simp [h1]
    · by_cases h2 : c.as7331_power_up ≠ 0 <;> simp [h1, h2]

/-- The three power-on routines succeed when every call succeeds, with the traces of C17. -/
theorem poweron_success_order_witness :
    ((poweron_scd41 ⟨0, 0, 0⟩).1 = 0 ∧
      (poweron_scd41 ⟨0, 0, 0⟩).2 =
        [.call "poweron_scd41", .log .inf "Power On SCD41 (CO2 Sensor)",
         .gpio_pin_set_dt "gpio_SCD41_pwr" 1, .gpio_pin_set_dt "gpio_I2C_SCD41_EN" 1,
         .k_msleep 100, .call "scd4x_init", .call "scd4x_wake_up"] ++
        (if (0 : Int) ≠ NO_ERROR then [.log .err " * Error %d waking up SCD41"] else [])) ∧
    ((poweron_sgp41 ⟨0, 0⟩).1 = 0 ∧
      (poweron_sgp41 ⟨0, 0⟩).2 =
        [.call "poweron_sgp41", .log .inf "Power On SGP41 (VOC Sensor)",
         .gpio_pin_set_dt "gpio_SGP41_pwr" 1, .gpio_pin_set_dt "gpio_I2C_SGP41_EN" 1,
         .k_msleep 100]) ∧
    ((poweron_as7331 ⟨0, 0⟩).1 = 0 ∧
      (poweron_as7331 ⟨0, 0⟩).2 =
        [.call "poweron_as7331", .log .inf "Power On AS7331 (UV Sensor)",
         .gpio_pin_set_dt "gpio_I2C_AS7331_EN" 1, .k_msleep 100, .call "as7331_power_up"]) :=
  ⟨⟨by decide, poweron_success_order.1 ⟨0, 0, 0⟩ (by decide)⟩,
   ⟨by decide, poweron_success_order.2.1 ⟨0, 0⟩ (by decide)⟩,
   ⟨by decide, poweron_success_order.2.2 ⟨0, 0⟩ (by decide)⟩⟩

/-- C18: when every call succeeds, poweroff_scd41 issues scd4x_power_down first and then
clears the power line before the bus line: the same order in which poweron_scd41 sets
them, not the reverse. poweroff_sgp41 does clear its two lines in the reverse order. -/
theorem poweroff_scd41_same_order :
    poweroff_scd41 ⟨0, 0, 0⟩ =
      (0, [.call "poweroff_scd41", .log .inf "Power Off SCD41 (CO2 Sensor)",
           .call "scd4x_power_down", .gpio_pin_set_dt "gpio_SCD41_pwr" 0,
           .gpio_pin_set_dt "gpio_I2C_SCD41_EN" 0]) ∧
    gpio_writes (poweron_scd41 ⟨0, 0, 0⟩).2 = ["gpio_SCD41_pwr", "gpio_I2C_SCD41_EN"] ∧
    gpio_writes (poweroff_scd41 ⟨0, 0, 0⟩).2 = gpio_writes (poweron_scd41 ⟨0, 0, 0⟩).2 ∧
    gpio_writes (poweroff_scd41 ⟨0, 0, 0⟩).2 ≠ (gpio_writes (poweron_scd41 ⟨0, 0, 0⟩).2).reverse ∧
    gpio_writes (poweroff_sgp41 ⟨0, 0⟩).2 = (gpio_writes (poweron_sgp41 ⟨0, 0⟩).2).reverse := by
  decide

/-- C19: in the six routines that write enable lines a failing GPIO write (a negative
answer) makes the routine return -1, and the trace then ends with that write, the error
message and the one-second sleep: no further GPIO write and no device command follow; the
routine returns 0 only if none of its GPIO writes failed. -/
theorem gpio_failure_is_fatal :
    (∀ a : PoweronScd41Env,
      (a.gpio_SCD41_pwr < 0 → poweron_scd41 a =
        (-1, [.call "poweron_scd41", .log .inf "Power On SCD41 (CO2 Sensor)",
              .gpio_pin_set_dt "gpio_SCD41_pwr" 1,
              .log .err "Error %d, SSCD41 EN GPIO configuration error", .k_msleep 1000])) ∧
      (a.gpio_SCD41_pwr = 0 → a.gpio_I2C_SCD41_EN < 0 → poweron_scd41 a =
        (-1, [.call "poweron_scd41", .log .inf "Power On SCD41 (CO2 Sensor)",
              .gpio_pin_set_dt "gpio_SCD41_pwr" 1, .gpio_pin_set_dt "gpio_I2C_SCD41_EN" 1,
              .log .err "Error %d, SCD41 I2C EN GPIO init error", .k_msleep 1000])) ∧
      ((poweron_scd41 a).1 = 0 → 0 ≤ a.gpio_SCD41_pwr ∧ 0 ≤ a.gpio_I2C_SCD41_EN)) ∧
    (∀ a : PoweroffScd41Env,
      (a.scd4x_power_down = 0 → a.gpio_SCD41_pwr < 0 → poweroff_scd41 a =
        (-1, [.call "poweroff_scd41", .log .inf "Power Off SCD41 (CO2 Sensor)",
              .call "scd4x_power_down", .gpio_pin_set_dt "gpio_SCD41_pwr" 0,
              .log .err "SCD41 EN GPIO configuration error", .k_msleep 1000])) ∧
      (a.scd4x_power_down = 0 → 0 ≤ a.gpio_SCD41_pwr → a.gpio_I2C_SCD41_EN < 0 →
        poweroff_scd41 a =
        (-1, [.call "poweroff_scd41", .log .inf "Power Off SCD41 (CO2 Sensor)",
              .call "scd4x_power_down", .gpio_pin_set_dt "gpio_SCD41_pwr" 0,
              .gpio_pin_set_dt "gpio_I2C_SCD41_EN" 0,
              .log .err "SCD41 I2C EN GPIO configuration error", .k_msleep 1000])) ∧
      ((poweroff_scd41 a).1 = 0 → 0 ≤ a.gpio_SCD41_pwr ∧ 0 ≤ a.gpio_I2C_SCD41_EN)) ∧
    (∀ b : PowerSgp41Env,
      (b.gpio_SGP41_pwr < 0 → poweron_sgp41 b =
        (-1, [.call "poweron_sgp41", .log .inf "Power On SGP41 (VOC Sensor)",
              .gpio_pin_set_dt "gpio_SGP41_pwr" 1,
              .log .err "SGP41 EN GPIO configuration error", .k_msleep 1000])) ∧
      (0 ≤ b.gpio_SGP41_pwr → b.gpio_I2C_SGP41_EN < 0 → poweron_sgp41 b =
        (-1, [.call "poweron_sgp41", .log .inf "Power On SGP41 (VOC Sensor)",
              .gpio_pin_set_dt "gpio_SGP41_pwr" 1, .gpio_pin_set_dt "gpio_I2C_SGP41_EN" 1,
              .log .err "SGP41 I2C EN GPIO configuration error", .k_msleep 1000])) ∧
      ((poweron_sgp41 b).1 = 0 → 0 ≤ b.gpio_SGP41_pwr ∧ 0 ≤ b.gpio_I2C_SGP41_EN) ∧
      (b.gpio_I2C_SGP41_EN < 0 → poweroff_sgp41 b =
        (-1, [.call "poweroff_sgp41", .log .inf "Power Off SGP41 (VOC Sensor)",
              .gpio_pin_set_dt "gpio_I2C_SGP41_EN" 0,
              .log .err "SGP41 I2C EN GPIO configuration error", .k_msleep 1000])) ∧
      (0 ≤ b.gpio_I2C_SGP41_EN → b.gpio_SGP41_pwr < 0 → poweroff_sgp41 b =
        (-1, [.call "poweroff_sgp41", .log .inf "Power Off SGP41 (VOC Sensor)",
              .gpio_pin_set_dt "gpio_I2C_SGP41_EN" 0, .gpio_pin_set_dt "gpio_SGP41_pwr" 0,
              .log .err "SGP41 EN GPIO configuration error", .k_msleep 1000])) ∧
      ((poweroff_sgp41 b).1 = 0 → 0 ≤ b.gpio_SGP41_pwr ∧ 0 ≤ b.gpio_I2C_SGP41_EN)) ∧
    (∀ c : PoweronAs7331Env,
      (c.gpio_I2C_AS7331_EN < 0 → poweron_as7331 c =
        (-1, [.call "poweron_as7331", .log .inf "Power On AS7331 (UV Sensor)",
              .gpio_pin_set_dt "gpio_I2C_AS7331_EN" 1,
              .log .err "AS7331 I2C EN GPIO configuration error", .k_msleep 1000])) ∧
      ((poweron_as7331 c).1 = 0 → 0 ≤ c.gpio_I2C_AS7331_EN)) ∧
    (∀ c : PoweroffAs7331Env,
      (c.as7331_power_down = 0 → c.gpio_I2C_AS7331_EN < 0 → poweroff_as7331 c =
        (-1, [.call "poweroff_as7331", .log .inf "Power Off AS7331 (UV Sensor)",
              .call "as7331_power_down", .gpio_pin_set_dt "gpio_I2C_AS7331_EN" 0,
              .log .err "AS7331 I2C EN GPIO configuration error", .k_msleep 1000])) ∧
      ((poweroff_as7331 c).1 = 0 → 0 ≤ c.gpio_I2C_AS7331_EN)) := by
  refine ⟨fun a => ⟨?_, ?_, ?_⟩, fun a => ⟨?_, ?_, ?_⟩, fun b => ⟨?_, ?_, ?_, ?_, ?_, ?_⟩,
    fun c => ⟨?_, ?_⟩, fun c => ⟨?_, ?_⟩⟩
  · intro h
    have h1 : a.gpio_SCD41_pwr ≠ NO_ERROR := by simp only [NO_ERROR]; omega
    simp [poweron_scd41, h1]
  · intro h0 h
    have h2 : ¬ a.gpio_I2C_SCD41_EN = 0 := by omega
    simp [poweron_scd41, h0, h2, NO_ERROR]
  · unfold poweron_scd41
    by_cases h1 : a.gpio_SCD41_pwr ≠ NO_ERROR
    · simp [h1]
    · by_cases h2 : a.gpio_I2C_SCD41_EN ≠ NO_ERROR
      · simp [h1, h2]
      · intro _
        simp only [NO_ERROR, ne_eq, not_not] at h1 h2
        omega
  · intro h0 h
    simp [poweroff_scd41, h0, h, NO_ERROR]
  · intro h0 h1 h
    have h1' : ¬ a.gpio_SCD41_pwr < 0 := by omega
    simp [poweroff_scd41, h0, h1', h, NO_ERROR]
  · unfold poweroff_scd41
    by_cases h0 : a.scd4x_power_down ≠ NO_ERROR
    · simp [h0]
    · by_cases h1 : a.gpio_SCD41_pwr < 0
      · simp [h0, h1]
      · by_cases h2 : a.gpio_I2C_SCD41_EN < 0
        · simp [h0, h1, h2]
        · intro _; omega
  · intro h
    simp [poweron_sgp41, h]
  · intro h1 h
    have h1' : ¬ b.gpio_SGP41_pwr < 0 := by omega
    simp [poweron_sgp41, h1', h]
  · unfold poweron_sgp41
    by_cases h1 : b.gpio_SGP41_pwr < 0
    · simp [h1]
    · by_cases h2 : b.gpio_I2C_SGP41_EN < 0
      · simp [h1, h2]
      · intro _; omega
  · intro h
    simp [poweroff_sgp41, h]
  · intro h1 h
    have h1' : ¬ b.gpio_I2C_SGP41_EN < 0 := by omega
    simp [poweroff_sgp41, h1', h]
  · unfold poweroff_sgp41
    by_cases h1 : b.gpio_I2C_SGP41_EN < 0
    · simp [h1]
    · by_cases h2 : b.gpio_SGP41_pwr < 0
      · simp [h1, h2]
      · intro _; omega
  · intro h
    simp [poweron_as7331, h]
  · unfold poweron_as7331
    by_cases h1 : c.gpio_I2C_AS7331_EN < 0
    · simp [h1]
    · intro _; omega
  · intro h0 h
    simp [poweroff_as7331, h0, h]
  · unfold poweroff_as7331
    by_cases h0 : c.as7331_power_down ≠ 0
    · simp [h0]
    · by_cases h1 : c.gpio_I2C_AS7331_EN < 0
      · simp [h0, h1]
      · intro _; omega

/-- A failing second GPIO write of poweron_sgp41: the routine returns -1 right after it. -/
theorem gpio_failure_is_fatal_witness :
    (0 : Int) ≤ 0 ∧ (-5 : Int) < 0 ∧
    poweron_sgp41 ⟨0, -5⟩ =
      (-1, [.call "poweron_sgp41", .log .inf "Power On SGP41 (VOC Sensor)",
            .gpio_pin_set_dt "gpio_SGP41_pwr" 1, .gpio_pin_set_dt "gpio_I2C_SGP41_EN" 1,
            .log .err "SGP41 I2C EN GPIO configuration error", .k_msleep 1000]) :=
  ⟨by decide, by decide, (gpio_failure_is_fatal.2.2.1 ⟨0, -5⟩).2.1 (by decide) (by decide)⟩

/-! ## Lemmas: the power routines called by a trace -/

theorem calls_of_append (names : List String) (a b : List Event) :
    calls_of names (a ++ b) = calls_of names a ++ calls_of names b := by
  induction a with
  | nil => rfl
  | cons x a ih =>
    cases x with
    | call fn => by_cases hf : fn ∈ names <;> simp [calls_of, ih, hf]
    | _ => simp [calls_of, ih]

theorem poweroff_calls_scd41 (e : PoweroffScd41Env) :
    calls_of poweroff_names (poweroff_scd41 e).2 = ["poweroff_scd41"] := by
  unfold poweroff_scd41; simp only []; split_ifs <;> decide

theorem poweroff_calls_sgp41 (e : PowerSgp41Env) :
    calls_of poweroff_names (poweroff_sgp41 e).2 = ["poweroff_sgp41"] := by
  unfold poweroff_sgp41; simp only []; split_ifs <;> decide

theorem poweroff_calls_bh1730 (r : Int) :
    calls_of poweroff_names (poweroff_bh1730 r).2 = ["poweroff_bh1730"] := by
  unfold poweroff_bh1730; simp only []; split_ifs <;> decide

theorem poweroff_calls_as7331 (e : PoweroffAs7331Env) :
    calls_of poweroff_names (poweroff_as7331 e).2 = ["poweroff_as7331"] := by
  unfold poweroff_as7331; simp only []; split_ifs <;> decide

theorem poweron_calls_scd41 (e : PoweronScd41Env) :
    calls_of poweron_names (poweron_scd41 e).2 = ["poweron_scd41"] := by
  unfold poweron_scd41; simp only []; split_ifs <;> decide

theorem poweron_calls_sgp41 (e : PowerSgp41Env) :
    calls_of poweron_names (poweron_sgp41 e).2 = ["poweron_sgp41"] := by
  unfold poweron_sgp41; simp only []; split_ifs <;> decide

theorem poweron_calls_bh1730 (r : Int) :
    calls_of poweron_names (poweron_bh1730 r).2 = ["poweron_bh1730"] := by
  unfold poweron_bh1730; simp only []; split_ifs <;> decide

theorem poweron_calls_as7331 (e : PoweronAs7331Env) :
    calls_of poweron_names (poweron_as7331 e).2 = ["poweron_as7331"] := by
  unfold poweron_as7331; simp only []; split_ifs <;> decide

theorem poweron_calls_main_powerup_as7331 (env : MainEnv) (t : List Event)
    (h : (main_powerup_as7331 env t).1 = none) :
    calls_of poweron_names (main_powerup_as7331 env t).2 =
      calls_of poweron_names t ++ ["poweron_as7331", "poweron_as7331"] := by
  unfold main_powerup_as7331 at h ⊢
  simp only [] at h ⊢
  split_ifs at h ⊢
  simp only [calls_of_append, poweron_calls_as7331, List.append_assoc]
  rfl

/-- A poll loop calls no power-off routine. -/
theorem poweroff_calls_poll_loop (s : PollSite) (hs : s.statusFn ∉ poweroff_names) (e : PollEnv) :
    ∀ fuel j r, poll_loop s e fuel j = some r → calls_of poweroff_names r.trace = [] := by
  have hu : "k_uptime_get_32" ∉ poweroff_names := by decide
  intro fuel
  induction fuel with
  | zero => intro j r h; simp [poll_loop] at h
  | succ f ih =>
    intro j r h
    unfold poll_loop at h
    simp only [] at h
    split_ifs at h with h1 h2 h3
    · cases h; simp [calls_of, hs]
    · cases h; simp [calls_of, hs]
    · cases h; simp [calls_of, hs, hu]
    · rcases hrec : poll_loop s e f (j + 1) with _ | r'
      · simp [hrec] at h
      · simp only [hrec, Option.map_some', Option.some.injEq] at h
        subst h
        simp [calls_of_append, calls_of, hs, hu, ih (j + 1) r' hrec]

theorem poweroff_calls_sync : calls_of poweroff_names sync = [] := by decide

theorem poweroff_calls_pace (P : Int) (lt a b : Nat) :
    calls_of poweroff_names (pace P lt a b).2 = [] := by
  unfold pace; simp only []; split_ifs <;> rfl

theorem poweroff_calls_loop_body_as7331 (P : Int) (fuel : Nat) (e : IterEnv) (lt : Nat)
    (t0 : List Event) :
    calls_of poweroff_names (loop_body_as7331 P fuel e lt t0).trace =
      calls_of poweroff_names t0 := by
  unfold loop_body_as7331
  rcases hp : poll_loop as7331_poll
    ⟨e.as7331_time, as7331_status e.gpio_ext_as7331_ready, e.as7331_uptime⟩ fuel 0 with _ | r
  · simp only [IterResult.trace, calls_of_append]
    rw [show calls_of poweroff_names [Event.call "k_uptime_get_32"] = [] by decide]
    simp
  · have hr := poweroff_calls_poll_loop as7331_poll (by decide) _ _ _ _ hp
    simp only []
    split_ifs <;> simp only [IterResult.trace, calls_of_append, hr, poweroff_calls_sync,
      poweroff_calls_pace, List.append_nil] <;> simp [calls_of, poweroff_names]

theorem poweroff_calls_loop_body_bh1730 (P : Int) (fuel : Nat) (e : IterEnv) (lt : Nat)
    (t0 : List Event) :
    calls_of poweroff_names (loop_body_bh1730 P fuel e lt t0).trace =
      calls_of poweroff_names t0 := by
  unfold loop_body_bh1730
  rcases hp : poll_loop bh1730_poll e.bh1730 fuel 0 with _ | r
  · simp only [IterResult.trace, calls_of_append]
    rw [show calls_of poweroff_names [Event.call "k_uptime_get_32"] = [] by decide]
    simp
  · have hr := poweroff_calls_poll_loop bh1730_poll (by decide) _ _ _ _ hp
    simp only []
    split_ifs
    all_goals first
      | (rw [poweroff_calls_loop_body_as7331]
         simp only [calls_of_append, hr, poweroff_calls_sync, List.append_nil]
         simp [calls_of, poweroff_names])
      | (simp only [IterResult.trace, calls_of_append, hr, poweroff_calls_sync, List.append_nil]
         simp [calls_of, poweroff_names])

theorem poweroff_calls_loop_body (P : Int) (fuel : Nat) (e : IterEnv) (lt : Nat) :
    calls_of poweroff_names (loop_body P fuel e lt).trace = [] := by
  unfold loop_body
  rcases hp : poll_loop scd41_poll e.scd41 fuel 0 with _ | r
  · simp only [IterResult.trace, calls_of_append, poweroff_calls_sync]
    decide
  · have hr := poweroff_calls_poll_loop scd41_poll (by decide) _ _ _ _ hp
    simp only []
    split_ifs
    all_goals first
      | (rw [poweroff_calls_loop_body_bh1730]
         simp only [calls_of_append, hr, poweroff_calls_sync, List.append_nil]
         simp [calls_of, poweroff_names])
      | (simp only [IterResult.trace, calls_of_append, hr, poweroff_calls_sync, List.append_nil]
         simp [calls_of, poweroff_names])

theorem poweroff_calls_main_loop (P : Int) (fuel : Nat) (iter : Nat → IterEnv) :
    ∀ n j lt, calls_of poweroff_names (main_loop P fuel iter n j lt).2 = [] := by
  intro n
  induction n with
  | zero => intro j lt; rfl
  | succ n ih =>
    intro j lt
    have h := poweroff_calls_loop_body P fuel (iter j) lt
    rw [main_loop]
    rcases hb : loop_body P fuel (iter j) lt with t | t | ⟨t, lt2⟩
    · simpa [hb, IterResult.trace] using h
    · simpa [hb, IterResult.trace] using h
    · rw [hb] at h
      simp only [IterResult.trace] at h
      simp only [calls_of_append, h, ih, List.append_nil]

theorem poweroff_calls_main_init (env : MainEnv) :
    calls_of poweroff_names (main_init env).2 = [] := by
  unfold main_init; simp only []; split_ifs <;> decide

theorem poweroff_calls_poweron_scd41 (e : PoweronScd41Env) :
    calls_of poweroff_names (poweron_scd41 e).2 = [] := by
  unfold poweron_scd41; simp only []; split_ifs <;> decide

theorem poweroff_calls_poweron_sgp41 (e : PowerSgp41Env) :
    calls_of poweroff_names (poweron_sgp41 e).2 = [] := by
  unfold poweron_sgp41; simp only []; split_ifs <;> decide

theorem poweroff_calls_poweron_bh1730 (r : Int) :
    calls_of poweroff_names (poweron_bh1730 r).2 = [] := by
  unfold poweron_bh1730; simp only []; split_ifs <;> decide

theorem poweroff_calls_poweron_as7331 (e : PoweronAs7331Env) :
    calls_of poweroff_names (poweron_as7331 e).2 = [] := by
  unfold poweron_as7331; simp only []; split_ifs <;> decide

theorem poweroff_calls_main_powerup_as7331 (env : MainEnv) (t : List Event) :
    calls_of poweroff_names (main_powerup_as7331 env t).2 = calls_of poweroff_names t := by
  unfold main_powerup_as7331
  simp only []
  split_ifs <;> simp only [calls_of_append, poweroff_calls_poweron_as7331, List.append_nil] <;>
    simp [calls_of, poweroff_names]

theorem poweroff_calls_main_powerup (env : MainEnv) :
    calls_of poweroff_names (main_powerup env).2 = [] := by
  unfold main_powerup
  simp only []
  split_ifs <;> simp only [poweroff_calls_main_powerup_as7331, calls_of_append,
    poweroff_calls_poweron_scd41, poweroff_calls_poweron_sgp41, poweroff_calls_poweron_bh1730,
    List.append_nil] <;> simp [calls_of, poweroff_names]

/-! ## The power-off sequence -/

set_option maxRecDepth 100000 in
/-- C12, as stated, fails: in this run the loop is left and
`scd4x_stop_periodic_measurement` fails; `main` returns -1 and no power-off
routine has been called. -/
theorem stop_failure_skips_power_off :
    (main_loop 5000 1 break_env.iter 1 0 (break_env.loop_time % 2 ^ 32)).1 = true ∧
    (main 5000 1 { break_env with scd4x_stop_periodic_measurement := -1 }).ret = some (-1) ∧
    calls_of poweroff_names
      (main 5000 1 { break_env with scd4x_stop_periodic_measurement := -1 }).trace = [] := by
  decide

/-- C12, amended: when the start-up phases have passed and the loop is left,
`main` runs the power-off sequence and returns its value. If
`scd4x_stop_periodic_measurement` fails the sequence returns -1 without calling
a power-off routine; if `sgp41_turn_heater_off` fails it returns -1 after
calling `poweroff_scd41` only; otherwise it calls `poweroff_scd41`,
`poweroff_sgp41`, `poweroff_bh1730` and `poweroff_as7331`, whatever these four
return, and returns 0. -/
theorem power_off_sequence (P : Int) (fuel : Nat) (env : MainEnv) :
    (∀ tl, (main_init env).1 = none → env.test_sensors_returns = true →
      (main_powerup env).1 = none →
      main_loop P fuel env.iter fuel 0 (env.loop_time % 2 ^ 32) = (true, tl) →
      (main P fuel env).ret = some (main_shutdown env).1 ∧
      ∃ pre, (main P fuel env).trace = pre ++ (main_shutdown env).2 ∧
        calls_of poweroff_names pre = []) ∧
    (env.scd4x_stop_periodic_measurement ≠ 0 →
      (main_shutdown env).1 = -1 ∧ calls_of poweroff_names (main_shutdown env).2 = []) ∧
    (env.scd4x_stop_periodic_measurement = 0 → env.sgp41_turn_heater_off ≠ 0 →
      (main_shutdown env).1 = -1 ∧
      calls_of poweroff_names (main_shutdown env).2 = ["poweroff_scd41"]) ∧
    (env.scd4x_stop_periodic_measurement = 0 → env.sgp41_turn_heater_off = 0 →
      (main_shutdown env).1 = 0 ∧
      calls_of poweroff_names (main_shutdown env).2 =
        ["poweroff_scd41", "poweroff_sgp41", "poweroff_bh1730", "poweroff_as7331"]) := by
  refine ⟨?_, ?_, ?_, ?_⟩
  · intro tl hi hts hp hl
    obtain ⟨h1, h2, _⟩ := main_loop_exit P fuel env tl hi hts hp hl
    refine ⟨h1, _, h2, ?_⟩
    have hl2 := poweroff_calls_main_loop P fuel env.iter fuel 0 (env.loop_time % 2 ^ 32)
    rw [hl] at hl2
    simp only [calls_of_append, poweroff_calls_main_init, poweroff_calls_main_powerup, hl2,
      List.append_nil]
    decide
  · intro h
    simp only [main_shutdown, NO_ERROR, h, ne_eq, not_false_eq_true, if_true]
    exact ⟨trivial, rfl⟩
  · intro h1 h2
    simp only [main_shutdown, NO_ERROR, h1, h2, ne_eq, not_false_eq_true, not_true_eq_false,
      if_true, if_false, calls_of_append, poweroff_calls_scd41]
    exact ⟨trivial, rfl⟩
  · intro h1 h2
    simp only [main_shutdown, NO_ERROR, h1, h2, ne_eq, not_true_eq_false, if_false,
      calls_of_append, poweroff_calls_scd41, poweroff_calls_sgp41, poweroff_calls_bh1730,
      poweroff_calls_as7331]
    exact ⟨trivial, rfl⟩

set_option maxRecDepth 100000 in
/-- Witness of C12: in the run whose first iteration fails to read the SCD41 the
loop is left, the two shutdown commands succeed, the four power-off routines are
called and `main` returns 0. -/
theorem power_off_sequence_witness :
    (main 5000 1 break_env).ret = some (main_shutdown break_env).1 ∧
    (main_shutdown break_env).1 = 0 ∧
    calls_of poweroff_names (main_shutdown break_env).2 =
      ["poweroff_scd41", "poweroff_sgp41", "poweroff_bh1730", "poweroff_as7331"] :=
  ⟨((power_off_sequence 5000 1 break_env).1
      (main_loop 5000 1 break_env.iter 1 0 (break_env.loop_time % 2 ^ 32)).2
      (by decide) (by decide) (by decide) (Prod.ext (by decide) rfl)).1,
   (power_off_sequence 5000 1 break_env).2.2.2 rfl rfl⟩

set_option maxRecDepth 100000 in
/-- C13, as stated, fails: in the sample run the sensors are powered on in the
order SCD41, SGP41, BH1730FVC, AS7331 and powered off in the same order, not
in the reverse order. -/
theorem power_off_not_reversed :
    calls_of poweron_names (main_powerup demo_env).2 =
      ["poweron_scd41", "poweron_sgp41", "poweron_bh1730", "poweron_as7331", "poweron_as7331"] ∧
    calls_of poweroff_names (main_shutdown demo_env).2 =
      ["poweroff_scd41", "poweroff_sgp41", "poweroff_bh1730", "poweroff_as7331"] ∧
    calls_of poweroff_names (main_shutdown demo_env).2 ≠
      ["poweroff_as7331", "poweroff_bh1730", "poweroff_sgp41", "poweroff_scd41"] := by
  decide

/-- C13, amended: a power-up phase that passes calls `poweron_scd41`,
`poweron_sgp41`, `poweron_bh1730` and `poweron_as7331` (twice, around the reset of
the AS7331) in this order, and a power-off sequence that returns 0 calls
`poweroff_scd41`, `poweroff_sgp41`, `poweroff_bh1730` and `poweroff_as7331` in
this order: the same order of sensors, SCD41, SGP41, BH1730FVC, AS7331. -/
theorem power_off_same_order (env : MainEnv) :
    ((main_powerup env).1 = none →
      calls_of poweron_names (main_powerup env).2 =
        ["poweron_scd41", "poweron_sgp41", "poweron_bh1730", "poweron_as7331",
         "poweron_as7331"]) ∧
    ((main_shutdown env).1 = 0 →
      calls_of poweroff_names (main_shutdown env).2 =
        ["poweroff_scd41", "poweroff_sgp41", "poweroff_bh1730", "poweroff_as7331"]) := by
  constructor
  · intro h
    unfold main_powerup at h ⊢
    simp only [] at h ⊢
    split_ifs at h ⊢
    all_goals first
      | (simp at h; done)
      | (rw [poweron_calls_main_powerup_as7331 env _ h]
         simp only [calls_of_append, poweron_calls_scd41, poweron_calls_sgp41, poweron_calls_bh1730]
         rfl)
  · intro h
    unfold main_shutdown at h ⊢
    simp only [] at h ⊢
    split_ifs at h ⊢
    all_goals first
      | (simp at h; done)
      | (simp only [calls_of_append, poweroff_calls_scd41, poweroff_calls_sgp41,
           poweroff_calls_bh1730, poweroff_calls_as7331]
         rfl)

set_option maxRecDepth 100000 in
/-- Witness of C13: the power-up phase and the power-off sequence of the sample
run. -/
theorem power_off_same_order_witness :
    calls_of poweron_names (main_powerup demo_env).2 =
      ["poweron_scd41", "poweron_sgp41", "poweron_bh1730", "poweron_as7331", "poweron_as7331"] ∧
    calls_of poweroff_names (main_shutdown demo_env).2 =
      ["poweroff_scd41", "poweroff_sgp41", "poweroff_bh1730", "poweroff_as7331"] :=
  ⟨(power_off_same_order demo_env).1 (by decide), (power_off_same_order demo_env).2 (by decide)⟩

/-! ## Failures of the power-up phase -/

theorem main_powerup_as7331_none (env : MainEnv) (t : List Event)
    (h : (main_powerup_as7331 env t).1 = none) :
    (poweron_as7331 env.poweron_as7331_1).1 = 0 ∧ env.as7331_reset = 0 ∧
    (poweron_as7331 env.poweron_as7331_2).1 = 0 ∧ env.as7331_set_configuration_mode = 0 ∧
    env.as7331_init = 0 ∧ env.as7331_set_measurement_mode = 0 ∧
    env.as7331_start_measurement = 0 := by
  unfold main_powerup_as7331 at h
  simp only [NO_ERROR] at h
  split_ifs at h with h1 h2 h3 h4 h5 h6 h7
  simp only [ne_eq, not_not] at h1 h2 h3 h4 h5 h6 h7
  exact ⟨h1, h2, h3, h4, h5, h6, h7⟩

/-- A power-up phase that passes has seen every checked step succeed. -/
theorem main_powerup_none (env : MainEnv) (h : (main_powerup env).1 = none) :
    env.scd4x_start_periodic_measurement = 0 ∧ env.sgp41_execute_conditioning = 0 ∧
    (poweron_bh1730 env.bh1730_power_on).1 = 0 ∧ env.bh1730_init = 0 ∧
    (poweron_as7331 env.poweron_as7331_1).1 = 0 ∧ env.as7331_reset = 0 ∧
    (poweron_as7331 env.poweron_as7331_2).1 = 0 ∧ env.as7331_set_configuration_mode = 0 ∧
    env.as7331_init = 0 ∧ env.as7331_set_measurement_mode = 0 ∧
    env.as7331_start_measurement = 0 := by
  unfold main_powerup at h
  simp only [NO_ERROR] at h
  split_ifs at h with h1 h2 h3 h4
  simp only [ne_eq, not_not] at h1 h2 h3 h4
  exact ⟨h1, h2, h3, h4, main_powerup_as7331_none env _ h⟩

set_option maxRecDepth 100000 in
/-- C16: the code departs from the claim for `poweron_scd41` and
`poweron_sgp41`. In this run the first GPIO write of each fails, so that both
routines return -1; `main` calls them as statements (main.c, lines 168 and
179), where it tests the results of `poweron_bh1730` and `poweron_as7331`. It
goes on, writes the CSV header and (its first iteration failing to read the
SCD41) returns 0. -/
theorem poweron_failure_is_ignored :
    (poweron_scd41 ⟨-5, 0, 0⟩).1 = -1 ∧ (poweron_sgp41 ⟨-5, 0⟩).1 = -1 ∧
    (main 5000 1 { break_env with poweron_scd41 := ⟨-5, 0, 0⟩, poweron_sgp41 := ⟨-5, 0⟩ }).ret =
      some 0 ∧
    printed
      (main 5000 1 { break_env with poweron_scd41 := ⟨-5, 0, 0⟩,
                                    poweron_sgp41 := ⟨-5, 0⟩ }).trace = [csv_header] := by
  decide

/-- The power-up steps that are followed by a test: once `test_sensors` has
returned, a failure of `scd4x_start_periodic_measurement`, of `sgp41_execute_conditioning`, of
`poweron_bh1730`, of `bh1730_init`, of either call of `poweron_as7331`, of
`as7331_reset`, `as7331_set_configuration_mode`, `as7331_init`,
`as7331_set_measurement_mode` or of the first `as7331_start_measurement` makes
`main` return -1 with nothing written: the CSV header is not printed. -/
theorem powerup_failure_fatal (P : Int) (fuel : Nat) (env : MainEnv)
    (hts : env.test_sensors_returns = true)
    (h : env.scd4x_start_periodic_measurement ≠ 0 ∨ env.sgp41_execute_conditioning ≠ 0 ∨
      (poweron_bh1730 env.bh1730_power_on).1 ≠ 0 ∨ env.bh1730_init ≠ 0 ∨
      (poweron_as7331 env.poweron_as7331_1).1 ≠ 0 ∨ env.as7331_reset ≠ 0 ∨
      (poweron_as7331 env.poweron_as7331_2).1 ≠ 0 ∨ env.as7331_set_configuration_mode ≠ 0 ∨
      env.as7331_init ≠ 0 ∨ env.as7331_set_measurement_mode ≠ 0 ∨
      env.as7331_start_measurement ≠ 0) :
    (main P fuel env).ret = some (-1) ∧ printed (main P fuel env).trace = [] := by
  have hp : (main_powerup env).1 = some (-1) := by
    rcases main_powerup_ret env with hn | hs
    · obtain ⟨a1, a2, a3, a4, a5, a6, a7, a8, a9, a10, a11⟩ := main_powerup_none env hn
      rcases h with h | h | h | h | h | h | h | h | h | h | h
      · exact absurd a1 h
      · exact absurd a2 h
      · exact absurd a3 h
      · exact absurd a4 h
      · exact absurd a5 h
      · exact absurd a6 h
      · exact absurd a7 h
      · exact absurd a8 h
      · exact absurd a9 h
      · exact absurd a10 h
      · exact absurd a11 h
    · exact hs
  have h1 := printed_main_init env
  have h2 := printed_main_powerup env
  rcases hi : main_init env with ⟨ri, ti⟩
  have hri := main_init_ret env
  rw [hi] at hri h1
  simp only at hri h1
  rcases hp' : main_powerup env with ⟨rp, tp⟩
  rw [hp'] at hp h2
  simp only at hp h2
  subst hp
  rcases hri with hri | hri
  · subst hri
    simp [main, hi, hts, hp', printed_append, printed, h1, h2]
  · subst hri
    simp [main, hi, h1]

set_option maxRecDepth 100000 in
/-- An instance of `powerup_failure_fatal`: the run in which the second
`poweron_as7331` fails to power the AS7331 up. -/
theorem powerup_failure_fatal_witness :
    (main 5000 1 { demo_env with poweron_as7331_2 := ⟨0, -1⟩ }).ret = some (-1) ∧
    printed (main 5000 1 { demo_env with poweron_as7331_2 := ⟨0, -1⟩ }).trace = [] :=
  powerup_failure_fatal 5000 1 { demo_env with poweron_as7331_2 := ⟨0, -1⟩ } rfl
    (Or.inr (Or.inr (Or.inr (Or.inr (Or.inr (Or.inr (Or.inl (by decide))))))))

/-! ## The self-test phase -/

/-- A reset loop ends at the first query that finds `sw_reset` cleared. -/
theorem reset_loop_ends (fn : String) (sw : Nat → Bool) :
    ∀ k j, sw (j + k) = false → ∀ fuel, k < fuel → ∃ t, reset_loop fn sw fuel j = some t := by
  intro k
  induction k with
  | zero =>
    intro j h fuel hf
    obtain ⟨f, rfl⟩ : ∃ f, fuel = f + 1 := ⟨fuel - 1, by omega⟩
    simp only [Nat.add_zero] at h
    simp [reset_loop, h]
  | succ k ih =>
    intro j h fuel hf
    obtain ⟨f, rfl⟩ : ∃ f, fuel = f + 1 := ⟨fuel - 1, by omega⟩
    by_cases hj : sw j = true
    · obtain ⟨t, ht⟩ := ih (j + 1) (by rwa [show j + 1 + k = j + (k + 1) by omega]) f (by omega)
      simp [reset_loop, hj, ht]
    · simp [reset_loop, hj]

/-- A reset loop that finds `sw_reset` set at every query never ends. -/
theorem reset_loop_stuck (fn : String) (sw : Nat → Bool) (h : ∀ j, sw j = true) :
    ∀ fuel j, reset_loop fn sw fuel j = none := by
  intro fuel
  induction fuel with
  | zero => intro j; rfl
  | succ f ih => intro j; simp [reset_loop, h j, ih (j + 1)]

/-- Under an advancing clock a poll loop ends, given enough fuel. -/
theorem poll_loop_ends (s : PollSite) (e : PollEnv) (h : ClockAdvances e) :
    ∃ n, ∀ fuel, n < fuel → ∃ r, poll_loop s e fuel 0 = some r := by
  obtain ⟨n, _, hto, _⟩ := clock_first_timeout e h
  exact ⟨n, fun fuel hf => poll_loop_terminates_from s e n hto n 0 (by omega) fuel hf⟩

theorem test_as7331_returns (fuel : Nat) (e : TestAs7331Env)
    (h : ∃ r, poll_loop test_as7331_poll e.poll fuel 0 = some r) :
    ∃ t, test_as7331 fuel e = some t := by
  obtain ⟨r, hr⟩ := h
  unfold test_as7331
  simp only [hr]
  split_ifs <;> exact ⟨_, rfl⟩

theorem test_bh1730fvc_returns (fuel : Nat) (e : TestBh1730Env)
    (h : ∃ r, poll_loop test_bh1730_poll e.poll fuel 0 = some r) :
    ∃ t, test_bh1730fvc fuel e = some t := by
  obtain ⟨r, hr⟩ := h
  unfold test_bh1730fvc
  simp only [hr]
  split_ifs <;> exact ⟨_, rfl⟩

theorem test_scd41_returns (fuel : Nat) (e : TestScd41Env)
    (h : ∃ r, poll_loop test_scd41_poll e.poll fuel 0 = some r) :
    ∃ t, test_scd41 fuel e = some t := by
  obtain ⟨r, hr⟩ := h
  unfold test_scd41
  simp only [hr]
  split_ifs <;> exact ⟨_, rfl⟩

theorem test_ilpS28qsw_returns (fuel : Nat) (e : TestIlps28qswEnv)
    (h : e.ilps28qsw_init_set_reset ≠ 0 ∨
      ∃ t, reset_loop "ilps28qsw_status_get" e.sw_reset fuel 0 = some t) :
    ∃ t, test_ilpS28qsw fuel e = some t := by
  unfold test_ilpS28qsw
  by_cases h0 : e.ilps28qsw_init_set_reset ≠ 0
  · rw [if_pos h0]
    exact ⟨_, rfl⟩
  · rcases h with h | ⟨w, hw⟩
    · exact absurd h h0
    · rw [if_neg h0]
      simp only [hw]
      split_ifs <;> exact ⟨_, rfl⟩

theorem test_lis2duxs12_returns (fuel : Nat) (e : TestLis2duxs12Env)
    (h : e.lis2duxs12_init_set_reset ≠ 0 ∨
      ∃ t, reset_loop "lis2duxs12_status_get" e.sw_reset fuel 0 = some t) :
    ∃ t, test_lis2duxs12 fuel e = some t := by
  unfold test_lis2duxs12
  by_cases h0 : e.lis2duxs12_init_set_reset ≠ 0
  · simp only [NO_ERROR]
    rw [if_pos h0]
    exact ⟨_, rfl⟩
  · rcases h with h | ⟨w, hw⟩
    · exact absurd h h0
    · simp only [NO_ERROR]
      rw [if_neg h0]
      simp only [hw]
      exact ⟨_, rfl⟩

/-- If the self-test does not return, `main` goes no further than its call. -/
theorem main_self_test_hangs (P : Int) (fuel : Nat) (env : MainEnv)
    (hi : (main_init env).1 = none) (hts : env.test_sensors_returns = false) :
    (main P fuel env).ret = none ∧
    (main P fuel env).trace =
      (main_init env).2 ++ [.log .inf "===== Testing all sensors ======", .call "test_sensors"] := by
  rcases hi' : main_init env with ⟨ri, ti⟩
  rw [hi'] at hi
  simp only at hi
  subst hi
  simp [main, hi', hts]

/-- If the self-test returns, `main` goes on with the power-up phase. -/
theorem main_self_test_returns (P : Int) (fuel : Nat) (env : MainEnv)
    (hi : (main_init env).1 = none) (hts : env.test_sensors_returns = true) :
    ∃ rest, (main P fuel env).trace =
      (main_init env).2 ++ [.log .inf "===== Testing all sensors ======", .call "test_sensors"] ++
        (main_powerup env).2 ++ rest := by
  rcases hi' : main_init env with ⟨ri, ti⟩
  rw [hi'] at hi
  simp only at hi
  subst hi
  rcases hp : main_powerup env with ⟨rp, tp⟩
  rcases rp with _ | c
  · rcases hl : main_loop P fuel env.iter fuel 0 (env.loop_time % 2 ^ 32) with ⟨b, tl⟩
    cases b
    · exact ⟨[.printf csv_header, .call "k_uptime_get_32"] ++ tl, by
        simp [main, hi', hts, hp, hl, -Nat.reducePow]⟩
    · exact ⟨[.printf csv_header, .call "k_uptime_get_32"] ++ tl ++ (main_shutdown env).2, by
        simp [main, hi', hts, hp, hl, -Nat.reducePow]⟩
  · exact ⟨[], by simp [main, hi', hts, hp]⟩

/-- C20: the ILPS28QSW accepts the reset command of `test_ilpS28qsw` and then
reports `sw_reset` set at every status query. The loop that waits for the bit
has no timeout, so the self-test never returns, whatever the fuel, and `main`
never reaches the power-up phase. -/
theorem self_test_stuck_in_reset :
    stuck_reset_env.test_ilpS28qsw.ilps28qsw_init_set_reset = 0 ∧
    (∀ j, stuck_reset_env.test_ilpS28qsw.sw_reset j = true) ∧
    (∀ fuel, test_sensors fuel stuck_reset_env = none) ∧
    ∀ fuel,
      (main 5000 fuel
        { demo_env with test_sensors_returns := (test_sensors fuel stuck_reset_env).isSome }).ret =
        none ∧
      Event.call "poweron_scd41" ∉
        (main 5000 fuel
          { demo_env with
            test_sensors_returns := (test_sensors fuel stuck_reset_env).isSome }).trace := by
  have hstuck : ∀ fuel, test_sensors fuel stuck_reset_env = none := by
    intro fuel
    have h : test_ilpS28qsw fuel stuck_reset_env.test_ilpS28qsw = none := by
      unfold test_ilpS28qsw
      have := reset_loop_stuck "ilps28qsw_status_get" stuck_reset_env.test_ilpS28qsw.sw_reset
        (fun _ => rfl) fuel 0
      simp only [this]
      rfl
    unfold test_sensors
    rw [h]
    split <;> simp_all
  refine ⟨rfl, fun _ => rfl, hstuck, fun fuel => ?_⟩
  rw [hstuck fuel]
  obtain ⟨h1, h2⟩ := main_self_test_hangs 5000 fuel
    { demo_env with test_sensors_returns := (none : Option (List Event)).isSome }
    (by decide) rfl
  refine ⟨h1, ?_⟩
  rw [h2]
  decide

/-- The other causes of a self-test that does not return are excluded: let the
clock advance during the three timed poll loops (`test_as7331`,
`test_bh1730fvc`, `test_scd41`) and let, in `test_lis2duxs12` and in
`test_ilpS28qsw`, the reset command fail or some status query find `sw_reset`
cleared. Then, whatever the other calls answer, `test_sensors` returns (given
enough fuel), and a `main` whose transport phase has passed goes on with the
power-up phase. -/
theorem self_test_returns (e : TestEnv)
    (h1 : ClockAdvances e.test_as7331.poll) (h2 : ClockAdvances e.test_bh1730fvc.poll)
    (h3 : ClockAdvances e.test_scd41.poll)
    (h4 : e.test_lis2duxs12.lis2duxs12_init_set_reset ≠ 0 ∨
      ∃ n, e.test_lis2duxs12.sw_reset n = false)
    (h5 : e.test_ilpS28qsw.ilps28qsw_init_set_reset ≠ 0 ∨
      ∃ n, e.test_ilpS28qsw.sw_reset n = false) :
    ∃ n, ∀ fuel, n < fuel →
      (∃ t, test_sensors fuel e = some t) ∧
      ∀ (P : Int) (f : Nat) (env : MainEnv),
        env.test_sensors_returns = (test_sensors fuel e).isSome → (main_init env).1 = none →
        ∃ rest, (main P f env).trace =
          (main_init env).2 ++
            [.log .inf "===== Testing all sensors ======", .call "test_sensors"] ++
            (main_powerup env).2 ++ rest := by
  obtain ⟨n1, hn1⟩ := poll_loop_ends test_as7331_poll _ h1
  obtain ⟨n2, hn2⟩ := poll_loop_ends test_bh1730_poll _ h2
  obtain ⟨n3, hn3⟩ := poll_loop_ends test_scd41_poll _ h3
  obtain ⟨n4, hn4⟩ : ∃ n, ∀ fuel, n < fuel → (e.test_lis2duxs12.lis2duxs12_init_set_reset ≠ 0 ∨
      ∃ t, reset_loop "lis2duxs12_status_get" e.test_lis2duxs12.sw_reset fuel 0 = some t) := by
    rcases h4 with h | ⟨n, hn⟩
    · exact ⟨0, fun _ _ => Or.inl h⟩
    · exact ⟨n, fun fuel hf => Or.inr (reset_loop_ends _ _ n 0 (by simpa using hn) fuel hf)⟩
  obtain ⟨n5, hn5⟩ : ∃ n, ∀ fuel, n < fuel → (e.test_ilpS28qsw.ilps28qsw_init_set_reset ≠ 0 ∨
      ∃ t, reset_loop "ilps28qsw_status_get" e.test_ilpS28qsw.sw_reset fuel 0 = some t) := by
    rcases h5 with h | ⟨n, hn⟩
    · exact ⟨0, fun _ _ => Or.inl h⟩
    · exact ⟨n, fun fuel hf => Or.inr (reset_loop_ends _ _ n 0 (by simpa using hn) fuel hf)⟩
  refine ⟨n1 + n2 + n3 + n4 + n5, fun fuel hf => ?_⟩
  obtain ⟨t1, ht1⟩ := test_as7331_returns fuel e.test_as7331 (hn1 fuel (by omega))
  obtain ⟨t2, ht2⟩ := test_bh1730fvc_returns fuel e.test_bh1730fvc (hn2 fuel (by omega))
  obtain ⟨t3, ht3⟩ := test_scd41_returns fuel e.test_scd41 (hn3 fuel (by omega))
  obtain ⟨t4, ht4⟩ := test_lis2duxs12_returns fuel e.test_lis2duxs12 (hn4 fuel (by omega))
  obtain ⟨t5, ht5⟩ := test_ilpS28qsw_returns fuel e.test_ilpS28qsw (hn5 fuel (by omega))
  have hs : ∃ t, test_sensors fuel e = some t := by
    unfold test_sensors
    rw [ht1, ht2, ht3, ht4, ht5]
    exact ⟨_, rfl⟩
  refine ⟨hs, fun P f env hts hi => ?_⟩
  obtain ⟨t, ht⟩ := hs
  rw [ht] at hts
  exact main_self_test_returns P f env hi hts

/-- The self-test in which many calls fail returns. -/
theorem self_test_returns_witness :
    ∃ n, ∀ fuel, n < fuel → ∃ t, test_sensors fuel rough_test_env = some t :=
  (self_test_returns rough_test_env (demo_wait_clock (some 2)) (demo_wait_clock none)
    (demo_wait_clock (some 0)) (Or.inr ⟨3, rfl⟩) (Or.inl (by decide))).imp
    fun _ h fuel hf => (h fuel hf).1

/-! ## Timing of the poll loops -/

/-- The 32-bit difference of two uptime readings is the true elapsed time, as
long as that is less than `2^32` ms, wherever the counter wraps. -/
theorem elapsed32_add (T e : Nat) (he : e < 2 ^ 32) : elapsed32 (T + e) T = e := by
  unfold elapsed32
  omega

/-- A poll loop that returns starts by querying the status. -/
theorem poll_loop_starts (s : PollSite) (e : PollEnv) (fuel j : Nat) (r : PollResult)
    (h : poll_loop s e fuel j = some r) : ∃ rest, r.trace = .call s.statusFn :: rest := by
  cases fuel with
  | zero => simp [poll_loop] at h
  | succ f =>
    unfold poll_loop at h
    simp only [] at h
    split_ifs at h
    · cases h; exact ⟨_, rfl⟩
    · cases h; exact ⟨_, rfl⟩
    · cases h; exact ⟨_, rfl⟩
    · rcases hrec : poll_loop s e f (j + 1) with _ | r'
      · simp [hrec] at h
      · simp only [hrec, Option.map_some', Option.some.injEq] at h
        subst h
        exact ⟨_, rfl⟩

/-- C21: in a poll loop (the three of `loop_body` and those of `test_scd41`,
`test_bh1730fvc` and `test_as7331` all run `poll_loop`), a query that reports
neither an error nor the signal is followed by `k_usleep (100)` and a reading
of the uptime. If the elapsed time computed from that reading is greater than
10000 the loop ends there with the timeout logged; if it is at most 10000,
exactly 10000 included, the loop goes on, and what follows starts with the
next status query. -/
theorem poll_step (s : PollSite) (e : PollEnv) (fuel j : Nat)
    (herr : (e.status j).1 = 0) (hrdy : (e.status j).2 = false) :
    (10 * 1000 < elapsed32 (e.uptime j) e.time →
      poll_loop s e (fuel + 1) j = some ⟨.timeout, false,
        [.call s.statusFn, .k_usleep 100, .call "k_uptime_get_32", .log .err s.timeoutMsg]⟩) ∧
    (elapsed32 (e.uptime j) e.time ≤ 10 * 1000 →
      poll_loop s e (fuel + 1) j =
        (poll_loop s e fuel (j + 1)).map (fun r =>
          { r with trace := [.call s.statusFn, .k_usleep 100, .call "k_uptime_get_32"] ++ r.trace }) ∧
      ∀ r, poll_loop s e fuel (j + 1) = some r → ∃ rest, r.trace = .call s.statusFn :: rest) := by
  constructor
  · intro h
    simp [poll_loop, herr, hrdy, h]
  · intro h
    have h' : ¬ (10 * 1000 < elapsed32 (e.uptime j) e.time) := by omega
    refine ⟨?_, fun r hr => poll_loop_starts s e fuel (j + 1) r hr⟩
    simp only [poll_loop, herr, hrdy, h']
    simp

set_option maxRecDepth 100000 in
/-- Witness of C21, under the clock that advances 2500 ms per wait: at the fourth
query exactly 10000 ms have elapsed and the loop goes on; at the fifth, 12500 ms
have elapsed and the loop times out. -/
theorem poll_step_witness :
    elapsed32 ((demo_wait none).uptime 3) (demo_wait none).time = 10000 ∧
    poll_loop scd41_poll (demo_wait none) 2 3 =
      (poll_loop scd41_poll (demo_wait none) 1 4).map (fun r =>
        { r with trace := [.call scd41_poll.statusFn, .k_usleep 100, .call "k_uptime_get_32"] ++
            r.trace }) ∧
    poll_loop scd41_poll (demo_wait none) 1 4 = some ⟨.timeout, false,
      [.call scd41_poll.statusFn, .k_usleep 100, .call "k_uptime_get_32",
       .log .err scd41_poll.timeoutMsg]⟩ :=
  ⟨by decide,
   ((poll_step scd41_poll (demo_wait none) 1 3 (by decide) (by decide)).2 (by decide)).1,
   (poll_step scd41_poll (demo_wait none) 0 4 (by decide) (by decide)).1 (by decide)⟩

/-- C26: let the poll loop start at uptime `T` and let the uptime be `T + e` with
`e < 2^32` at a later reading. The difference computed by the program from the
two 32-bit counter values is `e`, also when the counter has wrapped in between,
so the timeout test holds exactly when `e > 10000`; a poll loop whose query
reports neither an error nor the signal times out at that reading if
`e > 10000` and goes on otherwise. -/
theorem timeout_test_wraps (T e : Nat) (he : e < 2 ^ 32) :
    elapsed32 (T + e) T = e ∧
    elapsed32 ((T % 2 ^ 32 + e) % 2 ^ 32) (T % 2 ^ 32) = e ∧
    (10 * 1000 < elapsed32 (T + e) T ↔ 10000 < e) ∧
    ∀ (s : PollSite) (st : Nat → Int × Bool) (up : Nat → Nat) (fuel j : Nat),
      st j = (0, false) → up j = T + e →
      (10000 < e →
        poll_loop s ⟨T, st, up⟩ (fuel + 1) j = some ⟨.timeout, false,
          [.call s.statusFn, .k_usleep 100, .call "k_uptime_get_32", .log .err s.timeoutMsg]⟩) ∧
      (e ≤ 10000 →
        poll_loop s ⟨T, st, up⟩ (fuel + 1) j =
          (poll_loop s ⟨T, st, up⟩ fuel (j + 1)).map (fun r =>
            { r with
              trace := [.call s.statusFn, .k_usleep 100, .call "k_uptime_get_32"] ++ r.trace })) := by
  have h1 := elapsed32_add T e he
  refine ⟨h1, ?_, by rw [h1], ?_⟩
  · unfold elapsed32
    omega
  · intro s st up fuel j hst hup
    constructor
    · intro h
      simp [poll_loop, hst, hup, h1, h]
    · intro h
      have h' : ¬ (10000 < e) := by omega
      simp only [poll_loop, hst, hup, h1]
      simp [h']

/-- Witness of C26: a poll loop started 3000 ms before the counter wraps; 10001 ms
later the counter reads 7001 and the difference computed is 10001. -/
theorem timeout_test_wraps_witness :
    (2 ^ 32 - 3000 + 10001) % 2 ^ 32 = 7001 ∧
    elapsed32 (2 ^ 32 - 3000 + 10001) (2 ^ 32 - 3000) = 10001 ∧
    (10 * 1000 < elapsed32 (2 ^ 32 - 3000 + 10001) (2 ^ 32 - 3000) ↔ 10000 < 10001) :=
  ⟨by norm_num, (timeout_test_wraps (2 ^ 32 - 3000) 10001 (by norm_num)).1,
   (timeout_test_wraps (2 ^ 32 - 3000) 10001 (by norm_num)).2.2.1⟩

/-! ## Self-test of the SCD41: the logged temperature -/

/-- The pacing step in terms of the measured loop duration. -/
theorem pace_eq (P : Int) (lt u500 u501 : Nat) :
    pace P lt u500 u501 =
      if loop_duration lt u500 < P then
        (u501 % 2 ^ 32, [.call "k_uptime_get_32", .call "k_uptime_get_32",
                         .k_msleep (i32 (P - loop_duration lt u500))])
      else
        (u501 % 2 ^ 32, [.call "k_uptime_get_32", .call "k_uptime_get_32",
                         .log .wrn "Loop duration too long: %d ms"]) := rfl

/-- The measured duration is the true time since `loop_time` was read, as long
as that is less than `2^31` ms. -/
theorem loop_duration_add (T d : Nat) (hd : d < 2 ^ 31) :
    loop_duration (T % 2 ^ 32) (T + d) = d := by
  unfold loop_duration i32 elapsed32
  have h : (((T + d) % 2 ^ 32 + 2 ^ 32 - T % 2 ^ 32 % 2 ^ 32) % 2 ^ 32 : Nat) = d := by omega
  rw [h]
  omega

theorem loop_body_as7331_ends_with_pace (P : Int) (fuel : Nat) (e : IterEnv) (lt : Nat)
    (t0 t : List Event) (lt2 : Nat) (h : loop_body_as7331 P fuel e lt t0 = .next t lt2) :
    ∃ pre, t = pre ++ [.printf (csv_record (sensor_values e))] ++
      (pace P lt e.uptime_500 e.uptime_501).2 := by
  unfold loop_body_as7331 at h
  rcases hp : poll_loop as7331_poll
    ⟨e.as7331_time, as7331_status e.gpio_ext_as7331_ready, e.as7331_uptime⟩ fuel 0 with _ | r
  · simp [hp] at h
  · simp only [hp] at h
    split_ifs at h
    simp only [IterResult.next.injEq] at h
    obtain ⟨ht, _⟩ := h
    subst ht
    exact ⟨t0 ++ [.call "k_uptime_get_32"] ++ r.trace ++ [.call "as7331_read_all"] ++
      [.call "as7331_start_measurement"] ++ sync ++
      [.gpio_pin_set_dt "gpio_debug_1" 0, .call "k_uptime_get_32"], by simp⟩

theorem loop_body_bh1730_ends_with_pace (P : Int) (fuel : Nat) (e : IterEnv) (lt : Nat)
    (t0 t : List Event) (lt2 : Nat) (h : loop_body_bh1730 P fuel e lt t0 = .next t lt2) :
    ∃ pre, t = pre ++ [.printf (csv_record (sensor_values e))] ++
      (pace P lt e.uptime_500 e.uptime_501).2 := by
  unfold loop_body_bh1730 at h
  rcases hp : poll_loop bh1730_poll e.bh1730 fuel 0 with _ | r
  · simp [hp] at h
  · simp only [hp] at h
    split_ifs at h
    exact loop_body_as7331_ends_with_pace P fuel e lt _ t lt2 h

/-- An iteration that runs to its end reads the uptime twice right after
printing its record (lines 500 and 501) and then sleeps or warns. -/
theorem loop_body_ends_with_pace (P : Int) (fuel : Nat) (e : IterEnv) (lt : Nat)
    (t : List Event) (lt2 : Nat) (h : loop_body P fuel e lt = .next t lt2) :
    ∃ pre, t = pre ++ [.printf (csv_record (sensor_values e))] ++
      (pace P lt e.uptime_500 e.uptime_501).2 := by
  unfold loop_body at h
  rcases hp : poll_loop scd41_poll e.scd41 fuel 0 with _ | r
  · simp [hp] at h
  · simp only [hp] at h
    split_ifs at h
    exact loop_body_bh1730_ends_with_pace P fuel e lt _ t lt2 h

/-- C23: let two consecutive iterations run to their end, the first entered
with any `loop_time`. The second is entered with the uptime that the first read
at line 501, right after printing its record and before its sleep, and it
measures its loop duration from there. If the uptime at line 500 of the second
iteration is that reading plus `s + w` (the sleep `s` of the first iteration
and the work `w` of the second, together less than `2^31` ms), the measured
duration is `s + w`: with `SAMPLING_TIME <= s + w` the iteration logs the
overrun warning and does not sleep, otherwise it sleeps
`SAMPLING_TIME - (s + w)`. The measured duration is the work `w` alone when
`s = 0`, and in an iteration entered with a `loop_time` read at its own start
(the first one, line 320). -/
theorem duration_includes_previous_sleep (P : Int) (fuel : Nat) (e0 e1 : IterEnv)
    (lt0 lt1 lt2 : Nat) (t0 t1 : List Event)
    (h0 : loop_body P fuel e0 lt0 = .next t0 lt1)
    (h1 : loop_body P fuel e1 lt1 = .next t1 lt2) :
    lt1 = e0.uptime_501 % 2 ^ 32 ∧
    (∃ pre, t0 = pre ++ [.printf (csv_record (sensor_values e0))] ++
      (pace P lt0 e0.uptime_500 e0.uptime_501).2) ∧
    (∃ pre, t1 = pre ++ [.printf (csv_record (sensor_values e1))] ++
      (pace P (e0.uptime_501 % 2 ^ 32) e1.uptime_500 e1.uptime_501).2) ∧
    (∀ s w : Nat, e1.uptime_500 = e0.uptime_501 + s + w → s + w < 2 ^ 31 →
      loop_duration (e0.uptime_501 % 2 ^ 32) e1.uptime_500 = s + w ∧
      (P ≤ s + w →
        (pace P (e0.uptime_501 % 2 ^ 32) e1.uptime_500 e1.uptime_501).2 =
          [.call "k_uptime_get_32", .call "k_uptime_get_32",
           .log .wrn "Loop duration too long: %d ms"]) ∧
      (s + w < P →
        (pace P (e0.uptime_501 % 2 ^ 32) e1.uptime_500 e1.uptime_501).2 =
          [.call "k_uptime_get_32", .call "k_uptime_get_32", .k_msleep (i32 (P - (s + w)))]) ∧
      (s = 0 → loop_duration (e0.uptime_501 % 2 ^ 32) e1.uptime_500 = w)) ∧
    (∀ T w : Nat, lt0 = T % 2 ^ 32 → e0.uptime_500 = T + w → w < 2 ^ 31 →
      loop_duration lt0 e0.uptime_500 = w) := by
  have hlt : lt1 = e0.uptime_501 % 2 ^ 32 := by
    rcases loop_body_cases P fuel e0 lt0 with ⟨t, ht, _⟩ | ⟨t, ht, _⟩ | ⟨t, ht, _⟩
    · rw [ht] at h0; cases h0
    · rw [ht] at h0; cases h0
    · rw [ht] at h0; cases h0; rfl
  refine ⟨hlt, loop_body_ends_with_pace P fuel e0 lt0 t0 lt1 h0, ?_, ?_, ?_⟩
  · rw [← hlt]
    exact loop_body_ends_with_pace P fuel e1 lt1 t1 lt2 h1
  · intro s w hu hsw
    have hd : loop_duration (e0.uptime_501 % 2 ^ 32) e1.uptime_500 = ((s + w : Nat) : Int) := by
      rw [hu, Nat.add_assoc]
      exact loop_duration_add e0.uptime_501 (s + w) hsw
    refine ⟨by rw [hd]; push_cast; ring, ?_, ?_, ?_⟩
    · intro hP
      have : ¬ (((s + w : Nat) : Int) < P) := by push_cast; omega
      rw [pace_eq, hd, if_neg this]
    · intro hP
      have : (((s + w : Nat) : Int) < P) := by push_cast; omega
      rw [pace_eq, hd, if_pos this]
      push_cast
      rfl
    · intro hs
      rw [hd, hs]
      simp
  · intro T w hl hu hw
    rw [hl, hu]
    exact loop_duration_add T w hw

set_option maxRecDepth 100000 in
/-- Witness of C23: the first two iterations of the sample run with
`SAMPLING_TIME = 5000`. The first reads the uptime 300 at line 501 and sleeps
4700 ms; the second works 300 ms, measures 5000 ms and logs the warning. -/
theorem duration_includes_previous_sleep_witness :
    loop_duration (300 % 2 ^ 32) 5300 = ((4700 : Nat) : Int) + ((300 : Nat) : Int) ∧
    (pace 5000 (300 % 2 ^ 32) 5300 5300).2 =
      [.call "k_uptime_get_32", .call "k_uptime_get_32",
       .log .wrn "Loop duration too long: %d ms"] := by
  obtain ⟨t0, h0, _⟩ := loop_body_completes 5000 1 (demo_iter 0 300) 0 (by decide) (by decide)
    (by decide)
  obtain ⟨t1, h1, _⟩ := loop_body_completes 5000 1 (demo_iter 5000 300)
    ((demo_iter 0 300).uptime_501 % 2 ^ 32) (by decide) (by decide) (by decide)
  have h := (duration_includes_previous_sleep 5000 1 (demo_iter 0 300) (demo_iter 5000 300) 0 _ _
    t0 t1 h0 h1).2.2.2.1 4700 300 rfl (by norm_num)
  exact ⟨h.1, h.2.1 (by norm_num)⟩

/-! ## The first raw-signal measurement of the SGP41 -/

theorem raw_signals_error_not_in_poweron_as7331 (e : PoweronAs7331Env) :
    Event.log .err " * Error %d reading signals" ∉ (poweron_as7331 e).2 := by
  unfold poweron_as7331; simp only []; split_ifs <;> decide

theorem raw_signals_error_not_in_main_powerup_as7331 (env : MainEnv) (t : List Event)
    (h : Event.log .err " * Error %d reading signals" ∉ t) :
    Event.log .err " * Error %d reading signals" ∉ (main_powerup_as7331 env t).2 := by
  have h1 := raw_signals_error_not_in_poweron_as7331 env.poweron_as7331_1
  have h2 := raw_signals_error_not_in_poweron_as7331 env.poweron_as7331_2
  unfold main_powerup_as7331
  simp only []
  split_ifs <;> simp [h, h1, h2]

/-- C24: the power-up phase, and with it the whole run, is the same whatever the
first `sgp41_measure_raw_signals` returns; the message of the failure branch
that follows the call is never logged; and whenever the call is reached (the
SCD41 start and the SGP41 conditioning having succeeded) the success branch is
taken: the two raw values are logged and start-up goes on with the BH1730FVC. -/
theorem first_raw_signals_unchecked (env : MainEnv) :
    (∀ x, main_powerup { env with sgp41_measure_raw_signals := x } = main_powerup env) ∧
    (∀ x P fuel, main P fuel { env with sgp41_measure_raw_signals := x } = main P fuel env) ∧
    Event.log .err " * Error %d reading signals" ∉ (main_powerup env).2 ∧
    (env.scd4x_start_periodic_measurement = 0 → env.sgp41_execute_conditioning = 0 →
      ∃ pre post, (main_powerup env).2 =
        pre ++ [.call "sgp41_measure_raw_signals",
                .log .inf " - SRAW VOC                            : %u",
                .log .inf " - SRAW NOX                            : %u",
                .log .inf "Preparing BH1730FVC", .log .inf " - Turn on BH1730FVC",
                .call "poweron_bh1730"] ++ post) := by
  refine ⟨fun _ => rfl, fun _ _ _ => rfl, ?_, ?_⟩
  · have h1 : Event.log .err " * Error %d reading signals" ∉ (poweron_scd41 env.poweron_scd41).2 := by
      unfold poweron_scd41; simp only []; split_ifs <;> decide
    have h2 : Event.log .err " * Error %d reading signals" ∉ (poweron_sgp41 env.poweron_sgp41).2 := by
      unfold poweron_sgp41; simp only []; split_ifs <;> decide
    have h3 : Event.log .err " * Error %d reading signals" ∉
        (poweron_bh1730 env.bh1730_power_on).2 := by
      unfold poweron_bh1730; simp only []; split_ifs <;> decide
    unfold main_powerup
    simp only []
    split_ifs
    all_goals first
      | (apply raw_signals_error_not_in_main_powerup_as7331
         simp [h1, h2, h3])
      | simp [h1, h2, h3]
  · intro hs hc
    obtain ⟨pb, hpb⟩ : ∃ pb, (poweron_bh1730 env.bh1730_power_on).2 =
        .call "poweron_bh1730" :: pb := by
      unfold poweron_bh1730; simp only []; split_ifs <;> exact ⟨_, rfl⟩
    have hext : ∀ t, ∃ post, (main_powerup_as7331 env t).2 = t ++ post := by
      intro t
      unfold main_powerup_as7331
      simp only []
      split_ifs <;> exact ⟨_, by simp only [List.append_assoc]; rfl⟩
    refine ⟨[.log .inf "===== Gathering Data ======", .log .inf "Preparing SCD41",
        .log .inf " - Turn on SCD41"] ++ (poweron_scd41 env.poweron_scd41).2 ++
      [.call "scd4x_start_periodic_measurement", .log .inf "Preparing SGP41",
        .log .inf " - Turn on SGP41"] ++ (poweron_sgp41 env.poweron_sgp41).2 ++
      [.log .inf " - Start conditioning for 10s", .call "sgp41_execute_conditioning",
        .k_msleep 10000, .log .inf " - SRAW VOC (Conditioning)             : %u",
        .log .inf " - Start measuring raw signals"], ?_⟩
    unfold main_powerup
    simp only [hs, hc, NO_ERROR, ne_eq, not_true_eq_false, if_false]
    obtain ⟨post, hpost⟩ := hext
      ([Event.log Level.inf "===== Gathering Data ======", Event.log Level.inf "Preparing SCD41",
        Event.log Level.inf " - Turn on SCD41"] ++ (poweron_scd41 env.poweron_scd41).2 ++
        [Event.call "scd4x_start_periodic_measurement"] ++
        [Event.log Level.inf "Preparing SGP41", Event.log Level.inf " - Turn on SGP41"] ++
        (poweron_sgp41 env.poweron_sgp41).2 ++
        [Event.log Level.inf " - Start conditioning for 10s",
          Event.call "sgp41_execute_conditioning"] ++
        [Event.k_msleep 10000, Event.log Level.inf " - SRAW VOC (Conditioning)             : %u",
          Event.log Level.inf " - Start measuring raw signals",
          Event.call "sgp41_measure_raw_signals"] ++
        [Event.log Level.inf " - SRAW VOC                            : %u",
          Event.log Level.inf " - SRAW NOX                            : %u",
          Event.log Level.inf "Preparing BH1730FVC", Event.log Level.inf " - Turn on BH1730FVC"] ++
        (poweron_bh1730 env.bh1730_power_on).2 ++
        [Event.log Level.inf " - Configuring BH1730FVC", Event.call "bh1730_init"] ++
        [Event.log Level.inf " - Integration Time                    : %.2f ms",
          Event.log Level.inf " - Gain                                : x%d"])
    split_ifs
    all_goals first
      | exact ⟨_, by
          rw [hpost, hpb]; simp only [List.append_assoc, List.cons_append, List.nil_append]; rfl⟩
      | exact ⟨_, by rw [hpb]; simp only [List.append_assoc, List.cons_append, List.nil_append]; rfl⟩

/-- Witness of C24: in the sample run with a failing first raw-signal
measurement the power-up phase passes. -/
theorem first_raw_signals_unchecked_witness :
    (main_powerup { demo_env with sgp41_measure_raw_signals := -1 }).1 = none :=
  ((first_raw_signals_unchecked demo_env).1 (-1)).symm ▸ (by decide)

/-! ## Sensitivity of the ISM330DHCX -/

/-- C28: the two sensitivity lookups. For the full-scale codes 2g, 4g, 8g and 16g
`ism330dhcx_xl_sensitivity` returns 0 and stores the `float` constants 0.061f,
0.122f, 0.244f and 0.488f; for 125, 250, 500, 1000, 2000 and 4000 dps
`ism330dhcx_gy_sensitivity` returns 0 and stores 4.375, 8.75, 17.5, 35, 70 and
140; for any other code both return -1 and leave the stored value as it was;
return value and stored value do not depend on the error code of the register
read. The gyroscope constants are exact, each accelerometer constant is
within a relative `2^-24` of its decimal, and in both tables each entry is
exactly twice the previous one. -/
theorem sensitivity_lookup (error : Int) (sensitivity : Flt) :
    ((ism330dhcx_xl_sensitivity error .ISM330DHCX_2g sensitivity).1 = 0 ∧
      (ism330dhcx_xl_sensitivity error .ISM330DHCX_2g sensitivity).2.1 = Flt.lit 24 61 1000) ∧
    ((ism330dhcx_xl_sensitivity error .ISM330DHCX_4g sensitivity).1 = 0 ∧
      (ism330dhcx_xl_sensitivity error .ISM330DHCX_4g sensitivity).2.1 = Flt.lit 24 122 1000) ∧
    ((ism330dhcx_xl_sensitivity error .ISM330DHCX_8g sensitivity).1 = 0 ∧
      (ism330dhcx_xl_sensitivity error .ISM330DHCX_8g sensitivity).2.1 = Flt.lit 24 244 1000) ∧
    ((ism330dhcx_xl_sensitivity error .ISM330DHCX_16g sensitivity).1 = 0 ∧
      (ism330dhcx_xl_sensitivity error .ISM330DHCX_16g sensitivity).2.1 = Flt.lit 24 488 1000) ∧
    ((ism330dhcx_xl_sensitivity error .other sensitivity).1 = -1 ∧
      (ism330dhcx_xl_sensitivity error .other sensitivity).2.1 = sensitivity) ∧
    ((ism330dhcx_gy_sensitivity error .ISM330DHCX_125dps sensitivity).1 = 0 ∧
      (ism330dhcx_gy_sensitivity error .ISM330DHCX_125dps sensitivity).2.1.toRat = 4375 / 1000) ∧
    ((ism330dhcx_gy_sensitivity error .ISM330DHCX_250dps sensitivity).1 = 0 ∧
      (ism330dhcx_gy_sensitivity error .ISM330DHCX_250dps sensitivity).2.1.toRat = 875 / 100) ∧
    ((ism330dhcx_gy_sensitivity error .ISM330DHCX_500dps sensitivity).1 = 0 ∧
      (ism330dhcx_gy_sensitivity error .ISM330DHCX_500dps sensitivity).2.1.toRat = 175 / 10) ∧
    ((ism330dhcx_gy_sensitivity error .ISM330DHCX_1000dps sensitivity).1 = 0 ∧
      (ism330dhcx_gy_sensitivity error .ISM330DHCX_1000dps sensitivity).2.1.toRat = 35) ∧
    ((ism330dhcx_gy_sensitivity error .ISM330DHCX_2000dps sensitivity).1 = 0 ∧
      (ism330dhcx_gy_sensitivity error .ISM330DHCX_2000dps sensitivity).2.1.toRat = 70) ∧
    ((ism330dhcx_gy_sensitivity error .ISM330DHCX_4000dps sensitivity).1 = 0 ∧
      (ism330dhcx_gy_sensitivity error .ISM330DHCX_4000dps sensitivity).2.1.toRat = 140) ∧
    ((ism330dhcx_gy_sensitivity error .other sensitivity).1 = -1 ∧
      (ism330dhcx_gy_sensitivity error .other sensitivity).2.1 = sensitivity) ∧
    (∀ error2 raw,
      (ism330dhcx_xl_sensitivity error raw sensitivity).1 =
        (ism330dhcx_xl_sensitivity error2 raw sensitivity).1 ∧
      (ism330dhcx_xl_sensitivity error raw sensitivity).2.1 =
        (ism330dhcx_xl_sensitivity error2 raw sensitivity).2.1) ∧
    (∀ error2 raw,
      (ism330dhcx_gy_sensitivity error raw sensitivity).1 =
        (ism330dhcx_gy_sensitivity error2 raw sensitivity).1 ∧
      (ism330dhcx_gy_sensitivity error raw sensitivity).2.1 =
        (ism330dhcx_gy_sensitivity error2 raw sensitivity).2.1) ∧
    (|(Flt.lit 24 61 1000).toRat - 61 / 1000| ≤ 61 / 1000 / 2 ^ 24 ∧
      |(Flt.lit 24 122 1000).toRat - 122 / 1000| ≤ 122 / 1000 / 2 ^ 24 ∧
      |(Flt.lit 24 244 1000).toRat - 244 / 1000| ≤ 244 / 1000 / 2 ^ 24 ∧
      |(Flt.lit 24 488 1000).toRat - 488 / 1000| ≤ 488 / 1000 / 2 ^ 24) ∧
    ((Flt.lit 24 122 1000).toRat = 2 * (Flt.lit 24 61 1000).toRat ∧
      (Flt.lit 24 244 1000).toRat = 2 * (Flt.lit 24 122 1000).toRat ∧
      (Flt.lit 24 488 1000).toRat = 2 * (Flt.lit 24 244 1000).toRat) := by
  have a1 : Flt.lit 24 61 1000 = ⟨false, 16374563, -28⟩ := by decide
  have a2 : Flt.lit 24 122 1000 = ⟨false, 16374563, -27⟩ := by decide
  have a3 : Flt.lit 24 244 1000 = ⟨false, 16374563, -26⟩ := by decide
  have a4 : Flt.lit 24 488 1000 = ⟨false, 16374563, -25⟩ := by decide
  have g1 : Flt.lit 24 4375 1000 = ⟨false, 9175040, -21⟩ := by decide
  have g2 : Flt.lit 24 8750 1000 = ⟨false, 9175040, -20⟩ := by decide
  have g3 : Flt.lit 24 17500 1000 = ⟨false, 9175040, -19⟩ := by decide
  have g4 : Flt.lit 24 35000 1000 = ⟨false, 9175040, -18⟩ := by decide
  have g5 : Flt.lit 24 70000 1000 = ⟨false, 9175040, -17⟩ := by decide
  have g6 : Flt.lit 24 140000 1000 = ⟨false, 9175040, -16⟩ := by decide
  refine ⟨⟨rfl, rfl⟩, ⟨rfl, rfl⟩, ⟨rfl, rfl⟩, ⟨rfl, rfl⟩, ⟨rfl, rfl⟩, ⟨rfl, ?_⟩, ⟨rfl, ?_⟩, ⟨rfl, ?_⟩,
    ⟨rfl, ?_⟩, ⟨rfl, ?_⟩, ⟨rfl, ?_⟩, ⟨rfl, rfl⟩, ?_, ?_, ?_, ?_⟩
  · show (Flt.lit 24 4375 1000).toRat = _
    rw [g1]; norm_num [Flt.toRat]
  · show (Flt.lit 24 8750 1000).toRat = _
    rw [g2]; norm_num [Flt.toRat]
  · show (Flt.lit 24 17500 1000).toRat = _
    rw [g3]; norm_num [Flt.toRat]
  · show (Flt.lit 24 35000 1000).toRat = _
    rw [g4]; norm_num [Flt.toRat]
  · show (Flt.lit 24 70000 1000).toRat = _
    rw [g5]; norm_num [Flt.toRat]
  · show (Flt.lit 24 140000 1000).toRat = _
    rw [g6]; norm_num [Flt.toRat]
  · intro error2 raw
    cases raw <;> exact ⟨rfl, rfl⟩
  · intro error2 raw
    cases raw <;> exact ⟨rfl, rfl⟩
  · exact ⟨by simpa using Flt.lit_error 24 61 1000 (by norm_num),
      by simpa using Flt.lit_error 24 122 1000 (by norm_num),
      by simpa using Flt.lit_error 24 244 1000 (by norm_num),
      by simpa using Flt.lit_error 24 488 1000 (by norm_num)⟩
  · rw [a1, a2, a3, a4]
    refine ⟨?_, ?_, ?_⟩ <;> norm_num [Flt.toRat]

/-! ## Self-test of the PMIC: the mutex -/

/-- The measurement loop when every measurement that is left succeeds. -/
theorem max77654_loop_all (success : Nat → Bool) :
    ∀ (tbl : List (String × String × String)) (i : Nat),
      (∀ j, j < tbl.length → success (i + j) = true) →
      max77654_loop success tbl i = (true, measures tbl.length, tbl.map (fun v => v.2.2)) := by
  intro tbl
  induction tbl with
  | nil => intro i _; rfl
  | cons v rest ih =>
    intro i h
    have h0 : success i = true := by simpa using h 0 (by simp)
    have hr := ih (i + 1) (fun j hj => by
      have := h (j + 1) (by simpa using hj)
      rwa [show i + 1 + j = i + (j + 1) by omega])
    simp [max77654_loop, h0, hr, measures]

/-- The measurement loop when the measurement `k` steps ahead is the first to
fail. -/
theorem max77654_loop_fails (success : Nat → Bool) :
    ∀ (tbl : List (String × String × String)) (i k : Nat), k < tbl.length →
      (∀ j, j < k → success (i + j) = true) → success (i + k) = false →
      max77654_loop success tbl i =
        (false,
         measures k ++ [.call "max77654_measure", .log .err " * PMIC measure failed!"],
         (tbl.take (k + 1)).map (fun v => v.2.2)) := by
  intro tbl
  induction tbl with
  | nil => intro i k hk; simp at hk
  | cons v rest ih =>
    intro i k hk hpre hfail
    cases k with
    | zero =>
      have h0 : success i = false := by simpa using hfail
      simp [max77654_loop, h0, measures]
    | succ k =>
      have h0 : success i = true := by simpa using hpre 0 (by omega)
      have hr := ih (i + 1) k (by simpa using hk)
        (fun j hj => by
          have := hpre (j + 1) (by omega)
          rwa [show i + 1 + j = i + (j + 1) by omega])
        (by rwa [show i + 1 + k = i + (k + 1) by omega])
      simp [max77654_loop, h0, hr, measures]

theorem unlock_not_in_measures : ∀ k, Event.call "k_mutex_unlock" ∉ measures k := by
  intro k
  induction k with
  | zero => simp [measures]
  | succ k ih => simp [measures, ih]

theorem lock_not_in_measures : ∀ k, (measures k).count (Event.call "k_mutex_lock") = 0 := by
  intro k
  induction k with
  | zero => rfl
  | succ k ih =>
    rw [measures, List.count_append, ih]
    decide

/-- C25: `test_max77654` calls `k_mutex_lock` exactly once, before any
measurement. If the nine measurements succeed it passes the nine channels of
the table to `max77654_measure` in the order of the table and ends with
`k_mutex_unlock`. If the measurement of index `k` is the first to fail, it has
passed the first `k + 1` channels of the table, logs the failure and returns:
its trace ends there, without `k_mutex_unlock`. So the mutex is released if
and only if the nine measurements succeed. -/
theorem test_max77654_mutex (success : Nat → Bool) :
    (test_max77654 success).count (.call "k_mutex_lock") = 1 ∧
    (∃ post, test_max77654 success =
      [.call "test_max77654", .log .inf "Testing MAX77654 (PMIC)", .call "k_mutex_lock"] ++ post ∧
      post.count (.call "k_mutex_lock") = 0) ∧
    ((∀ i, i < 9 → success i = true) →
      test_max77654_channels success =
        ["MAX77654_AGND", "MAX77654_VSYS", "MAX77654_CHGIN_V", "MAX77654_CHGIN_I",
         "MAX77654_BATT_V", "MAX77654_BATT_I_CHG", "MAX77654_BATT_I_8MA2", "MAX77654_THM",
         "MAX77654_TBIAS"] ∧
      test_max77654 success =
        [.call "test_max77654", .log .inf "Testing MAX77654 (PMIC)", .call "k_mutex_lock"] ++
          measures 9 ++ [.call "k_mutex_unlock"]) ∧
    (∀ k, k < 9 → (∀ i, i < k → success i = true) → success k = false →
      test_max77654_channels success =
        (["MAX77654_AGND", "MAX77654_VSYS", "MAX77654_CHGIN_V", "MAX77654_CHGIN_I",
          "MAX77654_BATT_V", "MAX77654_BATT_I_CHG", "MAX77654_BATT_I_8MA2", "MAX77654_THM",
          "MAX77654_TBIAS"].take (k + 1)) ∧
      test_max77654 success =
        [.call "test_max77654", .log .inf "Testing MAX77654 (PMIC)", .call "k_mutex_lock"] ++
          measures k ++ [.call "max77654_measure", .log .err " * PMIC measure failed!"]) ∧
    (Event.call "k_mutex_unlock" ∈ test_max77654 success ↔ ∀ i, i < 9 → success i = true) := by
  have hall : (∀ i, i < 9 → success i = true) →
      max77654_loop success value_names 0 = (true, measures 9, value_names.map (fun v => v.2.2)) := by
    intro h
    exact max77654_loop_all success value_names 0 (fun j hj => by
      rw [Nat.zero_add]; exact h j (by simpa [value_names] using hj))
  have hfail : ∀ k, k < 9 → (∀ i, i < k → success i = true) → success k = false →
      max77654_loop success value_names 0 =
        (false, measures k ++ [.call "max77654_measure", .log .err " * PMIC measure failed!"],
         (value_names.take (k + 1)).map (fun v => v.2.2)) := by
    intro k hk hpre hf
    exact max77654_loop_fails success value_names 0 k (by simpa [value_names] using hk)
      (fun j hj => by rw [Nat.zero_add]; exact hpre j hj) (by rwa [Nat.zero_add])
  have hcases : (∀ i, i < 9 → success i = true) ∨
      ∃ k, k < 9 ∧ (∀ i, i < k → success i = true) ∧ success k = false := by
    classical
    by_cases h : ∀ i, i < 9 → success i = true
    · exact Or.inl h
    · right
      have hex : ∃ k, k < 9 ∧ success k = false := by
        by_contra hc
        apply h
        intro i hi
        by_contra hs
        exact hc ⟨i, hi, by simpa using hs⟩
      refine ⟨Nat.find hex, (Nat.find_spec hex).1, ?_, (Nat.find_spec hex).2⟩
      intro i hi
      have hmin := Nat.find_min hex hi
      have hlt : i < 9 := lt_trans hi (Nat.find_spec hex).1
      by_contra hs
      exact hmin ⟨hlt, by simpa using hs⟩
  have htrace_all : (∀ i, i < 9 → success i = true) → test_max77654 success =
      [.call "test_max77654", .log .inf "Testing MAX77654 (PMIC)", .call "k_mutex_lock"] ++
        measures 9 ++ [.call "k_mutex_unlock"] := by
    intro h
    simp [test_max77654, hall h]
  have htrace_fail : ∀ k, k < 9 → (∀ i, i < k → success i = true) → success k = false →
      test_max77654 success =
        [.call "test_max77654", .log .inf "Testing MAX77654 (PMIC)", .call "k_mutex_lock"] ++
          measures k ++ [.call "max77654_measure", .log .err " * PMIC measure failed!"] := by
    intro k hk hpre hf
    simp [test_max77654, hfail k hk hpre hf]
  have hpost : ∃ post, test_max77654 success =
      [.call "test_max77654", .log .inf "Testing MAX77654 (PMIC)", .call "k_mutex_lock"] ++ post ∧
      post.count (.call "k_mutex_lock") = 0 := by
    rcases hcases with h | ⟨k, hk, hpre, hf⟩
    · refine ⟨measures 9 ++ [.call "k_mutex_unlock"], by rw [htrace_all h, List.append_assoc], ?_⟩
      rw [List.count_append, lock_not_in_measures]
      decide
    · refine ⟨measures k ++ [.call "max77654_measure", .log .err " * PMIC measure failed!"],
        by rw [htrace_fail k hk hpre hf, List.append_assoc], ?_⟩
      rw [List.count_append, lock_not_in_measures]
      decide
  refine ⟨?_, hpost, ?_, ?_, ?_⟩
  · obtain ⟨post, hp, hc⟩ := hpost
    rw [hp, List.count_append, hc]
    decide
  · intro h
    refine ⟨?_, htrace_all h⟩
    simp only [test_max77654_channels, hall h]
    decide
  · intro k hk hpre hf
    refine ⟨?_, htrace_fail k hk hpre hf⟩
    simp only [test_max77654_channels, hfail k hk hpre hf]
    rw [List.map_take]
    rfl
  · constructor
    · intro hm
      rcases hcases with h | ⟨k, hk, hpre, hf⟩
      · exact h
      · rw [htrace_fail k hk hpre hf] at hm
        have := unlock_not_in_measures k
        simp [this] at hm
    · intro h
      rw [htrace_all h]
      simp

/-- Witness of C25: the fifth measurement fails; the five channels AGND, VSYS,
CHGIN_V, CHGIN_I and BATT_V have been passed and the mutex is not released. -/
theorem test_max77654_mutex_witness :
    test_max77654_channels (fun i => decide (i < 4)) =
      ["MAX77654_AGND", "MAX77654_VSYS", "MAX77654_CHGIN_V", "MAX77654_CHGIN_I",
       "MAX77654_BATT_V"] ∧
    test_max77654 (fun i => decide (i < 4)) =
      [.call "test_max77654", .log .inf "Testing MAX77654 (PMIC)", .call "k_mutex_lock"] ++
        measures 4 ++ [.call "max77654_measure", .log .err " * PMIC measure failed!"] :=
  (test_max77654_mutex (fun i => decide (i < 4))).2.2.2.1 4 (by norm_num)
    (fun i hi => by simpa using hi) (by simp)

/-! ## The ILPS28QSW objects -/

/-- C27: whatever the calls of `test_ilpS28qsw` answer, the objects that the
acquisition loop passes to `ilps28qsw_data_get` have their bus handle, the
address 0x5C and the two register callbacks set. `ilps28qsw_md` either holds
the mode assigned by `test_ilpS28qsw` (4 Hz, 16 averages, low-pass ODR/4,
1260 hPa) or is as it was at the start of `main`; it has changed only if the
reset command succeeded. If the reset command fails, `test_ilpS28qsw` returns
and `ilps28qsw_md` is as it was; if it succeeds and the routine returns,
`ilps28qsw_md` holds the assigned mode. -/
theorem ilps28qsw_md_assigned (fuel : Nat) (e : TestEnv) (g : Ilps28qswGlobals) :
    (main_loop_ilps28qsw fuel e g).ilps28qsw_ctx =
      ⟨"i2c_write_reg", "i2c_read_reg", "ilps28qsw_i2c_ctx"⟩ ∧
    (main_loop_ilps28qsw fuel e g).ilps28qsw_i2c_ctx = ⟨"i2c_b", 0x5C⟩ ∧
    ((main_loop_ilps28qsw fuel e g).ilps28qsw_md =
        ⟨"ILPS28QSW_4Hz", "ILPS28QSW_16_AVG", "ILPS28QSW_LPF_ODR_DIV_4", "ILPS28QSW_1260hPa"⟩ ∨
      (main_loop_ilps28qsw fuel e g).ilps28qsw_md = g.ilps28qsw_md) ∧
    ((main_loop_ilps28qsw fuel e g).ilps28qsw_md ≠ g.ilps28qsw_md →
      e.test_ilpS28qsw.ilps28qsw_init_set_reset = 0) ∧
    (e.test_ilpS28qsw.ilps28qsw_init_set_reset ≠ 0 →
      (∃ t, test_ilpS28qsw fuel e.test_ilpS28qsw = some t) ∧
      (main_loop_ilps28qsw fuel e g).ilps28qsw_md = g.ilps28qsw_md) ∧
    (e.test_ilpS28qsw.ilps28qsw_init_set_reset = 0 →
      (∃ t, test_ilpS28qsw fuel e.test_ilpS28qsw = some t) →
      (main_loop_ilps28qsw fuel e g).ilps28qsw_md =
        ⟨"ILPS28QSW_4Hz", "ILPS28QSW_16_AVG", "ILPS28QSW_LPF_ODR_DIV_4", "ILPS28QSW_1260hPa"⟩) := by
  unfold main_loop_ilps28qsw test_ilpS28qsw_globals
  by_cases h0 : e.test_ilpS28qsw.ilps28qsw_init_set_reset ≠ 0
  · rw [if_pos h0]
    refine ⟨rfl, rfl, Or.inr rfl, fun h => absurd rfl h, fun _ => ⟨?_, rfl⟩, fun h => absurd h h0⟩
    exact test_ilpS28qsw_returns fuel e.test_ilpS28qsw (Or.inl h0)
  · rw [if_neg h0]
    have h0' : e.test_ilpS28qsw.ilps28qsw_init_set_reset = 0 := by simpa using h0
    rcases hl : reset_loop "ilps28qsw_status_get" e.test_ilpS28qsw.sw_reset fuel 0 with _ | w
    · refine ⟨rfl, rfl, Or.inr rfl, fun _ => h0', fun h => absurd h0' h, fun _ ht => ?_⟩
      obtain ⟨t, ht⟩ := ht
      unfold test_ilpS28qsw at ht
      rw [if_neg h0] at ht
      simp [hl] at ht
    · exact ⟨rfl, rfl, Or.inl rfl, fun _ => h0', fun h => absurd h0' h, fun _ _ => rfl⟩

/-- Witness of C27: the reset command fails; `test_ilpS28qsw` returns and
`ilps28qsw_md` is left as it was. -/
theorem ilps28qsw_md_assigned_witness :
    (∃ t, test_ilpS28qsw 1 rough_test_env.test_ilpS28qsw = some t) ∧
    (main_loop_ilps28qsw 1 rough_test_env unset_globals).ilps28qsw_md =
      unset_globals.ilps28qsw_md :=
  (ilps28qsw_md_assigned 1 rough_test_env unset_globals).2.2.2.2.1 (by decide)

/-! ## The keep-going callback -/

theorem i32_uptime_ne_zero (T : Nat) (hT : T % 2 ^ 32 ≠ 0) :
    i32 ((T % 2 ^ 32 : Nat) : Int) ≠ 0 := by
  unfold i32
  omega

theorem i32_cases (a : Nat) (ha : a < 2 ^ 32) :
    i32 (a : Int) = a ∨ i32 (a : Int) = (a : Int) - 2 ^ 32 := by
  unfold i32
  omega

theorem i32_small (x : Int) (h0 : -(2 ^ 31) ≤ x) (h1 : x < 2 ^ 31) : i32 x = x := by
  unfold i32
  omega

theorem i32_add_mul (x k : Int) : i32 (x + k * 2 ^ 32) = i32 x := by
  unfold i32
  rw [add_right_comm, Int.add_mul_emod_self]

theorem i32_uptime_diff (T e : Nat) (he : e < 2 ^ 31) :
    i32 (i32 (((T + e) % 2 ^ 32 : Nat) : Int) - i32 ((T % 2 ^ 32 : Nat) : Int)) = (e : Int) := by
  have h1 : (T + e) % 2 ^ 32 = T % 2 ^ 32 + e ∨ (T + e) % 2 ^ 32 + 2 ^ 32 = T % 2 ^ 32 + e := by
    omega
  have ha : (T + e) % 2 ^ 32 < 2 ^ 32 := Nat.mod_lt _ (by norm_num)
  have hb : T % 2 ^ 32 < 2 ^ 32 := Nat.mod_lt _ (by norm_num)
  generalize (T + e) % 2 ^ 32 = a at h1 ha
  generalize T % 2 ^ 32 = b at h1 hb
  have hk : ∃ k : Int, i32 (a : Int) - i32 (b : Int) = (e : Int) + k * 2 ^ 32 := by
    rcases i32_cases a ha with h2 | h2 <;> rcases i32_cases b hb with h3 | h3 <;>
      rcases h1 with h1 | h1 <;> rw [h2, h3]
    all_goals first
      | exact ⟨0, by omega⟩
      | exact ⟨1, by omega⟩
      | exact ⟨-1, by omega⟩
      | exact ⟨-2, by omega⟩
  obtain ⟨k, hk⟩ := hk
  rw [hk, i32_add_mul]
  exact i32_small (e : Int) (by omega) (by omega)
/-- A call of `keepGoingCallback` made `e < 2^31` ms after the latched call
keeps `firstTime` and returns `false` exactly when `e` exceeds the limit. -/
theorem keepGoingCallback_latched (M : Int) (T e : Nat) (hT : T % 2 ^ 32 ≠ 0) (he : e < 2 ^ 31) :
    (keepGoingCallback M (i32 ((T % 2 ^ 32 : Nat) : Int)) (T + e)).1 = decide (¬ M < (e : Int)) ∧
    (keepGoingCallback M (i32 ((T % 2 ^ 32 : Nat) : Int)) (T + e)).2.1 =
      i32 ((T % 2 ^ 32 : Nat) : Int) := by
  simp only [keepGoingCallback]
  simp only [if_neg (i32_uptime_ne_zero T hT), i32_uptime_diff T e he]
  by_cases h : M < (e : Int)
  · simp [h]
  · simp [h]

theorem keepGoing_calls_latched (M : Int) (T : Nat) (hT : T % 2 ^ 32 ≠ 0) :
    ∀ es : List Nat, (∀ e ∈ es, e < 2 ^ 31) →
      keepGoing_calls M (i32 ((T % 2 ^ 32 : Nat) : Int)) (es.map (fun e => T + e)) =
        es.map (fun e : Nat => decide (¬ M < (e : Int))) := by
  intro es
  induction es with
  | nil => intro _; rfl
  | cons e es ih =>
    intro h
    have he : e < 2 ^ 31 := h e (List.mem_cons_self _ _)
    have hl := keepGoingCallback_latched M T e hT he
    simp only [List.map_cons, keepGoing_calls]
    rw [hl.1, hl.2, ih (fun x hx => h x (List.mem_cons_of_mem _ hx))]

/-- Counterexample of C29, with a limit of 20000 ms: the callback is called at
the uptimes 1 ms, 30001 ms and 2^31 + 1 ms, readings that do not decrease. The
first call latches 1 and returns `true`, the second returns `false`, and the
third, 2147483648 ms after the latched call, returns `true`: its `time_now` is
-2147483647 and its `time_diff` is -2147483648. -/
theorem keep_going_resumes :
    keepGoing_calls 20000 0 [1, 30001, 2 ^ 31 + 1] = [true, false, true] ∧
    (keepGoingCallback 20000 0 1).2.1 = 1 ∧
    (keepGoingCallback 20000 1 30001).2.1 = 1 ∧
    keepGoingCallback 20000 1 (2 ^ 31 + 1) =
      (true, 1, [.call "keepGoingCallback", .call "k_uptime_get_32",
        .log .dbg "MAX-M10S keep going callback: %8.1fs"]) := by
  decide

/-- C29, amended: with a limit that is not negative, a call made while
`firstTime` is 0 returns `true`; it latches its reading, unless that is 0. Let
the latching call be made at the uptime `T`. A later call made `e < 2^31` ms
after it leaves `firstTime` as latched and returns `false` exactly when `e`
exceeds the limit; hence successive calls made `es` ms after the latching call
return `true` first and then, for each `e` of `es`, whether `e` is within the
limit, and once a call has returned `false` every call at a later time
(less than `2^31` ms after the latching call) returns `false`. -/
theorem keep_going_latch (M : Int) (T : Nat) (es : List Nat) (hM : 0 ≤ M)
    (hT : T % 2 ^ 32 ≠ 0) (hes : ∀ e ∈ es, e < 2 ^ 31) :
    (∀ u : Nat, (keepGoingCallback M 0 u).1 = true ∧
      (keepGoingCallback M 0 u).2.1 = i32 ((u % 2 ^ 32 : Nat) : Int)) ∧
    (keepGoingCallback M 0 T).2.1 ≠ 0 ∧
    (∀ e : Nat, e < 2 ^ 31 →
      (keepGoingCallback M (keepGoingCallback M 0 T).2.1 (T + e)).2.1 =
        (keepGoingCallback M 0 T).2.1 ∧
      ((keepGoingCallback M (keepGoingCallback M 0 T).2.1 (T + e)).1 = false ↔ M < (e : Int))) ∧
    keepGoing_calls M 0 (T :: es.map (fun e => T + e)) =
      true :: es.map (fun e : Nat => decide (¬ M < (e : Int))) ∧
    (∀ e e2 : Nat, e ≤ e2 → e2 < 2 ^ 31 →
      (keepGoingCallback M (keepGoingCallback M 0 T).2.1 (T + e)).1 = false →
      (keepGoingCallback M (keepGoingCallback M 0 T).2.1 (T + e2)).1 = false) := by
  have h0 : ∀ u : Nat, (keepGoingCallback M 0 u).1 = true ∧
      (keepGoingCallback M 0 u).2.1 = i32 ((u % 2 ^ 32 : Nat) : Int) := by
    intro u
    have hz : i32 (i32 ((u % 2 ^ 32 : Nat) : Int) - i32 ((u % 2 ^ 32 : Nat) : Int)) = 0 := by
      rw [sub_self]
      decide
    have hM2 : ¬ (0 > M) := by omega
    simp only [keepGoingCallback, if_true, hz, if_neg hM2, and_self]
  have hlatch : (keepGoingCallback M 0 T).2.1 = i32 ((T % 2 ^ 32 : Nat) : Int) := (h0 T).2
  have hiff : ∀ e : Nat, e < 2 ^ 31 →
      ((keepGoingCallback M (i32 ((T % 2 ^ 32 : Nat) : Int)) (T + e)).1 = false ↔ M < (e : Int)) := by
    intro e he
    rw [(keepGoingCallback_latched M T e hT he).1]
    simp
  refine ⟨h0, ?_, ?_, ?_, ?_⟩
  · rw [hlatch]; exact i32_uptime_ne_zero T hT
  · intro e he
    rw [hlatch]
    exact ⟨(keepGoingCallback_latched M T e hT he).2, hiff e he⟩
  · simp only [keepGoing_calls]
    rw [(h0 T).1, hlatch, keepGoing_calls_latched M T hT es hes]
  · intro e e2 hle he2 hf
    rw [hlatch] at hf ⊢
    have h1 := (hiff e (by omega)).1 hf
    exact (hiff e2 he2).2 (by omega)

/-- Witness of C29, amended: limit 20000 ms, latching call at 1 ms, later calls
10000 ms, 20000 ms, 20001 ms and 2^31 - 1 ms after it. -/
theorem keep_going_latch_witness :
    keepGoing_calls 20000 0 [1, 1 + 10000, 1 + 20000, 1 + 20001, 1 + (2 ^ 31 - 1)] =
      [true, true, true, false, false] :=
  (keep_going_latch 20000 1 [10000, 20000, 20001, 2 ^ 31 - 1] (by decide) (by decide)
    (by decide)).2.2.2.1

/-! ## The coordinate text -/

theorem decimalAux_length : ∀ fuel k n, n < 10 ^ (k + 1) → (decimalAux fuel n).length ≤ k + 1 := by
  intro fuel
  induction fuel with
  | zero => intro k n _; simp [decimalAux]
  | succ f ih =>
    intro k n hn
    by_cases h : n / 10 = 0
    · simp [decimalAux, h]
    · simp only [decimalAux, if_neg h, List.length_append, List.length_singleton]
      cases k with
      | zero => exact absurd (by omega) h
      | succ k =>
        have : n / 10 < 10 ^ (k + 1) := by
          rw [Nat.div_lt_iff_lt_mul (by norm_num)]
          rw [pow_succ] at hn
          exact hn
        have := ih k (n / 10) this
        omega

theorem digitsN_zero : ∀ k, digitsN k 0 = List.replicate k '0' := by
  intro k
  induction k with
  | zero => rfl
  | succ k ih =>
    rw [digitsN, Nat.zero_div, ih, List.replicate_succ']

/-- The digits of `n`, padded with zeros to `k` characters, are its last `k`
digits when `n` has at most `k` digits. -/
theorem decimalAux_pad : ∀ k fuel n, 0 < k → n < fuel → n < 10 ^ k →
    List.replicate (k - (decimalAux fuel n).length) '0' ++ decimalAux fuel n = digitsN k n := by
  intro k
  induction k with
  | zero => intro fuel n hk; exact absurd hk (by decide)
  | succ k ih =>
    intro fuel n _ hf hn
    cases fuel with
    | zero => exact absurd hf (by omega)
    | succ f =>
      by_cases h : n / 10 = 0
      · simp only [decimalAux, if_pos h, List.nil_append, List.length_singleton, digitsN,
          Nat.add_sub_cancel]
        rw [h, digitsN_zero]
      · simp only [decimalAux, if_neg h, List.length_append, List.length_singleton, digitsN]
        have hk : 0 < k := by
          rcases Nat.eq_zero_or_pos k with hk | hk
          · subst hk
            exact absurd (by omega) h
          · exact hk
        have hlt : n / 10 < 10 ^ k := by
          rw [Nat.div_lt_iff_lt_mul (by norm_num)]
          rw [pow_succ] at hn
          exact hn
        have := ih f (n / 10) hk (by omega) hlt
        rw [Nat.add_sub_add_right, ← List.append_assoc, this]

/-- On a coordinate above `INT32_MIN`, `locStr` writes the sign, the degrees,
a point and seven digits. -/
theorem locStr_data (loc : Int) (h0 : -(2 ^ 31) < loc) (h1 : loc < 2 ^ 31) :
    (locStr loc).data = (if loc < 0 then ['-'] else []) ++ fmt_u (loc.natAbs / 10 ^ 7) ++ ['.'] ++
      digitsN 7 (loc.natAbs % 10 ^ 7) ∧
    (fmt_u (loc.natAbs / 10 ^ 7)).length ≤ 3 := by
  have habs : (if loc < 0 then i32 (-loc) else loc) = (loc.natAbs : Int) := by
    split_ifs with h
    · rw [i32_small (-loc) (by omega) (by omega)]
      omega
    · omega
  have hq : Int.tdiv (loc.natAbs : Int) 10000000 = ((loc.natAbs / 10 ^ 7 : Nat) : Int) := by
    rw [Int.tdiv_eq_ediv (by omega) (by norm_num)]
    norm_num
  have hr : Int.tmod (loc.natAbs : Int) 10000000 = ((loc.natAbs % 10 ^ 7 : Nat) : Int) := by
    rw [Int.tmod_eq_emod (by omega) (by norm_num)]
    norm_num
  have hlen : (fmt_u (loc.natAbs / 10 ^ 7)).length ≤ 3 :=
    decimalAux_length _ 2 _ (by omega)
  have hpad : List.replicate (7 - (fmt_u (loc.natAbs % 10 ^ 7)).length) '0' ++
      fmt_u (loc.natAbs % 10 ^ 7) = digitsN 7 (loc.natAbs % 10 ^ 7) :=
    decimalAux_pad 7 _ _ (by decide) (Nat.lt_succ_self _) (Nat.mod_lt _ (by norm_num))
  have hbody : (if loc < 0 then "-" else "").data ++
      fmt_d (Int.tdiv (if loc < 0 then i32 (-loc) else loc) 10000000) ++ ['.'] ++
      fmt_0d 7 (Int.tmod (if loc < 0 then i32 (-loc) else loc) 10000000) =
      (if loc < 0 then ['-'] else []) ++ fmt_u (loc.natAbs / 10 ^ 7) ++ ['.'] ++
      digitsN 7 (loc.natAbs % 10 ^ 7) := by
    rw [habs, hq, hr]
    have hn1 : ¬ (((loc.natAbs / 10 ^ 7 : Nat) : Int) < 0) := by omega
    have hn2 : ¬ (((loc.natAbs % 10 ^ 7 : Nat) : Int) < 0) := by omega
    simp only [fmt_d, fmt_0d, if_neg hn1, if_neg hn2, Int.natAbs_ofNat, List.nil_append, hpad]
    split_ifs <;> rfl
  refine ⟨?_, hlen⟩
  simp only [locStr]
  rw [hbody, List.take_of_length_le]
  simp only [List.length_append, List.length_singleton, digitsN_length]
  split_ifs
  · simp only [List.length_singleton]
    omega
  · simp only [List.length_nil]
    omega

/-- C30: for every `int32_t` coordinate `loc` above `INT32_MIN`, the text of
`locStr loc` is `-` exactly when `loc < 0`, then the decimal numeral of
`|loc| / 10^7` (integer division), a point, and `|loc| % 10^7` written with
exactly seven digits; the number it denotes is `loc / 10^7` exactly; and it
has at most 12 characters, fewer than the 24 that fit in the buffer. -/
theorem locStr_spec (loc : Int) (h0 : -(2 ^ 31) < loc) (h1 : loc < 2 ^ 31) :
    (locStr loc).data = (if loc < 0 then ['-'] else []) ++ fmt_u (loc.natAbs / 10 ^ 7) ++ ['.'] ++
      digitsN 7 (loc.natAbs % 10 ^ 7) ∧
    ((locStr loc).data.head? = some '-' ↔ loc < 0) ∧
    fmt_u (loc.natAbs / 10 ^ 7) ≠ [] ∧
    (∀ c ∈ fmt_u (loc.natAbs / 10 ^ 7), c.isDigit = true) ∧
    decode (fmt_u (loc.natAbs / 10 ^ 7)) = loc.natAbs / 10 ^ 7 ∧
    (digitsN 7 (loc.natAbs % 10 ^ 7)).length = 7 ∧
    (∀ c ∈ digitsN 7 (loc.natAbs % 10 ^ 7), c.isDigit = true) ∧
    decode (digitsN 7 (loc.natAbs % 10 ^ 7)) = loc.natAbs % 10 ^ 7 ∧
    sgn (decide (loc < 0)) * ((decode (fmt_u (loc.natAbs / 10 ^ 7)) : ℚ) +
      (decode (digitsN 7 (loc.natAbs % 10 ^ 7)) : ℚ) / 10 ^ 7) = (loc : ℚ) / 10 ^ 7 ∧
    (locStr loc).length ≤ 12 ∧
    (locStr loc).length < 25 := by
  obtain ⟨hdata, hlen⟩ := locStr_data loc h0 h1
  obtain ⟨hne, hdec, hdig⟩ := fmt_u_spec (loc.natAbs / 10 ^ 7)
  have hdecr : decode (digitsN 7 (loc.natAbs % 10 ^ 7)) = loc.natAbs % 10 ^ 7 := by
    rw [digitsN_decode, Nat.mod_mod]
  have hl12 : (locStr loc).length ≤ 12 := by
    show (locStr loc).data.length ≤ 12
    rw [hdata]
    simp only [List.length_append, List.length_singleton, digitsN_length]
    split_ifs
    · simp only [List.length_singleton]
      omega
    · simp only [List.length_nil]
      omega
  refine ⟨hdata, ?_, hne, fun c hc => (hdig c hc).1, hdec, digitsN_length _ _,
    fun c hc => (digitsN_digits _ _ c hc).1, hdecr, ?_, hl12, by omega⟩
  · rw [hdata]
    by_cases h : loc < 0
    · simp [h]
    · simp only [if_neg h, List.nil_append, iff_false_intro h, iff_false]
      cases hf : fmt_u (loc.natAbs / 10 ^ 7) with
      | nil => exact absurd hf hne
      | cons c cs =>
        have hc := (hdig c (by rw [hf]; exact List.mem_cons_self _ _)).1
        simp only [if_false, List.nil_append, List.cons_append, List.head?_cons,
          Option.some.injEq]
        intro hm
        rw [hm] at hc
        exact absurd hc (by decide)
  · rw [hdec, hdecr]
    have hsplit : (loc.natAbs : ℚ) =
        ((loc.natAbs / 10 ^ 7 : Nat) : ℚ) * 10 ^ 7 + ((loc.natAbs % 10 ^ 7 : Nat) : ℚ) := by
      have := Nat.div_add_mod loc.natAbs (10 ^ 7)
      have h2 : ((10 ^ 7 * (loc.natAbs / 10 ^ 7) + loc.natAbs % 10 ^ 7 : Nat) : ℚ) =
          (loc.natAbs : ℚ) := by rw [this]
      push_cast at h2
      linarith
    have habs : (loc : ℚ) = sgn (decide (loc < 0)) * (loc.natAbs : ℚ) := by
      by_cases h : loc < 0
      · have : (loc.natAbs : Int) = -loc := by omega
        have h3 : ((loc.natAbs : Int) : ℚ) = ((-loc : Int) : ℚ) := by rw [this]
        rw [Int.cast_natCast, Int.cast_neg] at h3
        simp only [sgn, h, decide_True, if_true]
        linarith
      · have : (loc.natAbs : Int) = loc := by omega
        have h3 : ((loc.natAbs : Int) : ℚ) = ((loc : Int) : ℚ) := by rw [this]
        rw [Int.cast_natCast] at h3
        simp only [sgn, h, decide_False, Bool.false_eq_true, if_false]
        linarith
    rw [habs, hsplit]
    field_simp

/-- Witness of C30: half a degree south or west keeps its sign, and the
longest text has 12 characters. -/
theorem locStr_spec_witness :
    (locStr (-5000000)).data = ['-'] ++ fmt_u 0 ++ ['.'] ++ digitsN 7 5000000 ∧
    (locStr (-2147483647)).length ≤ 12 :=
  ⟨(locStr_spec (-5000000) (by decide) (by decide)).1,
    (locStr_spec (-2147483647) (by decide) (by decide)).2.2.2.2.2.2.2.2.2.1⟩

/-- Sample texts of `locStr`. The last one is for `INT32_MIN`, whose negation
is `INT32_MIN` again. -/
theorem locStr_samples :
    locStr (-5000000) = "-0.5000000" ∧ locStr 85432109 = "8.5432109" ∧
    locStr 0 = "0.0000000" ∧ locStr (-2147483647) = "-214.7483647" ∧
    locStr 2147483647 = "214.7483647" ∧ locStr (-2147483648) = "--214.-7483648" := by
  decide

end SensorHub
